import Mathlib

/-!
Simple_Catapult: projectile damage and impact, catapult firing state machine, health,
zombie behaviour.

A shallow embedding of the parts of `Projectile.cpp`, `Catapult.cpp`, `Catapult.h`,
`Zombie.h`, `Zombie.cpp` and of the bomb block and the zombie pass of `main.cpp` that the
damage model, the firing state machine, the health bookkeeping and the zombie behaviour
state machine live in.

Modelling conventions.
* A C++ `float` is an element of an arbitrary linearly ordered field `K`; arithmetic is exact
  (rounding, infinities and NaN are not modelled).  Every definition that embeds code is
  computable and can be run at `K = ℚ`; analytic statements are made at `K = ℝ`.
* `sqrtf`, `cosf`, `sinf` (libm) are passed in as a record `MathFns K`; `realMath` is the record
  of the exact real functions.  `atan2f` is passed to the zombie functions as a function;
  `realAtan2` is the exact real one.
* The terrain is a record of its query functions; a null terrain pointer is `none`.
* OpenGL handles and the vertex buffer are render output and are not part of the state
  records; `rebuildGeometry` only writes those.
-/

namespace SimpleCatapult

/-! ## Vectors and library functions -/

/-- The type glm::vec3. -/
structure Vec3 (K : Type) where
  x : K
  y : K
  z : K
deriving DecidableEq, Repr

/-- The libm functions the program calls (sqrtf, cosf, sinf). -/
structure MathFns (K : Type) where
  sqrtf : K → K
  cosf : K → K
  sinf : K → K

namespace Vec3

variable {K : Type}

/-- Constructor glm::vec3(s): all three components equal. -/
def splat (s : K) : Vec3 K := ⟨s, s, s⟩

/-- Component-wise sum. -/
def add [Add K] (a b : Vec3 K) : Vec3 K := ⟨a.x + b.x, a.y + b.y, a.z + b.z⟩

/-- Vector times scalar. -/
def smul [Mul K] (a : Vec3 K) (s : K) : Vec3 K := ⟨a.x * s, a.y * s, a.z * s⟩

/-- Component-wise difference. -/
def sub [Sub K] (a b : Vec3 K) : Vec3 K := ⟨a.x - b.x, a.y - b.y, a.z - b.z⟩

/-- Dot product, glm::dot. -/
def dot [Add K] [Mul K] (a b : Vec3 K) : K := a.x * b.x + a.y * b.y + a.z * b.z

/-- Euclidean length, glm::length(v) = sqrt(dot(v, v)). -/
def length [Add K] [Mul K] (m : MathFns K) (a : Vec3 K) : K := m.sqrtf (dot a a)

end Vec3

/-! ## Projectile (Projectile.h, Projectile.cpp) -/

/-- Shatter fragment, struct Projectile::Fragment. -/
structure Fragment (K : Type) where
  position : Vec3 K
  velocity : Vec3 K
  life : K
  size : K
deriving DecidableEq, Repr

/-- The data members of class Projectile (GL handles and mesh vertex count left out). -/
structure Projectile (K : Type) where
  position : Vec3 K
  velocity : Vec3 K
  isLaunched : Bool
  hasHit : Bool
  damageApplied : Bool
  bucketOffsetX : K
  bucketOffsetY : K
  bucketOffsetZ : K
  impactTime : K
  isAnimating : Bool
  impactPosition : Vec3 K
  fragments : List (Fragment K)
  hasShattered : Bool
  baseDamage : K
  innerRadius : K
  outerRadius : K
  outerDamageMultiplier : K
deriving DecidableEq, Repr

/-- The collision queries of class Terrain that the projectile uses. -/
structure Terrain (K : Type) where
  getHeight : K → K → K
  checkTreeCollision : K → K → K → Bool
  checkWallCollision : K → K → K → Bool

namespace Projectile

variable {K : Type} [LinearOrderedField K]

/-- Constructor Projectile::Projectile(startPos). -/
def init (startPos : Vec3 K) : Projectile K where
  position := startPos
  velocity := Vec3.splat 0
  isLaunched := false
  hasHit := false
  damageApplied := false
  bucketOffsetX := 0
  bucketOffsetY := 1 / 10
  bucketOffsetZ := 0
  impactTime := 0
  isAnimating := false
  impactPosition := Vec3.splat 0
  fragments := []
  hasShattered := false
  baseDamage := 50
  innerRadius := 2
  outerRadius := 5
  outerDamageMultiplier := 3 / 10

/-- Method Projectile::calculateDamage. -/
def calculateDamage (p : Projectile K) (distanceFromImpact : K) : K :=
  if distanceFromImpact ≤ p.innerRadius then
    p.baseDamage
  else if distanceFromImpact ≤ p.outerRadius then
    let t := (distanceFromImpact - p.innerRadius) / (p.outerRadius - p.innerRadius)
    let damageMultiplier := 1 - (t * (1 - p.outerDamageMultiplier))
    p.baseDamage * damageMultiplier
  else
    0

/-- Method Projectile::launch. -/
def launch (p : Projectile K) (initialVelocity : Vec3 K) : Projectile K :=
  { p with
    velocity := initialVelocity
    isLaunched := true
    hasHit := false
    damageApplied := false
    isAnimating := false
    impactTime := 0
    hasShattered := false
    fragments := [] }

/-- Method Projectile::checkCollision: the returned flag and the projectile as the call leaves
it.  A null terrain pointer is none. -/
def checkCollision (p : Projectile K) (terrain : Option (Terrain K)) : Bool × Projectile K :=
  match terrain with
  | none => (false, p)
  | some t =>
    if p.hasHit then (false, p)
    else
      let terrainHeight := t.getHeight p.position.x p.position.z
      if p.position.y ≤ terrainHeight + 15 / 100 then
        (true, { p with position := { p.position with y := terrainHeight + 15 / 100 }, hasHit := true })
      else if t.checkTreeCollision p.position.x p.position.z (15 / 100) then
        (true, { p with hasHit := true })
      else if t.checkWallCollision p.position.x p.position.z (15 / 100) then
        (true, { p with hasHit := true })
      else (false, p)

/-- Body of the loop of Projectile::createShatterEffect for index i. -/
def mkFragment (m : MathFns K) (hitPosition : Vec3 K) (i : Nat) : Fragment K :=
  let numFragments : K := 24
  let goldenAngle : K := 2399963229728653 / 1000000000000000
  let theta : K := (i : K) * goldenAngle
  let y : K := 1 - (2 * (i : K)) / (numFragments - 1)
  let radius : K := m.sqrtf (1 - y * y)
  let speed : K := 3 + ((i % 7 : Nat) : K) * (4 / 10)
  { position := hitPosition
    velocity := ⟨radius * m.cosf theta * speed, y * speed + 1 / 2, radius * m.sinf theta * speed⟩
    life := 1
    size := 8 / 100 + ((i % 4 : Nat) : K) * (3 / 100) }

/-- Method Projectile::createShatterEffect. -/
def createShatterEffect (m : MathFns K) (p : Projectile K) (hitPosition : Vec3 K) :
    Projectile K :=
  if p.hasShattered then p
  else { p with hasShattered := true, fragments := (List.range 24).map (mkFragment m hitPosition) }

/-- Method Projectile::startImpactAnimation. -/
def startImpactAnimation (m : MathFns K) (p : Projectile K) (hitPosition : Vec3 K) :
    Projectile K :=
  createShatterEffect m
    { p with
      impactPosition := hitPosition
      position := hitPosition
      velocity := Vec3.splat 0
      isAnimating := true
      impactTime := 0
      hasShattered := false }
    hitPosition

/-- Loop body of Projectile::updateFragments. -/
def updateFragment (deltaTime : K) (frag : Fragment K) : Fragment K :=
  let position := frag.position.add (frag.velocity.smul deltaTime)
  let velocity := frag.velocity.add ((⟨0, -(981 / 100), 0⟩ : Vec3 K).smul deltaTime)
  let life := frag.life - deltaTime / 2
  let life := if life < 0 then 0 else life
  { frag with position := position, velocity := velocity.smul (98 / 100), life := life }

/-- Method Projectile::updateFragments. -/
def updateFragments (p : Projectile K) (deltaTime : K) : Projectile K :=
  { p with fragments := p.fragments.map (updateFragment deltaTime) }

/-- Method Projectile::update. -/
def update (m : MathFns K) (p : Projectile K) (deltaTime : K) (terrain : Option (Terrain K)) :
    Projectile K :=
  if p.isAnimating then
    let p1 := { p with impactTime := p.impactTime + deltaTime }
    let animationDuration : K := 2
    let p2 := p1.updateFragments deltaTime
    if animationDuration ≤ p2.impactTime then
      { p2 with isAnimating := false, isLaunched := false, fragments := [] }
    else p2
  else if p.isLaunched && !p.hasHit then
    let velocity := p.velocity.add ((⟨0, -(981 / 100), 0⟩ : Vec3 K).smul deltaTime)
    let p1 := { p with velocity := velocity, position := p.position.add (velocity.smul deltaTime) }
    let r := p1.checkCollision terrain
    if r.1 then startImpactAnimation m r.2 r.2.position else r.2
  else p

end Projectile

/-! ## Zombie (Zombie.h) -/

/-- The enum class ZombieBehavior. -/
inductive ZombieBehavior where
  | IDLE
  | PATROL
deriving DecidableEq, Repr

/-- The enum class ZombieAnimationState. -/
inductive ZombieAnimationState where
  | IDLE
  | WALKING
  | RUNNING
  | ATTACKING
deriving DecidableEq, Repr

/-- The data members of class Zombie (model pointer left out). -/
structure Zombie (K : Type) where
  position : Vec3 K
  rotation : Vec3 K
  speed : K
  scale : K
  alive : Bool
  isBoss : Bool
  health : K
  maxHealth : K
  behavior : ZombieBehavior
  detectionRadius : K
  isChasing : Bool
  attackRange : K
  runSpeedMultiplier : K
  patrolPointA : Vec3 K
  patrolPointB : Vec3 K
  currentPatrolTarget : Vec3 K
  patrolTowardsB : Bool
  currentAnimState : ZombieAnimationState
  animationTime : K
  animationSpeedMultiplier : K
  walkCycle : K
  walkSpeed : K
  isMoving : Bool
deriving DecidableEq, Repr

namespace Zombie

variable {K : Type} [LinearOrderedField K]

/-- Constructor Zombie::Zombie (model loading left out): the member initialiser list, and the
initial animation state the constructor body derives from the behaviour. -/
def init (position : Vec3 K) (scale speed : K) (behavior : ZombieBehavior)
    (detectionRadius : K) (isBoss : Bool) : Zombie K where
  position := position
  rotation := Vec3.splat 0
  speed := speed
  scale := scale
  alive := true
  isBoss := isBoss
  health := 100
  maxHealth := 100
  behavior := behavior
  detectionRadius := detectionRadius
  isChasing := false
  attackRange := 2
  runSpeedMultiplier := 3 / 2
  patrolPointA := position
  patrolPointB := position
  currentPatrolTarget := position
  patrolTowardsB := true
  currentAnimState :=
    match behavior with
    | ZombieBehavior.IDLE => ZombieAnimationState.IDLE
    | ZombieBehavior.PATROL => ZombieAnimationState.WALKING
  animationTime := 0
  animationSpeedMultiplier := 1
  walkCycle := 0
  walkSpeed := 8
  isMoving := false

/-- Method Zombie::isAlive. -/
def isAlive (z : Zombie K) : Bool := z.alive

/-- Method Zombie::setAlive. -/
def setAlive (z : Zombie K) (state : Bool) : Zombie K := { z with alive := state }

/-- Method Zombie::setHealth. -/
def setHealth (z : Zombie K) (newHealth : K) : Zombie K :=
  let z1 := { z with health := newHealth }
  if z1.health ≤ 0 then { z1 with health := 0, alive := false } else z1

/-- Method Zombie::setMaxHealth. -/
def setMaxHealth (z : Zombie K) (newMaxHealth : K) : Zombie K := { z with maxHealth := newMaxHealth }

/-- Method Zombie::takeDamage. -/
def takeDamage (z : Zombie K) (damage : K) : Zombie K :=
  let z1 := { z with health := z.health - damage }
  if z1.health ≤ 0 then { z1 with health := 0, alive := false } else z1

end Zombie

/-! ## Catapult (Catapult.h, Catapult.cpp) -/

/-- The data members of class Catapult.  Left out: the GL handles VAO and VBO, the vertex count
table and the never initialised armLength_old, none of which the state machine reads. -/
structure Catapult (K : Type) where
  armAngle : K
  isAnimating : Bool
  animationTime : K
  pivotPoint : Vec3 K
  plankWidthX : K
  plankDepthZ : K
  plankHeight : K
  tierCount : Int
  tierGap : K
  baseCenterY : K
  baseCenterZ : K
  baseCenterX : K
  wheelHalfWidthX : K
  wheelHalfDepthZ : K
  wheelRadius : K
  wheelThickness : K
  verticalPlank1X : K
  verticalPlank1Y : K
  verticalPlank1Z : K
  verticalPlank2X : K
  verticalPlank2Y : K
  verticalPlank2Z : K
  verticalPlank1Width : K
  verticalPlank1Height : K
  verticalPlank1Depth : K
  verticalPlank2Width : K
  verticalPlank2Height : K
  verticalPlank2Depth : K
  horizontalPlankX : K
  horizontalPlankY : K
  horizontalPlankZ : K
  horizontalPlankWidth : K
  horizontalPlankHeight : K
  horizontalPlankDepth : K
  ropeX : K
  ropeY : K
  ropeZ : K
  ropeWidth : K
  ropeHeight : K
  ropeDepth : K
  armPivotX : K
  armPivotY : K
  armPivotZ : K
  armWidth : K
  armHeight : K
  armDepth : K
  armLength : K
  startAngle : K
  endAngle : K
  animationDuration : K
  speed : K
  minSpeedAngle : K
  maxSpeedAngle : K
  minLaunchSpeed : K
  maxLaunchSpeed : K
  speedStep : K
  bucketOffsetX : K
  bucketOffsetY : K
  bucketOffsetZ : K
  bucketWidth : K
  bucketHeight : K
  bucketDepth : K
  bucketWallThickness : K
  rubberThickness : K
  rubberAttachArmOffset : K
  rubberBandsVisible : Bool
  releaseRopeThickness : K
  releaseRopeAttached : Bool
  ropeAttachArmOffset : K
  ropeAttachArmXOffset : K
  ropeAttachArmYOffset : K
  ropeAttachArmZOffset : K
  ropeBaseAttachX : K
  ropeBaseAttachY : K
  ropeBaseAttachZ : K
  position : Vec3 K
  rotation : K
  rotationSpeed : K
  moveSpeed : K
  frontWheelSteerAngle : K
  maxWheelSteerAngle : K
  wheelSteerSpeed : K
  health : K
  maxHealth : K
deriving DecidableEq, Repr

namespace Catapult

variable {K : Type} [LinearOrderedField K]

/-- The default member initialisers of Catapult.h together with the member initialiser list of
Catapult::Catapult (which sets armAngle -0.03, armLength 0), before the constructor body. -/
def defaults : Catapult K where
  armAngle := -(3 / 100)
  isAnimating := false
  animationTime := 0
  pivotPoint := ⟨0, 0, 0⟩
  plankWidthX := 225 / 100
  plankDepthZ := 62 / 100
  plankHeight := 8 / 100
  tierCount := 1
  tierGap := 2 / 100
  baseCenterY := -(22 / 100)
  baseCenterZ := 0
  baseCenterX := -(25 / 100)
  wheelHalfWidthX := 7 / 10
  wheelHalfDepthZ := 35 / 100
  wheelRadius := 18 / 100
  wheelThickness := 8 / 100
  verticalPlank1X := 0
  verticalPlank1Y := 35 / 100
  verticalPlank1Z := 30 / 100
  verticalPlank2X := 0
  verticalPlank2Y := 35 / 100
  verticalPlank2Z := -(30 / 100)
  verticalPlank1Width := 1 / 10
  verticalPlank1Height := 115 / 100
  verticalPlank1Depth := 1 / 100
  verticalPlank2Width := 1 / 10
  verticalPlank2Height := 115 / 100
  verticalPlank2Depth := 1 / 100
  horizontalPlankX := 0
  horizontalPlankY := 90 / 100
  horizontalPlankZ := 0
  horizontalPlankWidth := 8 / 100
  horizontalPlankHeight := 8 / 100
  horizontalPlankDepth := 59 / 100
  ropeX := 0
  ropeY := -(2 / 10)
  ropeZ := 0
  ropeWidth := 3 / 100
  ropeHeight := 3 / 100
  ropeDepth := 59 / 100
  armPivotX := 0
  armPivotY := -(2 / 10)
  armPivotZ := 0
  armWidth := 4 / 100
  armHeight := 4 / 100
  armDepth := 15 / 10
  armLength := 0
  startAngle := -(12 / 10)
  endAngle := -(15 / 10)
  animationDuration := 5 / 10
  speed := 1
  minSpeedAngle := -(11 / 10)
  maxSpeedAngle := -(3 / 100)
  minLaunchSpeed := 5
  maxLaunchSpeed := 15
  speedStep := 5 / 100
  bucketOffsetX := 0
  bucketOffsetY := 0
  bucketOffsetZ := 0
  bucketWidth := 4 / 10
  bucketHeight := 2 / 10
  bucketDepth := 4 / 10
  bucketWallThickness := 0
  rubberThickness := 15 / 1000
  rubberAttachArmOffset := 11 / 10
  rubberBandsVisible := true
  releaseRopeThickness := 2 / 100
  releaseRopeAttached := true
  ropeAttachArmOffset := 136 / 100
  ropeAttachArmXOffset := 0
  ropeAttachArmYOffset := 0
  ropeAttachArmZOffset := 0
  ropeBaseAttachX := -(1365 / 1000)
  ropeBaseAttachY := -(22 / 100)
  ropeBaseAttachZ := 0
  position := ⟨0, 0, 0⟩
  rotation := 0
  rotationSpeed := 15 / 10
  moveSpeed := 2
  frontWheelSteerAngle := 0
  maxWheelSteerAngle := 4 / 10
  wheelSteerSpeed := 3
  health := 100
  maxHealth := 100

/-- Method Catapult::updateArmAngleFromSpeed (the rebuildGeometry call writes render data only). -/
def updateArmAngleFromSpeed (c : Catapult K) : Catapult K :=
  let targetAngle := c.minSpeedAngle + (c.maxSpeedAngle - c.minSpeedAngle) * c.speed
  if !c.isAnimating then { c with armAngle := targetAngle, startAngle := targetAngle } else c

/-- Constructor Catapult::Catapult. -/
def init : Catapult K := updateArmAngleFromSpeed defaults

/-- Method Catapult::getArmAngle. -/
def getArmAngle (c : Catapult K) : K := c.armAngle

/-- Method Catapult::isFiring. -/
def isFiring (c : Catapult K) : Bool := c.isAnimating

/-- Method Catapult::fire. -/
def fire (c : Catapult K) : Catapult K :=
  if !c.isAnimating then
    { c with isAnimating := true, animationTime := 0, armAngle := c.startAngle,
             releaseRopeAttached := false }
  else c

/-- Method Catapult::reset. -/
def reset (c : Catapult K) : Catapult K :=
  let c1 := { c with isAnimating := false, animationTime := 0 }
  let c2 := c1.updateArmAngleFromSpeed
  { c2 with releaseRopeAttached := true }

/-- Method Catapult::update in exact arithmetic; powf(1 - t, 3) is the cube of 1 - t.  The same
statements with every float operation rounded to binary32 are Catapult.updateF32. -/
def update (c : Catapult K) (deltaTime : K) : Catapult K :=
  if c.isAnimating then
    let c1 := { c with animationTime := c.animationTime + deltaTime }
    if c1.animationDuration ≤ c1.animationTime then
      { c1 with armAngle := c1.endAngle, isAnimating := false }
    else
      let t := c1.animationTime / c1.animationDuration
      let t := 1 - (1 - t) ^ 3
      { c1 with armAngle := c1.startAngle + (c1.endAngle - c1.startAngle) * t }
  else c

/-- Method Catapult::increaseSpeed. -/
def increaseSpeed (c : Catapult K) : Catapult K :=
  if !c.isAnimating then
    let c1 := { c with speed := c.speed + c.speedStep }
    let c2 := if 1 < c1.speed then { c1 with speed := 1 } else c1
    c2.updateArmAngleFromSpeed
  else c

/-- Method Catapult::decreaseSpeed. -/
def decreaseSpeed (c : Catapult K) : Catapult K :=
  if !c.isAnimating then
    let c1 := { c with speed := c.speed - c.speedStep }
    let c2 := if c1.speed < 0 then { c1 with speed := 0 } else c1
    c2.updateArmAngleFromSpeed
  else c

/-- Method Catapult::getLaunchSpeed. -/
def getLaunchSpeed (c : Catapult K) : K :=
  c.minLaunchSpeed + (c.maxLaunchSpeed - c.minLaunchSpeed) * c.speed

/-- Method Catapult::getRotation. -/
def getRotation (c : Catapult K) : K := c.rotation

/-- Function glm::clamp(x, minVal, maxVal) = min(max(x, minVal), maxVal). -/
def glmClamp (x minVal maxVal : K) : K := min (max x minVal) maxVal

/-- Method Catapult::setHealth. -/
def setHealth (c : Catapult K) (newHealth : K) : Catapult K :=
  { c with health := glmClamp newHealth 0 c.maxHealth }

/-- Method Catapult::setMaxHealth. -/
def setMaxHealth (c : Catapult K) (newMaxHealth : K) : Catapult K :=
  { c with maxHealth := newMaxHealth }

/-- Method Catapult::takeDamage. -/
def takeDamage (c : Catapult K) (damage : K) : Catapult K :=
  let c1 := { c with health := c.health - damage }
  if c1.health < 0 then { c1 with health := 0 } else c1

/-- Method Catapult::isAlive. -/
def isAlive (c : Catapult K) : Bool := decide (0 < c.health)

/-- The health invariant of the data model: health lies in [0, maxHealth]. -/
def healthInvariant (c : Catapult K) : Prop := 0 ≤ c.health ∧ c.health ≤ c.maxHealth

/-- The speed invariant of the data model: speed lies in [0, 1] and startAngle is the linear
interpolation between minSpeedAngle and maxSpeedAngle at speed. -/
def speedInvariant (c : Catapult K) : Prop :=
  0 ≤ c.speed ∧ c.speed ≤ 1 ∧
    c.startAngle = c.minSpeedAngle + (c.maxSpeedAngle - c.minSpeedAngle) * c.speed

/-- The arm angle update computes at elapsed time e: ease-out cubic between startAngle and
endAngle. -/
def easedAngle (c : Catapult K) (e : K) : K :=
  c.startAngle + (c.endAngle - c.startAngle) * (1 - (1 - e / c.animationDuration) ^ 3)

end Catapult

/-- One call of the public interface that drives the firing state machine. -/
inductive CatapultOp (K : Type) where
  | increaseSpeed
  | decreaseSpeed
  | fire
  | update (deltaTime : K)
  | reset

/-- Perform one call. -/
def Catapult.step {K : Type} [LinearOrderedField K] (c : Catapult K) : CatapultOp K → Catapult K
  | CatapultOp.increaseSpeed => c.increaseSpeed
  | CatapultOp.decreaseSpeed => c.decreaseSpeed
  | CatapultOp.fire => c.fire
  | CatapultOp.update deltaTime => c.update deltaTime
  | CatapultOp.reset => c.reset

/-- The catapult after a sequence of calls made on a freshly constructed one. -/
def Catapult.run {K : Type} [LinearOrderedField K] (ops : List (CatapultOp K)) : Catapult K :=
  ops.foldl Catapult.step Catapult.init

/-! ## Orchestrator (the bomb block of main.cpp) -/

/-- A 3x3 matrix given by its columns (the linear part of a glm::mat4). -/
structure Mat3 (K : Type) where
  col0 : Vec3 K
  col1 : Vec3 K
  col2 : Vec3 K

/-- The xyz part of M * vec4(v, 0) for a glm::mat4 with linear part M. -/
def Mat3.mulDir {K : Type} [Add K] [Mul K] (M : Mat3 K) (v : Vec3 K) : Vec3 K :=
  ((M.col0.smul v.x).add (M.col1.smul v.y)).add (M.col2.smul v.z)

/-- Library function glm::normalize(v) = v * inversesqrt(dot(v, v)). -/
def glmNormalize {K : Type} [LinearOrderedField K] (m : MathFns K) (v : Vec3 K) : Vec3 K :=
  v.smul (1 / m.sqrtf (v.dot v))

/-- Library function glm::rotate(glm::mat4(1.0f), angle, v), linear part: the axis is
normalised and the matrix entries are those GLM writes into Rotate[i][j]. -/
def glmRotate {K : Type} [LinearOrderedField K] (m : MathFns K) (angle : K) (v : Vec3 K) :
    Mat3 K :=
  let c := m.cosf angle
  let s := m.sinf angle
  let axis := glmNormalize m v
  let temp : Vec3 K := ⟨(1 - c) * axis.x, (1 - c) * axis.y, (1 - c) * axis.z⟩
  { col0 := ⟨c + temp.x * axis.x, temp.x * axis.y + s * axis.z, temp.x * axis.z - s * axis.y⟩
    col1 := ⟨temp.y * axis.x - s * axis.z, c + temp.y * axis.y, temp.y * axis.z + s * axis.x⟩
    col2 := ⟨temp.z * axis.x + s * axis.y, temp.z * axis.y - s * axis.x, c + temp.z * axis.z⟩ }

/-- The exact real-valued libm functions. -/
noncomputable def realMath : MathFns ℝ := ⟨Real.sqrt, Real.cos, Real.sin⟩

/-- The exact real-valued atan2f(y, x): the argument of the point (x, y). -/
noncomputable def realAtan2 (y x : ℝ) : ℝ := Complex.arg ⟨x, y⟩

/-- The horizontal (X-Z) distance between two points. -/
noncomputable def horizontalDistance (a b : Vec3 ℝ) : ℝ :=
  Real.sqrt ((b.x - a.x) ^ 2 + (b.z - a.z) ^ 2)

section Orchestrator

variable {K : Type} [LinearOrderedField K]

/-- The projectile main constructs: new Projectile(glm::vec3(0.0f, 0.5f, 0.0f)). -/
def mainBomb : Projectile K := Projectile.init ⟨0, 1 / 2, 0⟩

/-- The velocity main passes to Projectile::launch (main.cpp, launch velocity computation). -/
def launchVelocity (m : MathFns K) (catapult : Catapult K) : Vec3 K :=
  let launchSpeed := catapult.getLaunchSpeed
  let armAngle := catapult.getArmAngle
  let tangentAngle := armAngle - 31415926535 / 10000000000 / 2
  let localLaunchVel : Vec3 K :=
    ⟨-launchSpeed * m.cosf tangentAngle, -launchSpeed * m.sinf tangentAngle, 0⟩
  let catapultRotation := catapult.getRotation
  let rotationMatrix := glmRotate m catapultRotation ⟨0, 1, 0⟩
  rotationMatrix.mulDir localLaunchVel

/-- The distance main computes between a zombie and the impact position: the length of the
difference with its y component replaced by 0. -/
def splashDistance (m : MathFns K) (bomb : Projectile K) (zombie : Zombie K) : K :=
  let zombiePos := zombie.position
  let impactPos := bomb.impactPosition
  Vec3.length m ⟨zombiePos.x - impactPos.x, 0, zombiePos.z - impactPos.z⟩

/-- Body of the zombie loop in the damage block of main. -/
def applySplash (m : MathFns K) (bomb : Projectile K) (zombie : Zombie K) : Zombie K :=
  if zombie.isAlive then
    let damage := bomb.calculateDamage (splashDistance m bomb zombie)
    if 0 < damage then zombie.takeDamage damage else zombie
  else zombie

/-- What the bomb block of main reads and writes. -/
structure Scene (K : Type) where
  bomb : Projectile K
  zombies : List (Zombie K)
  catapult : Catapult K

/-- Whether the damage block of main runs in a frame that starts with this bomb: the test
bomb->hasHit && !bomb->damageApplied made right after bomb->update. -/
def damagesZombies (m : MathFns K) (terrain : Terrain K) (deltaTime : K) (bomb : Projectile K) :
    Bool :=
  let bomb1 := bomb.update m deltaTime (some terrain)
  bomb1.hasHit && !bomb1.damageApplied

/-- Whether bomb->update detects the collision in a frame that starts with this bomb. -/
def collisionDetected (m : MathFns K) (terrain : Terrain K) (deltaTime : K)
    (bomb : Projectile K) : Bool :=
  !bomb.hasHit && (bomb.update m deltaTime (some terrain)).hasHit

/-- The else branch of the bomb block of main (the bomb is launched): update, splash damage,
auto-reset. -/
def flightFrame (m : MathFns K) (terrain : Terrain K) (deltaTime : K) (s : Scene K) : Scene K :=
  let bomb1 := s.bomb.update m deltaTime (some terrain)
  let s1 : Scene K :=
    if bomb1.hasHit && !bomb1.damageApplied then
      { s with bomb := { bomb1 with damageApplied := true }
               zombies := s.zombies.map (applySplash m bomb1) }
    else { s with bomb := bomb1 }
  if !s1.bomb.isLaunched && !s1.bomb.isAnimating && !s1.catapult.isFiring then
    { s1 with catapult := s1.catapult.reset
              bomb := { s1.bomb with isLaunched := false, hasHit := false, damageApplied := false } }
  else s1

/-- What one frame of a flight is run with: the terrain, the frame time, and the zombies and
catapult as the rest of the game loop left them. -/
structure FrameInput (K : Type) where
  terrain : Terrain K
  deltaTime : K
  zombies : List (Zombie K)
  catapult : Catapult K

/-- The bomb reset of respawnEverything in main: the bomb is put back into the bucket (the
position main computes there from the catapult start pose is passed in) and isLaunched, hasHit,
damageApplied and isAnimating are cleared. -/
def respawnBombReset (bomb : Projectile K) (bucketPosition : Vec3 K) : Projectile K :=
  { bomb with
    position := bucketPosition
    isLaunched := false
    hasHit := false
    damageApplied := false
    isAnimating := false }

/-- What can happen to a launched bomb in a frame of main: the bomb block runs its else branch,
or before that respawnEverything ran (the catapult died or every zombie is dead). -/
inductive FlightEvent (K : Type) where
  | frame (f : FrameInput K)
  | respawn (bucketPosition : Vec3 K)

/-- The frames of one flight, from a launch on.  While the bomb is launched main runs
flightFrame once per frame; for each such frame the result records whether the collision was
detected in it and whether the damage block ran in it.  The flight is over when the bomb is
no longer launched: after the frame in which update ended the impact animation, or after a
respawn.  The second component is the bomb as the flight left it. -/
def flight (m : MathFns K) : List (FlightEvent K) → Projectile K → List (Bool × Bool) × Projectile K
  | [], bomb => ([], bomb)
  | FlightEvent.respawn bucketPosition :: _, bomb => ([], respawnBombReset bomb bucketPosition)
  | FlightEvent.frame f :: rest, bomb =>
    if bomb.isLaunched then
      let r := flight m rest (flightFrame m f.terrain f.deltaTime ⟨bomb, f.zombies, f.catapult⟩).bomb
      ((collisionDetected m f.terrain f.deltaTime bomb,
        damagesZombies m f.terrain f.deltaTime bomb) :: r.1, r.2)
    else ([], bomb)

/-- A terrain of constant height 0 without trees and walls. -/
def flatTerrain : Terrain K := ⟨fun _ _ => 0, fun _ _ _ => false, fun _ _ _ => false⟩

end Orchestrator

/-! ## Zombie behaviour (Zombie.cpp) -/

namespace Zombie

variable {K : Type} [LinearOrderedField K]

/-- Method Zombie::getHealth. -/
def getHealth (z : Zombie K) : K := z.health

/-- Method Zombie::getPosition. -/
def getPosition (z : Zombie K) : Vec3 K := z.position

/-- Method Zombie::setPosition. -/
def setPosition (z : Zombie K) (newPosition : Vec3 K) : Zombie K :=
  { z with position := newPosition }

/-- Method Zombie::getSpeed. -/
def getSpeed (z : Zombie K) : K := z.speed

/-- Method Zombie::getIsBoss. -/
def getIsBoss (z : Zombie K) : Bool := z.isBoss

/-- Method Zombie::isAttacking. -/
def isAttacking (z : Zombie K) : Bool :=
  decide (z.currentAnimState = ZombieAnimationState.ATTACKING)

/-- The invariant of the data model: alive exactly when health is positive. -/
def aliveInvariant (z : Zombie K) : Prop := z.isAlive = true ↔ 0 < z.getHealth

/-- Method Zombie::setAnimationState (loading the clip into the model is render state). -/
def setAnimationState (z : Zombie K) (state : ZombieAnimationState) : Zombie K :=
  if z.currentAnimState ≠ state then
    let z1 :=
      if state = ZombieAnimationState.ATTACKING ∧
          z.currentAnimState = ZombieAnimationState.RUNNING then
        { z with isMoving := false, animationTime := 0 }
      else z
    { z1 with currentAnimState := state, animationTime := 0 }
  else z

/-- Method Zombie::setPatrolPoints. -/
def setPatrolPoints (z : Zombie K) (pointA pointB : Vec3 K) : Zombie K :=
  { z with patrolPointA := pointA, patrolPointB := pointB, currentPatrolTarget := pointB,
           patrolTowardsB := true }

/-- Method Zombie::moveTowardsTarget; atan2f (libm) is passed in. -/
def moveTowardsTarget (m : MathFns K) (atan2f : K → K → K) (z : Zombie K) (deltaTime : K)
    (targetPosition : Vec3 K) (terrainHeight : K) : Zombie K :=
  let direction := targetPosition.sub z.position
  let direction : Vec3 K := { direction with y := 0 }
  let distance := direction.length m
  if 1 / 10 < distance then
    let direction := glmNormalize m direction
    let effectiveSpeed :=
      if z.currentAnimState = ZombieAnimationState.RUNNING then z.speed * z.runSpeedMultiplier
      else z.speed
    let angle := atan2f direction.x direction.z
    let walkCycle := z.walkCycle + z.walkSpeed * deltaTime
    let walkCycle :=
      if 2 * (314159 / 100000) < walkCycle then walkCycle - 2 * (314159 / 100000) else walkCycle
    { z with
      isMoving := true
      position := ⟨z.position.x + direction.x * effectiveSpeed * deltaTime, terrainHeight,
                   z.position.z + direction.z * effectiveSpeed * deltaTime⟩
      rotation := { z.rotation with y := angle }
      walkCycle := walkCycle }
  else
    { z with isMoving := false, walkCycle := z.walkCycle * (95 / 100) }

/-- The attack branch, the same statements in Zombie::updateIdle and Zombie::updatePatrol. -/
def attackBranch (m : MathFns K) (atan2f : K → K → K) (z : Zombie K)
    (targetPosition : Vec3 K) (terrainHeight : K) : Zombie K :=
  let z1 := { z with isChasing := false, isMoving := false }
  let z2 := z1.setAnimationState ZombieAnimationState.ATTACKING
  let z3 := { z2 with position := { z2.position with y := terrainHeight } }
  let direction := targetPosition.sub z3.position
  let direction : Vec3 K := { direction with y := 0 }
  if 1 / 100 < direction.length m then
    let direction := glmNormalize m direction
    let angle := atan2f direction.x direction.z
    { z3 with rotation := { z3.rotation with y := angle } }
  else z3

/-- Method Zombie::updateIdle. -/
def updateIdle (m : MathFns K) (atan2f : K → K → K) (z : Zombie K) (deltaTime : K)
    (targetPosition : Vec3 K) (terrainHeight distanceToCatapult : K) : Zombie K :=
  if distanceToCatapult ≤ z.attackRange then
    attackBranch m atan2f z targetPosition terrainHeight
  else if distanceToCatapult ≤ z.detectionRadius then
    let z1 := { z with isChasing := true }
    let z2 := z1.setAnimationState ZombieAnimationState.RUNNING
    moveTowardsTarget m atan2f z2 deltaTime targetPosition terrainHeight
  else
    let z1 := { z with isChasing := false, isMoving := false }
    let z2 := z1.setAnimationState ZombieAnimationState.IDLE
    { z2 with position := { z2.position with y := terrainHeight } }

/-- Method Zombie::updatePatrol. -/
def updatePatrol (m : MathFns K) (atan2f : K → K → K) (z : Zombie K) (deltaTime : K)
    (targetPosition : Vec3 K) (terrainHeight distanceToCatapult : K) : Zombie K :=
  if distanceToCatapult ≤ z.attackRange then
    attackBranch m atan2f z targetPosition terrainHeight
  else if distanceToCatapult ≤ z.detectionRadius then
    let z1 := { z with isChasing := true }
    let z2 := z1.setAnimationState ZombieAnimationState.RUNNING
    moveTowardsTarget m atan2f z2 deltaTime targetPosition terrainHeight
  else
    let z1 := { z with isChasing := false }
    let z2 := z1.setAnimationState ZombieAnimationState.WALKING
    let direction := z2.currentPatrolTarget.sub z2.position
    let direction : Vec3 K := { direction with y := 0 }
    let distanceToTarget := direction.length m
    let z3 :=
      if distanceToTarget < 1 / 2 then
        if z2.patrolTowardsB then
          { z2 with currentPatrolTarget := z2.patrolPointA, patrolTowardsB := false }
        else
          { z2 with currentPatrolTarget := z2.patrolPointB, patrolTowardsB := true }
      else z2
    moveTowardsTarget m atan2f z3 deltaTime z3.currentPatrolTarget terrainHeight

/-- Method Zombie::update (updateAnimation only advances the clip of the model). -/
def update (m : MathFns K) (atan2f : K → K → K) (z : Zombie K) (deltaTime : K)
    (targetPosition : Vec3 K) (terrainHeight distanceToCatapult : K) : Zombie K :=
  if !z.alive then z
  else
    match z.behavior with
    | ZombieBehavior.IDLE =>
      updateIdle m atan2f z deltaTime targetPosition terrainHeight distanceToCatapult
    | ZombieBehavior.PATROL =>
      updatePatrol m atan2f z deltaTime targetPosition terrainHeight distanceToCatapult

end Zombie

/-- The position Projectile::update integrates to before it tests for a collision: the
velocity first takes the gravity step, then the position moves by the new velocity. -/
def Projectile.integratedPosition {K : Type} [LinearOrderedField K] (p : Projectile K)
    (deltaTime : K) : Vec3 K :=
  p.position.add ((p.velocity.add ((⟨0, -(981 / 100), 0⟩ : Vec3 K).smul deltaTime)).smul deltaTime)

/-- Every write to the bomb in the program: the methods launch and update, and the direct
field writes of main (the bucket tracking of the resting bomb, the damageApplied mark of the
damage block, the auto-reset with its guard on isLaunched and isAnimating, and the bomb reset
of respawnEverything). -/
inductive BombOp (K : Type) where
  | launch (initialVelocity : Vec3 K)
  | update (deltaTime : K) (terrain : Option (Terrain K))
  | trackBucket (bucketPosition : Vec3 K)
  | markDamageApplied
  | autoReset
  | respawn (bucketPosition : Vec3 K)

/-- Perform one write to the bomb. -/
def BombOp.apply {K : Type} [LinearOrderedField K] (m : MathFns K) (bomb : Projectile K) :
    BombOp K → Projectile K
  | BombOp.launch initialVelocity => bomb.launch initialVelocity
  | BombOp.update deltaTime terrain => bomb.update m deltaTime terrain
  | BombOp.trackBucket bucketPosition => { bomb with position := bucketPosition }
  | BombOp.markDamageApplied => { bomb with damageApplied := true }
  | BombOp.autoReset =>
    if !bomb.isLaunched && !bomb.isAnimating then
      { bomb with isLaunched := false, hasHit := false, damageApplied := false }
    else bomb
  | BombOp.respawn bucketPosition => respawnBombReset bomb bucketPosition

/-- The bomb after a sequence of writes made to a freshly constructed one. -/
def bombAfter {K : Type} [LinearOrderedField K] (m : MathFns K) (startPos : Vec3 K)
    (ops : List (BombOp K)) : Projectile K :=
  ops.foldl (BombOp.apply m) (Projectile.init startPos)

/-! ## Orchestrator (the zombie pass of main.cpp) -/

section ZombiePass

variable {K : Type} [LinearOrderedField K]

/-- What one iteration of the zombie loop of main reads: the terrain, the frame time, the
catapult position of this frame, and the zombie and the catapult as they are when the
iteration starts. -/
structure ZombieFrame (K : Type) where
  terrain : Terrain K
  deltaTime : K
  catapultPos : Vec3 K
  zombie : Zombie K
  catapult : Catapult K

/-- The cooldown of the zombie after the decrement at the top of the loop body (an entry
missing from the map is first created with 0 and is passed as 0). -/
def cooldownTick (f : ZombieFrame K) (cooldown : K) : K :=
  let cooldown1 := cooldown - f.deltaTime
  if cooldown1 < 0 then 0 else cooldown1

/-- The distance main passes to Zombie::update, taken before the update. -/
def distanceToCatapult (m : MathFns K) (f : ZombieFrame K) : K :=
  (f.catapultPos.sub f.zombie.getPosition).length m

/-- The zombie after zombie->update in the loop body. -/
def zombieAfterUpdate (m : MathFns K) (atan2f : K → K → K) (f : ZombieFrame K) : Zombie K :=
  let zombiePos := f.zombie.getPosition
  let terrainHeight := f.terrain.getHeight zombiePos.x zombiePos.z
  f.zombie.update m atan2f f.deltaTime f.catapultPos terrainHeight (distanceToCatapult m f)

/-- Whether the loop body damages the catapult: the zombie is alive and the attack test after
zombie->update holds. -/
def attacksCatapult (m : MathFns K) (atan2f : K → K → K) (f : ZombieFrame K) (cooldown : K) :
    Bool :=
  f.zombie.isAlive &&
    ((zombieAfterUpdate m atan2f f).isAttacking && decide (distanceToCatapult m f ≤ 25 / 10) &&
      decide (cooldownTick f cooldown ≤ 0) && f.catapult.isAlive)

/-- The loop body of the zombie pass of main up to and including the attack on the catapult
(the obstacle avoidance that follows moves the zombie only): the zombie, its cooldown and the
catapult afterwards. -/
def zombieAttackBlock (m : MathFns K) (atan2f : K → K → K) (f : ZombieFrame K) (cooldown : K) :
    Zombie K × K × Catapult K :=
  if f.zombie.isAlive then
    let cooldown1 := cooldownTick f cooldown
    let distance := distanceToCatapult m f
    let zombie1 := zombieAfterUpdate m atan2f f
    if zombie1.isAttacking && decide (distance ≤ 25 / 10) && decide (cooldown1 ≤ 0) &&
        f.catapult.isAlive then
      let damage : K := if zombie1.getIsBoss then 20 else 10
      let attackInterval : K := 1
      (zombie1, attackInterval, f.catapult.takeDamage damage)
    else (zombie1, cooldown1, f.catapult)
  else (f.zombie, cooldown, f.catapult)

/-- The cooldown of one zombie after a run of frames. -/
def cooldownAfter (m : MathFns K) (atan2f : K → K → K) (cooldown : K)
    (frames : List (ZombieFrame K)) : K :=
  frames.foldl (fun c f => (zombieAttackBlock m atan2f f c).2.1) cooldown

/-- A frame of the zombie pass on flat terrain: a freshly constructed boss zombie at the origin
(IDLE behaviour, detectionRadius 16), the catapult as constructed standing at (0, 0, 1). -/
def bossFrame (deltaTime : K) : ZombieFrame K :=
  { terrain := flatTerrain
    deltaTime := deltaTime
    catapultPos := ⟨0, 0, 1⟩
    zombie := Zombie.init ⟨0, 0, 0⟩ (1 / 50) 1 ZombieBehavior.IDLE 16 true
    catapult := Catapult.init }

/-- The obstacle avoidance at the end of the loop body of the zombie pass of main: zombie1 is
the zombie after zombie->update, the old position and the terrain height are those taken before
the update. -/
def avoidObstacle (m : MathFns K) (f : ZombieFrame K) (zombie1 : Zombie K) : Zombie K :=
  let oldZombiePos := f.zombie.getPosition
  let terrainHeight := f.terrain.getHeight oldZombiePos.x oldZombiePos.z
  let newZombiePos := zombie1.getPosition
  if f.terrain.checkTreeCollision newZombiePos.x newZombiePos.z (25 / 100) ||
      f.terrain.checkWallCollision newZombiePos.x newZombiePos.z (25 / 100) then
    let direction0 : Vec3 K := { f.catapultPos.sub oldZombiePos with y := 0 }
    let dist := direction0.length m
    if 1 / 10 < dist then
      let direction := glmNormalize m direction0
      let perpLeft : Vec3 K := ⟨-direction.z, 0, direction.x⟩
      let tryPosLeft := oldZombiePos.add ((perpLeft.smul zombie1.getSpeed).smul f.deltaTime)
      if !f.terrain.checkTreeCollision tryPosLeft.x tryPosLeft.z (25 / 100) &&
          !f.terrain.checkWallCollision tryPosLeft.x tryPosLeft.z (25 / 100) then
        zombie1.setPosition ⟨tryPosLeft.x, terrainHeight, tryPosLeft.z⟩
      else
        let perpRight : Vec3 K := ⟨direction.z, 0, -direction.x⟩
        let tryPosRight := oldZombiePos.add ((perpRight.smul zombie1.getSpeed).smul f.deltaTime)
        if !f.terrain.checkTreeCollision tryPosRight.x tryPosRight.z (25 / 100) &&
            !f.terrain.checkWallCollision tryPosRight.x tryPosRight.z (25 / 100) then
          zombie1.setPosition ⟨tryPosRight.x, terrainHeight, tryPosRight.z⟩
        else
          zombie1.setPosition ⟨oldZombiePos.x, terrainHeight, oldZombiePos.z⟩
    else
      zombie1.setPosition ⟨oldZombiePos.x, terrainHeight, oldZombiePos.z⟩
  else zombie1

/-- The whole loop body of the zombie pass of main for one zombie: the attack block, then the
obstacle avoidance; a dead zombie is skipped. -/
def zombieLoopBody (m : MathFns K) (atan2f : K → K → K) (f : ZombieFrame K) (cooldown : K) :
    Zombie K × K × Catapult K :=
  if f.zombie.isAlive then
    let r := zombieAttackBlock m atan2f f cooldown
    (avoidObstacle m f r.1, r.2.1, r.2.2)
  else (f.zombie, cooldown, f.catapult)

/-- Whether a point is free of trees and walls for a zombie (collision radius 0.25). -/
def collisionFree (t : Terrain K) (p : Vec3 K) : Bool :=
  !t.checkTreeCollision p.x p.z (25 / 100) && !t.checkWallCollision p.x p.z (25 / 100)

/-- A frame of the zombie pass in which a hedge of trees covers every point with x > -0.01:
a freshly constructed boss zombie at the origin (speed 0.02), the catapult as constructed
standing at (0, 0, 1), a frame time of 1 s. -/
def hedgeFrame : ZombieFrame K :=
  { terrain := ⟨fun _ _ => 0, fun x _ _ => decide (-(1 / 100) < x), fun _ _ _ => false⟩
    deltaTime := 1
    catapultPos := ⟨0, 0, 1⟩
    zombie := Zombie.init ⟨0, 0, 0⟩ (1 / 50) 1 ZombieBehavior.IDLE 16 true
    catapult := Catapult.init }

end ZombiePass

/-! ## Catapult geometry (the helper lambdas of Catapult::rebuildGeometry) -/

/-- One vertex of the mesh buffer, the 6 consecutive floats x y z nx ny nz. -/
structure Vertex (K : Type) where
  position : Vec3 K
  normal : Vec3 K
deriving DecidableEq, Repr

section GeometryPrimitives

variable {K : Type} [LinearOrderedField K]

/-- Library function glm::cross. -/
def glmCross (a b : Vec3 K) : Vec3 K :=
  ⟨a.y * b.z - b.y * a.z, a.z * b.x - b.z * a.x, a.x * b.y - b.x * a.y⟩

/-- Unary minus of glm::vec3. -/
def Vec3.neg (a : Vec3 K) : Vec3 K := ⟨-a.x, -a.y, -a.z⟩

/-- One vertices.insert of three vertices that share a normal. -/
def flatTriangle (a b c n : Vec3 K) : List (Vertex K) := [⟨a, n⟩, ⟨b, n⟩, ⟨c, n⟩]

/-- Lambda addBox of rebuildGeometry: the vertices it appends. -/
def addBox (x y z width height depth : K) : List (Vertex K) :=
  let hw := width / 2
  let hh := height / 2
  let hd := depth / 2
  flatTriangle ⟨x - hw, y - hh, z + hd⟩ ⟨x + hw, y - hh, z + hd⟩ ⟨x + hw, y + hh, z + hd⟩
      ⟨0, 0, 1⟩ ++
    flatTriangle ⟨x + hw, y + hh, z + hd⟩ ⟨x - hw, y + hh, z + hd⟩ ⟨x - hw, y - hh, z + hd⟩
      ⟨0, 0, 1⟩ ++
    flatTriangle ⟨x - hw, y - hh, z - hd⟩ ⟨x - hw, y + hh, z - hd⟩ ⟨x + hw, y + hh, z - hd⟩
      ⟨0, 0, -1⟩ ++
    flatTriangle ⟨x + hw, y + hh, z - hd⟩ ⟨x + hw, y - hh, z - hd⟩ ⟨x - hw, y - hh, z - hd⟩
      ⟨0, 0, -1⟩ ++
    flatTriangle ⟨x - hw, y - hh, z - hd⟩ ⟨x - hw, y - hh, z + hd⟩ ⟨x - hw, y + hh, z + hd⟩
      ⟨-1, 0, 0⟩ ++
    flatTriangle ⟨x - hw, y + hh, z + hd⟩ ⟨x - hw, y + hh, z - hd⟩ ⟨x - hw, y - hh, z - hd⟩
      ⟨-1, 0, 0⟩ ++
    flatTriangle ⟨x + hw, y - hh, z - hd⟩ ⟨x + hw, y + hh, z - hd⟩ ⟨x + hw, y + hh, z + hd⟩
      ⟨1, 0, 0⟩ ++
    flatTriangle ⟨x + hw, y + hh, z + hd⟩ ⟨x + hw, y - hh, z + hd⟩ ⟨x + hw, y - hh, z - hd⟩
      ⟨1, 0, 0⟩ ++
    flatTriangle ⟨x - hw, y + hh, z - hd⟩ ⟨x - hw, y + hh, z + hd⟩ ⟨x + hw, y + hh, z + hd⟩
      ⟨0, 1, 0⟩ ++
    flatTriangle ⟨x + hw, y + hh, z + hd⟩ ⟨x + hw, y + hh, z - hd⟩ ⟨x - hw, y + hh, z - hd⟩
      ⟨0, 1, 0⟩ ++
    flatTriangle ⟨x - hw, y - hh, z - hd⟩ ⟨x + hw, y - hh, z - hd⟩ ⟨x + hw, y - hh, z + hd⟩
      ⟨0, -1, 0⟩ ++
    flatTriangle ⟨x + hw, y - hh, z + hd⟩ ⟨x - hw, y - hh, z + hd⟩ ⟨x - hw, y - hh, z - hd⟩
      ⟨0, -1, 0⟩

/-- Lambda addHollowBox of rebuildGeometry: four edge beams. -/
def addHollowBox (x y z width height depth bt : K) : List (Vertex K) :=
  let innerW := width - 2 * bt
  let innerD := depth - 2 * bt
  let innerW := if innerW < 0 then 0 else innerW
  let innerD := if innerD < 0 then 0 else innerD
  addBox x y (z + depth / 2 - bt / 2) innerW height bt ++
    addBox x y (z - depth / 2 + bt / 2) innerW height bt ++
    addBox (x - width / 2 + bt / 2) y z bt height innerD ++
    addBox (x + width / 2 - bt / 2) y z bt height innerD

/-- Loop body of the lambda addCylinderZ for segment i. -/
def cylinderSegment (m : MathFns K) (x y z radius length : K) (segments : Nat) (i : Nat) :
    List (Vertex K) :=
  let angleStep : K := 2 * (31415926535 / 10000000000) / (segments : K)
  let z1 := z - length / 2
  let z2 := z + length / 2
  let a1 := (i : K) * angleStep
  let a2 := ((i : K) + 1) * angleStep
  let cx1 := x + radius * m.cosf a1
  let cy1 := y + radius * m.sinf a1
  let cx2 := x + radius * m.cosf a2
  let cy2 := y + radius * m.sinf a2
  let nx1 := m.cosf a1
  let ny1 := m.sinf a1
  let nx2 := m.cosf a2
  let ny2 := m.sinf a2
  flatTriangle ⟨x, y, z2⟩ ⟨cx1, cy1, z2⟩ ⟨cx2, cy2, z2⟩ ⟨0, 0, 1⟩ ++
    flatTriangle ⟨x, y, z1⟩ ⟨cx2, cy2, z1⟩ ⟨cx1, cy1, z1⟩ ⟨0, 0, -1⟩ ++
    [⟨⟨cx1, cy1, z1⟩, ⟨nx1, ny1, 0⟩⟩, ⟨⟨cx2, cy2, z1⟩, ⟨nx2, ny2, 0⟩⟩,
      ⟨⟨cx2, cy2, z2⟩, ⟨nx2, ny2, 0⟩⟩] ++
    [⟨⟨cx2, cy2, z2⟩, ⟨nx2, ny2, 0⟩⟩, ⟨⟨cx1, cy1, z2⟩, ⟨nx1, ny1, 0⟩⟩,
      ⟨⟨cx1, cy1, z1⟩, ⟨nx1, ny1, 0⟩⟩]

/-- Lambda addCylinderZ of rebuildGeometry. -/
def addCylinderZ (m : MathFns K) (x y z radius length : K) (segments : Nat) :
    List (Vertex K) :=
  (List.range segments).flatMap (cylinderSegment m x y z radius length segments)

/-- Lambda rotateNormal of addRotatedBox and of the bowl lambdas. -/
def rotateNormal (cos_a sin_a : K) (n : Vec3 K) : Vec3 K :=
  ⟨-n.x * cos_a - n.y * sin_a, -n.x * sin_a + n.y * cos_a, n.z⟩

/-- Lambda addRotatedBox of rebuildGeometry. -/
def addRotatedBox (m : MathFns K) (fixedX fixedY fixedZ length width height angle : K) :
    List (Vertex K) :=
  let hw := width / 2
  let hh := height / 2
  let cos_a := m.cosf angle
  let sin_a := m.sinf angle
  let corner : Vec3 K → Vec3 K := fun c =>
    ⟨fixedX + (-c.x * cos_a - c.y * sin_a), fixedY + (-c.x * sin_a + c.y * cos_a), fixedZ + c.z⟩
  let c0 := corner ⟨0, -hh, -hw⟩
  let c1 := corner ⟨length, -hh, -hw⟩
  let c2 := corner ⟨length, hh, -hw⟩
  let c3 := corner ⟨0, hh, -hw⟩
  let c4 := corner ⟨0, -hh, hw⟩
  let c5 := corner ⟨length, -hh, hw⟩
  let c6 := corner ⟨length, hh, hw⟩
  let c7 := corner ⟨0, hh, hw⟩
  let n_front := rotateNormal cos_a sin_a ⟨0, 0, -1⟩
  let n_back := rotateNormal cos_a sin_a ⟨0, 0, 1⟩
  let n_left := rotateNormal cos_a sin_a ⟨-1, 0, 0⟩
  let n_right := rotateNormal cos_a sin_a ⟨1, 0, 0⟩
  let n_top := rotateNormal cos_a sin_a ⟨0, 1, 0⟩
  let n_bottom := rotateNormal cos_a sin_a ⟨0, -1, 0⟩
  flatTriangle c0 c1 c2 n_front ++ flatTriangle c2 c3 c0 n_front ++
    flatTriangle c4 c7 c6 n_back ++ flatTriangle c6 c5 c4 n_back ++
    flatTriangle c0 c3 c7 n_left ++ flatTriangle c7 c4 c0 n_left ++
    flatTriangle c1 c5 c6 n_right ++ flatTriangle c6 c2 c1 n_right ++
    flatTriangle c3 c2 c6 n_top ++ flatTriangle c6 c7 c3 n_top ++
    flatTriangle c0 c4 c5 n_bottom ++ flatTriangle c5 c1 c0 n_bottom

/-- Lambda rotateAndTranslate of the bowl lambdas. -/
def rotateAndTranslate (centerX centerY centerZ cos_a sin_a : K) (p : Vec3 K) : Vec3 K :=
  let dx := p.x - centerX
  let dy := p.y - centerY
  let dz := p.z - centerZ
  ⟨centerX - dx * cos_a - dy * sin_a, centerY - dx * sin_a + dy * cos_a, centerZ + dz⟩

/-- Body of the two nested loops of the lambda addBowlOuter for one layer and segment. -/
def bowlOuterPatch (m : MathFns K) (centerX centerY centerZ w h d rotAngle : K)
    (layer i : Nat) : List (Vertex K) :=
  let segments : K := 24
  let heightSegments : K := 8
  let pi : K := 31415926535 / 10000000000
  let cos_a := m.cosf rotAngle
  let sin_a := m.sinf rotAngle
  let radiusX := w / 2
  let radiusZ := d / 2
  let depth := h
  let bottomY := centerY - depth / 2
  let angle1 := ((i : K) / segments) * 2 * pi
  let angle2 := (((i : K) + 1) / segments) * 2 * pi
  let t1 := (layer : K) / heightSegments
  let t2 := ((layer : K) + 1) / heightSegments
  let r1 := m.sinf (t1 * (157 / 100))
  let r2 := m.sinf (t2 * (157 / 100))
  let y1 := bottomY + t1 * depth
  let y2 := bottomY + t2 * depth
  let x1_1 := radiusX * r1 * m.cosf angle1
  let z1_1 := radiusZ * r1 * m.sinf angle1
  let x1_2 := radiusX * r1 * m.cosf angle2
  let z1_2 := radiusZ * r1 * m.sinf angle2
  let x2_1 := radiusX * r2 * m.cosf angle1
  let z2_1 := radiusZ * r2 * m.sinf angle1
  let x2_2 := radiusX * r2 * m.cosf angle2
  let z2_2 := radiusZ * r2 * m.sinf angle2
  let ny1 := m.cosf (t1 * (157 / 100))
  let ny2 := m.cosf (t2 * (157 / 100))
  let norm1_1 := glmNormalize m ⟨m.cosf angle1 * r1, ny1, m.sinf angle1 * r1⟩
  let norm1_2 := glmNormalize m ⟨m.cosf angle2 * r1, ny1, m.sinf angle2 * r1⟩
  let norm2_1 := glmNormalize m ⟨m.cosf angle1 * r2, ny2, m.sinf angle1 * r2⟩
  let norm2_2 := glmNormalize m ⟨m.cosf angle2 * r2, ny2, m.sinf angle2 * r2⟩
  let n1 := rotateNormal cos_a sin_a norm1_1
  let n2 := rotateNormal cos_a sin_a norm1_2
  let n3 := rotateNormal cos_a sin_a norm2_2
  let n4 := rotateNormal cos_a sin_a norm2_1
  let v1 := rotateAndTranslate centerX centerY centerZ cos_a sin_a
    ⟨centerX + x1_1, y1, centerZ + z1_1⟩
  let v2 := rotateAndTranslate centerX centerY centerZ cos_a sin_a
    ⟨centerX + x1_2, y1, centerZ + z1_2⟩
  let v3 := rotateAndTranslate centerX centerY centerZ cos_a sin_a
    ⟨centerX + x2_2, y2, centerZ + z2_2⟩
  let v4 := rotateAndTranslate centerX centerY centerZ cos_a sin_a
    ⟨centerX + x2_1, y2, centerZ + z2_1⟩
  [⟨v1, n1⟩, ⟨v2, n2⟩, ⟨v3, n3⟩] ++ [⟨v3, n3⟩, ⟨v4, n4⟩, ⟨v1, n1⟩]

/-- Lambda addBowlOuter of rebuildGeometry: 8 layers of 24 segments. -/
def addBowlOuter (m : MathFns K) (centerX centerY centerZ w h d rotAngle : K) :
    List (Vertex K) :=
  (List.range 8).flatMap fun layer =>
    (List.range 24).flatMap (bowlOuterPatch m centerX centerY centerZ w h d rotAngle layer)

end GeometryPrimitives

section GeometryBuild

variable {K : Type} [LinearOrderedField K]

/-- Body of the two nested loops of the lambda addBowlInner for one layer and segment. -/
def bowlInnerPatch (m : MathFns K) (centerX centerY centerZ w h d bt rotAngle : K)
    (layer i : Nat) : List (Vertex K) :=
  let segments : K := 24
  let heightSegments : K := 8
  let pi : K := 31415926535 / 10000000000
  let cos_a := m.cosf rotAngle
  let sin_a := m.sinf rotAngle
  let radiusX := w / 2
  let radiusZ := d / 2
  let depth := h
  let bottomY := centerY - depth / 2
  let minOffset : K := 1 / 1000
  let effectiveThickness := if minOffset < bt then bt else minOffset
  let innerRadiusX := radiusX - effectiveThickness
  let innerRadiusZ := radiusZ - effectiveThickness
  let angle1 := ((i : K) / segments) * 2 * pi
  let angle2 := (((i : K) + 1) / segments) * 2 * pi
  let t1 := (layer : K) / heightSegments
  let t2 := ((layer : K) + 1) / heightSegments
  let r1 := m.sinf (t1 * (157 / 100))
  let r2 := m.sinf (t2 * (157 / 100))
  let y1 := bottomY + t1 * depth
  let y2 := bottomY + t2 * depth
  let ix1_1 := innerRadiusX * r1 * m.cosf angle1
  let iz1_1 := innerRadiusZ * r1 * m.sinf angle1
  let ix1_2 := innerRadiusX * r1 * m.cosf angle2
  let iz1_2 := innerRadiusZ * r1 * m.sinf angle2
  let ix2_1 := innerRadiusX * r2 * m.cosf angle1
  let iz2_1 := innerRadiusZ * r2 * m.sinf angle1
  let ix2_2 := innerRadiusX * r2 * m.cosf angle2
  let iz2_2 := innerRadiusZ * r2 * m.sinf angle2
  let iny1 := -m.cosf (t1 * (157 / 100))
  let iny2 := -m.cosf (t2 * (157 / 100))
  let inorm1_1 := glmNormalize m ⟨-m.cosf angle1 * r1, iny1, -m.sinf angle1 * r1⟩
  let inorm1_2 := glmNormalize m ⟨-m.cosf angle2 * r1, iny1, -m.sinf angle2 * r1⟩
  let inorm2_1 := glmNormalize m ⟨-m.cosf angle1 * r2, iny2, -m.sinf angle1 * r2⟩
  let inorm2_2 := glmNormalize m ⟨-m.cosf angle2 * r2, iny2, -m.sinf angle2 * r2⟩
  let in1 := rotateNormal cos_a sin_a inorm1_1
  let in2 := rotateNormal cos_a sin_a inorm1_2
  let in3 := rotateNormal cos_a sin_a inorm2_2
  let in4 := rotateNormal cos_a sin_a inorm2_1
  let iv1 := rotateAndTranslate centerX centerY centerZ cos_a sin_a
    ⟨centerX + ix1_1, y1 + bt, centerZ + iz1_1⟩
  let iv2 := rotateAndTranslate centerX centerY centerZ cos_a sin_a
    ⟨centerX + ix1_2, y1 + bt, centerZ + iz1_2⟩
  let iv3 := rotateAndTranslate centerX centerY centerZ cos_a sin_a
    ⟨centerX + ix2_2, y2, centerZ + iz2_2⟩
  let iv4 := rotateAndTranslate centerX centerY centerZ cos_a sin_a
    ⟨centerX + ix2_1, y2, centerZ + iz2_1⟩
  [⟨iv1, in1⟩, ⟨iv4, in4⟩, ⟨iv3, in3⟩] ++ [⟨iv3, in3⟩, ⟨iv2, in2⟩, ⟨iv1, in1⟩]

/-- Body of the rim loop of the lambda addBowlInner for segment i. -/
def bowlRimPatch (m : MathFns K) (centerX centerY centerZ w h d bt rotAngle : K) (i : Nat) :
    List (Vertex K) :=
  let segments : K := 24
  let pi : K := 31415926535 / 10000000000
  let cos_a := m.cosf rotAngle
  let sin_a := m.sinf rotAngle
  let radiusX := w / 2
  let radiusZ := d / 2
  let depth := h
  let minOffset : K := 1 / 1000
  let effectiveThickness := if minOffset < bt then bt else minOffset
  let innerRadiusX := radiusX - effectiveThickness
  let innerRadiusZ := radiusZ - effectiveThickness
  let topY := centerY + depth / 2
  let rimNormal := rotateNormal cos_a sin_a ⟨0, 1, 0⟩
  let angle1 := ((i : K) / segments) * 2 * pi
  let angle2 := (((i : K) + 1) / segments) * 2 * pi
  let outerV1 := rotateAndTranslate centerX centerY centerZ cos_a sin_a
    ⟨centerX + radiusX * m.cosf angle1, topY, centerZ + radiusZ * m.sinf angle1⟩
  let outerV2 := rotateAndTranslate centerX centerY centerZ cos_a sin_a
    ⟨centerX + radiusX * m.cosf angle2, topY, centerZ + radiusZ * m.sinf angle2⟩
  let innerV1 := rotateAndTranslate centerX centerY centerZ cos_a sin_a
    ⟨centerX + innerRadiusX * m.cosf angle1, topY, centerZ + innerRadiusZ * m.sinf angle1⟩
  let innerV2 := rotateAndTranslate centerX centerY centerZ cos_a sin_a
    ⟨centerX + innerRadiusX * m.cosf angle2, topY, centerZ + innerRadiusZ * m.sinf angle2⟩
  flatTriangle outerV1 outerV2 innerV2 rimNormal ++ flatTriangle innerV2 innerV1 outerV1 rimNormal

/-- Lambda addBowlInner of rebuildGeometry: 8 layers of 24 segments, then the rim. -/
def addBowlInner (m : MathFns K) (centerX centerY centerZ w h d bt rotAngle : K) :
    List (Vertex K) :=
  ((List.range 8).flatMap fun layer =>
      (List.range 24).flatMap
        (bowlInnerPatch m centerX centerY centerZ w h d bt rotAngle layer)) ++
    (List.range 24).flatMap (bowlRimPatch m centerX centerY centerZ w h d bt rotAngle)

/-- The local variable length of the lambda addStretchedBox: the distance of its two end
points, by which it divides. -/
def stretchLength (m : MathFns K) (x1 y1 z1 x2 y2 z2 : K) : K :=
  let dx := x2 - x1
  let dy := y2 - y1
  let dz := z2 - z1
  m.sqrtf (dx * dx + dy * dy + dz * dz)

/-- The local variable dir of the lambda addStretchedBox: (dx, dy, dz) divided by length,
without any test on length. -/
def stretchDir (m : MathFns K) (x1 y1 z1 x2 y2 z2 : K) : Vec3 K :=
  let dx := x2 - x1
  let dy := y2 - y1
  let dz := z2 - z1
  let length := stretchLength m x1 y1 z1 x2 y2 z2
  ⟨dx / length, dy / length, dz / length⟩

/-- The local variable right of the lambda addStretchedBox. -/
def stretchRight (m : MathFns K) (x1 y1 z1 x2 y2 z2 : K) : Vec3 K :=
  let dir := stretchDir m x1 y1 z1 x2 y2 z2
  let up : Vec3 K := if 99 / 100 < |dir.y| then ⟨1, 0, 0⟩ else ⟨0, 1, 0⟩
  glmNormalize m (glmCross dir up)

/-- The local variable forward of the lambda addStretchedBox. -/
def stretchForward (m : MathFns K) (x1 y1 z1 x2 y2 z2 : K) : Vec3 K :=
  glmNormalize m (glmCross (stretchRight m x1 y1 z1 x2 y2 z2) (stretchDir m x1 y1 z1 x2 y2 z2))

/-- Lambda addStretchedBox of rebuildGeometry.  The normals n_start = -dir and n_end = dir
that the source computes are not used by any of its triangles. -/
def addStretchedBox (m : MathFns K) (x1 y1 z1 x2 y2 z2 thickness : K) : List (Vertex K) :=
  let ht := thickness / 2
  let right := stretchRight m x1 y1 z1 x2 y2 z2
  let forward := stretchForward m x1 y1 z1 x2 y2 z2
  let p1 : Vec3 K := ⟨x1, y1, z1⟩
  let p2 : Vec3 K := ⟨x2, y2, z2⟩
  let c0 := (p1.sub (right.smul ht)).sub (forward.smul ht)
  let c1 := (p1.add (right.smul ht)).sub (forward.smul ht)
  let c2 := (p1.add (right.smul ht)).add (forward.smul ht)
  let c3 := (p1.sub (right.smul ht)).add (forward.smul ht)
  let c4 := (p2.sub (right.smul ht)).sub (forward.smul ht)
  let c5 := (p2.add (right.smul ht)).sub (forward.smul ht)
  let c6 := (p2.add (right.smul ht)).add (forward.smul ht)
  let c7 := (p2.sub (right.smul ht)).add (forward.smul ht)
  let n_front := forward.neg
  let n_back := forward
  let n_left := right.neg
  let n_right := right
  flatTriangle c0 c1 c2 n_front ++ flatTriangle c2 c3 c0 n_front ++
    flatTriangle c4 c7 c6 n_back ++ flatTriangle c6 c5 c4 n_back ++
    flatTriangle c0 c3 c7 n_left ++ flatTriangle c7 c4 c0 n_left ++
    flatTriangle c1 c5 c6 n_right ++ flatTriangle c6 c2 c1 n_right ++
    flatTriangle c3 c2 c6 forward ++ flatTriangle c6 c7 c3 forward ++
    flatTriangle c0 c4 c5 forward.neg ++ flatTriangle c5 c1 c0 forward.neg

end GeometryBuild

/-! ## Catapult geometry (Catapult::rebuildGeometry, Catapult::draw, getBucketPositionWorld) -/

/-- What rebuildGeometry produces: the vertex buffer, and the writes vertexCounts[index] = value
it makes to the 20-slot table int vertexCounts[20], in program order. -/
structure Geometry (K : Type) where
  vertices : List (Vertex K)
  countWrites : List (Nat × Nat)

/-- A glm::mat4 whose bottom row is (0, 0, 0, 1): the linear part and the translation column.
The identity, glm::translate and glm::rotate all keep that bottom row. -/
structure Mat4 (K : Type) where
  linear : Mat3 K
  translation : Vec3 K

section CatapultGeometry

variable {K : Type} [LinearOrderedField K]

/-- Method Catapult::setTiering (the geometry rebuild it triggers is the function
rebuildGeometry of the new state). -/
def Catapult.setTiering (c : Catapult K) (count : Int) (gapY : K) : Catapult K :=
  { c with tierCount := count, tierGap := gapY }

/-- Method Catapult::setArmRotation. -/
def Catapult.setArmRotation (c : Catapult K) (angle : K) : Catapult K :=
  { c with armAngle := angle }

/-- Method Catapult::setHorizontalPlankPosition. -/
def Catapult.setHorizontalPlankPosition (c : Catapult K) (x y z : K) : Catapult K :=
  { c with horizontalPlankX := x, horizontalPlankY := y, horizontalPlankZ := z }

/-- Method Catapult::setHorizontalPlankSize. -/
def Catapult.setHorizontalPlankSize (c : Catapult K) (width height depth : K) : Catapult K :=
  { c with horizontalPlankWidth := width, horizontalPlankHeight := height,
           horizontalPlankDepth := depth }

/-- The local variable tiers of rebuildGeometry and of draw: tierCount < 1 ? 1 : tierCount. -/
def Catapult.tiers (c : Catapult K) : Nat :=
  (if c.tierCount < 1 then 1 else c.tierCount).toNat

/-- The bucket centre (bucketCenterX, bucketCenterY, bucketCenterZ) of rebuildGeometry. -/
def Catapult.bucketCenter (m : MathFns K) (c : Catapult K) : Vec3 K :=
  let movingEndX := c.armPivotX - c.armDepth * m.cosf c.armAngle
  let movingEndY := c.armPivotY - c.armDepth * m.sinf c.armAngle
  let movingEndZ := c.armPivotZ
  let armDirX := -m.cosf c.armAngle
  let armDirY := -m.sinf c.armAngle
  let connectionOffset : K := 16 / 100
  ⟨movingEndX + armDirX * connectionOffset + c.bucketOffsetX,
    movingEndY + armDirY * connectionOffset + c.bucketOffsetY,
    movingEndZ + c.bucketOffsetZ⟩

/-- The end of the rubber band on the arm, (rubberArmX, rubberArmY, rubberArmZ). -/
def Catapult.rubberArm (m : MathFns K) (c : Catapult K) : Vec3 K :=
  ⟨c.armPivotX - c.rubberAttachArmOffset * m.cosf c.armAngle,
    c.armPivotY - c.rubberAttachArmOffset * m.sinf c.armAngle, c.armPivotZ⟩

/-- The end of the rubber band on the horizontal plank, (rubberPlankX, rubberPlankY,
rubberPlankZ). -/
def Catapult.rubberPlank (c : Catapult K) : Vec3 K :=
  ⟨c.horizontalPlankX, c.horizontalPlankY - c.horizontalPlankHeight / 2, c.horizontalPlankZ⟩

/-- The vertices of the rubber band: one stretched box when the band is visible. -/
def Catapult.rubberBand (m : MathFns K) (c : Catapult K) : List (Vertex K) :=
  if c.rubberBandsVisible then
    addStretchedBox m (c.rubberArm m).x (c.rubberArm m).y (c.rubberArm m).z
      c.rubberPlank.x c.rubberPlank.y c.rubberPlank.z c.rubberThickness
  else []

/-- The vertices of the release rope: one stretched box while the rope is attached. -/
def Catapult.releaseRope (m : MathFns K) (c : Catapult K) : List (Vertex K) :=
  if c.releaseRopeAttached then
    let ropeArmX := c.armPivotX - c.ropeAttachArmOffset * m.cosf c.armAngle
      + c.ropeAttachArmXOffset
    let ropeArmY := c.armPivotY - c.ropeAttachArmOffset * m.sinf c.armAngle
      + c.ropeAttachArmYOffset
    let ropeArmZ := c.armPivotZ + c.ropeAttachArmZOffset
    addStretchedBox m ropeArmX ropeArmY ropeArmZ c.ropeBaseAttachX c.ropeBaseAttachY
      c.ropeBaseAttachZ c.releaseRopeThickness
  else []

/-- The tier plank of index i, the body of the first loop of rebuildGeometry. -/
def Catapult.tierPlank (c : Catapult K) (i : Nat) : List (Vertex K) :=
  addHollowBox c.baseCenterX (c.baseCenterY + (i : K) * (c.plankHeight + c.tierGap))
    c.baseCenterZ c.plankWidthX c.plankHeight c.plankDepthZ (2 / 100)

/-- The four wheels of rebuildGeometry, 28 segments each. -/
def Catapult.wheels (m : MathFns K) (c : Catapult K) : List (Vertex K) :=
  let xoff := c.wheelHalfWidthX
  let zoff := c.wheelHalfDepthZ
  addCylinderZ m (-xoff) (-(2 / 10)) zoff c.wheelRadius c.wheelThickness 28 ++
    addCylinderZ m xoff (-(2 / 10)) zoff c.wheelRadius c.wheelThickness 28 ++
    addCylinderZ m (-xoff) (-(2 / 10)) (-zoff) c.wheelRadius c.wheelThickness 28 ++
    addCylinderZ m xoff (-(2 / 10)) (-zoff) c.wheelRadius c.wheelThickness 28

/-- Method Catapult::rebuildGeometry: the vertex buffer it uploads and the writes it makes to
vertexCounts.  Each count is the number of vertices the component appended,
(vertices.size() - oldSize) / 6; the wheel counts are the constant segments * 12. -/
def Catapult.rebuildGeometry (m : MathFns K) (c : Catapult K) : Geometry K :=
  let tiers := c.tiers
  let borderThickness : K := 2 / 100
  let plank1 := addHollowBox c.verticalPlank1X c.verticalPlank1Y c.verticalPlank1Z
    c.verticalPlank1Width c.verticalPlank1Height c.verticalPlank1Depth borderThickness
  let plank2 := addHollowBox c.verticalPlank2X c.verticalPlank2Y c.verticalPlank2Z
    c.verticalPlank2Width c.verticalPlank2Height c.verticalPlank2Depth borderThickness
  let crossbar := addBox c.horizontalPlankX c.horizontalPlankY c.horizontalPlankZ
    c.horizontalPlankWidth c.horizontalPlankHeight c.horizontalPlankDepth
  let rope := addBox c.ropeX c.ropeY c.ropeZ c.ropeWidth c.ropeHeight c.ropeDepth
  let arm := addRotatedBox m c.armPivotX c.armPivotY c.armPivotZ c.armDepth c.armHeight
    c.armWidth c.armAngle
  let bucket := c.bucketCenter m
  let bowlInner := addBowlInner m bucket.x bucket.y bucket.z c.bucketWidth c.bucketHeight
    c.bucketDepth c.bucketWallThickness c.armAngle
  let bowlOuter := addBowlOuter m bucket.x bucket.y bucket.z c.bucketWidth c.bucketHeight
    c.bucketDepth c.armAngle
  let rubber := c.rubberBand m
  let release := c.releaseRope m
  let segments : Nat := 28
  let perWheel := segments * 12
  let wheelStart := tiers + 10
  { vertices :=
      (List.range tiers).flatMap c.tierPlank ++ plank1 ++ plank2 ++ crossbar ++ rope ++ arm ++
        bowlInner ++ bowlOuter ++ rubber ++ release ++ c.wheels m
    countWrites :=
      (List.range tiers).map (fun i => (i, (c.tierPlank i).length)) ++
        [(tiers, plank1.length), (tiers + 1, plank2.length), (tiers + 2, crossbar.length),
          (tiers + 3, rope.length), (tiers + 4, arm.length), (tiers + 5, bowlInner.length),
          (tiers + 6, bowlOuter.length), (tiers + 7, rubber.length), (tiers + 8, 0),
          (tiers + 9, release.length)] ++
        (List.range 4).map (fun w => (wheelStart + w, perWheel)) ++
        (List.range' (wheelStart + 4) (20 - (wheelStart + 4))).map (fun k => (k, 0)) }

/-- The indices at which Catapult::draw reads vertexCounts, in program order. -/
def Catapult.drawReads (c : Catapult K) : List Nat :=
  let tiers := c.tiers
  (List.range tiers).flatMap (fun i => [i, i]) ++
    [tiers, tiers, tiers + 1, tiers + 1, tiers + 2, tiers + 2, tiers + 3, tiers + 3,
      tiers + 4, tiers + 4, tiers + 5, tiers + 5, tiers + 6, tiers + 6, tiers + 7, tiers + 7,
      tiers + 8, tiers + 9, tiers + 9] ++
    (List.range 4).flatMap (fun i => [tiers + 10 + i, tiers + 10 + i])

/-- Every index at which rebuildGeometry writes or draw reads vertexCounts. -/
def Catapult.tableIndices (m : MathFns K) (c : Catapult K) : List Nat :=
  (c.rebuildGeometry m).countWrites.map Prod.fst ++ c.drawReads

/-- The identity glm::mat4(1.0f). -/
def Mat4.identity : Mat4 K := ⟨⟨⟨1, 0, 0⟩, ⟨0, 1, 0⟩, ⟨0, 0, 1⟩⟩, ⟨0, 0, 0⟩⟩

/-- Library function glm::translate(M, v): the last column becomes
M[0] * v.x + M[1] * v.y + M[2] * v.z + M[3]. -/
def glmTranslate (M : Mat4 K) (v : Vec3 K) : Mat4 K :=
  { M with translation := (M.linear.mulDir v).add M.translation }

/-- Library function glm::rotate(M, angle, v): the first three columns become M times the
columns of the rotation, the last column stays. -/
def glmRotateMat4 (m : MathFns K) (M : Mat4 K) (angle : K) (v : Vec3 K) : Mat4 K :=
  let R := glmRotate m angle v
  { linear := ⟨M.linear.mulDir R.col0, M.linear.mulDir R.col1, M.linear.mulDir R.col2⟩
    translation := M.translation }

/-- The xyz part of M * vec4(p, 1). -/
def Mat4.mulPoint (M : Mat4 K) (p : Vec3 K) : Vec3 K :=
  (M.linear.mulDir p).add M.translation

/-- The model matrix that Catapult::draw builds and uploads for the body of the catapult. -/
def Catapult.drawModel (m : MathFns K) (acosf : K → K) (c : Catapult K) (height : K)
    (terrainNormal : Vec3 K) : Mat4 K :=
  let model : Mat4 K := Mat4.identity
  let model := glmTranslate model c.position
  let wheelY : K := -(2 / 10)
  let wheelBottomOffset := -(wheelY - c.wheelRadius)
  let model := glmTranslate model ⟨0, height + wheelBottomOffset, 0⟩
  let up : Vec3 K := ⟨0, 1, 0⟩
  let normal := glmNormalize m terrainNormal
  let axis := glmCross up normal
  let angle := acosf (Catapult.glmClamp (up.dot normal) (-1) 1)
  let model :=
    if 1 / 1000 < axis.length m ∧ 1 / 1000 < angle then
      glmRotateMat4 m model angle (glmNormalize m axis)
    else model
  glmRotateMat4 m model c.rotation ⟨0, 1, 0⟩

/-- Method Catapult::getBucketPositionWorld. -/
def Catapult.getBucketPositionWorld (m : MathFns K) (acosf : K → K) (c : Catapult K)
    (terrainHeight : K) (terrainNormal : Vec3 K) : Vec3 K :=
  let movingEndX := c.armPivotX - c.armDepth * m.cosf c.armAngle
  let movingEndY := c.armPivotY - c.armDepth * m.sinf c.armAngle
  let movingEndZ := c.armPivotZ
  let armDirX := -m.cosf c.armAngle
  let armDirY := -m.sinf c.armAngle
  let connectionOffset : K := 16 / 100
  let bucketX := movingEndX + armDirX * connectionOffset + c.bucketOffsetX
  let bucketY := movingEndY + armDirY * connectionOffset + c.bucketOffsetY
  let bucketZ := movingEndZ + c.bucketOffsetZ
  let transform : Mat4 K := Mat4.identity
  let transform := glmTranslate transform c.position
  let wheelY : K := -(2 / 10)
  let wheelBottomOffset := -(wheelY - c.wheelRadius)
  let transform := glmTranslate transform ⟨0, terrainHeight + wheelBottomOffset, 0⟩
  let up : Vec3 K := ⟨0, 1, 0⟩
  let normal := glmNormalize m terrainNormal
  let axis := glmCross up normal
  let angle := acosf (Catapult.glmClamp (up.dot normal) (-1) 1)
  let transform :=
    if 1 / 1000 < axis.length m ∧ 1 / 1000 < angle then
      glmRotateMat4 m transform angle (glmNormalize m axis)
    else transform
  let transform := glmRotateMat4 m transform c.rotation ⟨0, 1, 0⟩
  let localBucketPos : Vec3 K := ⟨bucketX, bucketY, bucketZ⟩
  transform.mulPoint localBucketPos

end CatapultGeometry

/-- The catapult as constructed after setArmRotation(0), setHorizontalPlankSize(0.08, 0, 0.59)
and setHorizontalPlankPosition(-1.1, -0.2, 0): the plank end of the rubber band is put where
its arm end is. -/
def slackBandCatapult {K : Type} [LinearOrderedField K] : Catapult K :=
  ((Catapult.init.setArmRotation 0).setHorizontalPlankSize (8 / 100) 0 (59 / 100))
    |>.setHorizontalPlankPosition (-(11 / 10)) (-(2 / 10)) 0

/-! ## The firing animation in binary32 arithmetic -/

/-- Rounding to the nearest integer, ties to the even one. -/
def roundHalfEven (s : ℚ) : ℤ :=
  let f := ⌊s⌋
  let r := s - f
  if r < 1 / 2 then f else if 1 / 2 < r then f + 1 else if f % 2 = 0 then f else f + 1

/-- The binary32 value nearest to a positive q: q is rounded to a multiple of
2 ^ (e - 23), where 2 ^ e ≤ q < 2 ^ (e + 1) (a 24-bit significand). -/
def roundF32Pos (q : ℚ) : ℚ :=
  let ulp : ℚ := 2 ^ (Int.log 2 q - 23)
  roundHalfEven (q / ulp) * ulp

/-- The rounding of an exact result to float: IEEE 754 binary32, round to nearest, ties to
even.  The exponent range is left unbounded (no overflow, no subnormals); the angles and times
of the firing animation are far from both. -/
def roundF32 (q : ℚ) : ℚ :=
  if q = 0 then 0 else if q < 0 then -roundF32Pos (-q) else roundF32Pos q

/-- Library function powf(x, 3.0f), taken as the correctly rounded cube. -/
def powf3F32 (x : ℚ) : ℚ := roundF32 (x ^ 3)

/-- The member initialisers that the firing path reads, as the binary32 values of their
decimal literals. -/
def Catapult.defaultsF32 : Catapult ℚ :=
  { (Catapult.defaults : Catapult ℚ) with
    armAngle := roundF32 (Catapult.defaults : Catapult ℚ).armAngle
    animationTime := roundF32 (Catapult.defaults : Catapult ℚ).animationTime
    startAngle := roundF32 (Catapult.defaults : Catapult ℚ).startAngle
    endAngle := roundF32 (Catapult.defaults : Catapult ℚ).endAngle
    animationDuration := roundF32 (Catapult.defaults : Catapult ℚ).animationDuration
    speed := roundF32 (Catapult.defaults : Catapult ℚ).speed
    minSpeedAngle := roundF32 (Catapult.defaults : Catapult ℚ).minSpeedAngle
    maxSpeedAngle := roundF32 (Catapult.defaults : Catapult ℚ).maxSpeedAngle }

/-- Method Catapult::updateArmAngleFromSpeed with every float operation rounded. -/
def Catapult.updateArmAngleFromSpeedF32 (c : Catapult ℚ) : Catapult ℚ :=
  let targetAngle :=
    roundF32 (c.minSpeedAngle + roundF32 (roundF32 (c.maxSpeedAngle - c.minSpeedAngle) * c.speed))
  if !c.isAnimating then { c with armAngle := targetAngle, startAngle := targetAngle } else c

/-- Constructor Catapult::Catapult in binary32 arithmetic. -/
def Catapult.initF32 : Catapult ℚ := Catapult.updateArmAngleFromSpeedF32 Catapult.defaultsF32

/-- Method Catapult::update with every float operation rounded to binary32, in the order the
source evaluates them. -/
def Catapult.updateF32 (c : Catapult ℚ) (deltaTime : ℚ) : Catapult ℚ :=
  if c.isAnimating then
    let c1 := { c with animationTime := roundF32 (c.animationTime + deltaTime) }
    if c1.animationDuration ≤ c1.animationTime then
      { c1 with armAngle := c1.endAngle, isAnimating := false }
    else
      let t := roundF32 (c1.animationTime / c1.animationDuration)
      let t := roundF32 (1 - powf3F32 (roundF32 (1 - t)))
      { c1 with
        armAngle :=
          roundF32 (c1.startAngle + roundF32 (roundF32 (c1.endAngle - c1.startAngle) * t)) }
  else c

/-! ## Radial damage falloff -/

section Damage

variable {K : Type} [LinearOrderedField K]

theorem calculateDamage_inner (p : Projectile K) (d : K) (h : d ≤ p.innerRadius) :
    p.calculateDamage d = p.baseDamage := by
  simp [Projectile.calculateDamage, h]

theorem calculateDamage_linear (p : Projectile K) (d : K) (h1 : p.innerRadius < d)
    (h2 : d ≤ p.outerRadius) :
    p.calculateDamage d = p.baseDamage *
      (1 - ((d - p.innerRadius) / (p.outerRadius - p.innerRadius)) *
        (1 - p.outerDamageMultiplier)) := by
  simp [Projectile.calculateDamage, not_le.mpr h1, h2]

theorem calculateDamage_beyond (p : Projectile K) (d : K)
    (h : p.innerRadius ≤ p.outerRadius) (h2 : p.outerRadius < d) :
    p.calculateDamage d = 0 := by
  simp [Projectile.calculateDamage, not_le.mpr h2, not_le.mpr (lt_of_le_of_lt h h2)]

theorem calculateDamage_at_outer (p : Projectile K) (h : p.innerRadius < p.outerRadius) :
    p.calculateDamage p.outerRadius = p.baseDamage * p.outerDamageMultiplier := by
  rw [calculateDamage_linear p _ h le_rfl, div_self (sub_pos.mpr h).ne']
  ring

/-- C1: with 0 ≤ innerRadius < outerRadius, calculateDamage returns baseDamage up to
innerRadius, the linear falloff value between innerRadius and outerRadius, and 0 beyond
outerRadius; in particular baseDamage at distance 0 and at innerRadius, and
baseDamage * outerDamageMultiplier at outerRadius. -/
theorem C1_calculateDamage_zones (p : Projectile K) (h0 : 0 ≤ p.innerRadius)
    (h1 : p.innerRadius < p.outerRadius) :
    (∀ d, d ≤ p.innerRadius → p.calculateDamage d = p.baseDamage) ∧
    (∀ d, p.innerRadius < d → d ≤ p.outerRadius →
      p.calculateDamage d = p.baseDamage *
        (1 - ((d - p.innerRadius) / (p.outerRadius - p.innerRadius)) *
          (1 - p.outerDamageMultiplier))) ∧
    (∀ d, p.outerRadius < d → p.calculateDamage d = 0) ∧
    p.calculateDamage 0 = p.baseDamage ∧
    p.calculateDamage p.innerRadius = p.baseDamage ∧
    p.calculateDamage p.outerRadius = p.baseDamage * p.outerDamageMultiplier :=
  ⟨fun d h => calculateDamage_inner p d h,
   fun d ha hb => calculateDamage_linear p d ha hb,
   fun d h => calculateDamage_beyond p d h1.le h,
   calculateDamage_inner p 0 h0,
   calculateDamage_inner p _ le_rfl,
   calculateDamage_at_outer p h1⟩

/-- C1 at the bomb main constructs, over the rationals (radii 2 and 5). -/
theorem C1_calculateDamage_zones_witness :
    ((0 : ℚ) ≤ (mainBomb : Projectile ℚ).innerRadius ∧
      (mainBomb : Projectile ℚ).innerRadius < (mainBomb : Projectile ℚ).outerRadius) ∧
    (mainBomb : Projectile ℚ).calculateDamage (mainBomb : Projectile ℚ).outerRadius
      = (mainBomb : Projectile ℚ).baseDamage * (mainBomb : Projectile ℚ).outerDamageMultiplier :=
  ⟨⟨by norm_num [mainBomb, Projectile.init], by norm_num [mainBomb, Projectile.init]⟩,
   (C1_calculateDamage_zones (mainBomb : Projectile ℚ)
      (by norm_num [mainBomb, Projectile.init])
      (by norm_num [mainBomb, Projectile.init])).2.2.2.2.2⟩

end Damage

/-! ## Continuity of the falloff at the zone boundaries (over the reals) -/

section Continuity

/-- The falloff without its cut at outerRadius is continuous. -/
theorem falloff_uncut_continuous (p : Projectile ℝ) :
    Continuous fun d : ℝ =>
      if d ≤ p.innerRadius then p.baseDamage
      else p.baseDamage *
        (1 - ((d - p.innerRadius) / (p.outerRadius - p.innerRadius)) *
          (1 - p.outerDamageMultiplier)) := by
  apply Continuous.if_le continuous_const _ continuous_id continuous_const
  · intro d hd
    simp only [id] at hd
    simp [hd]
  · exact continuous_const.mul
      (continuous_const.sub (((continuous_id.sub continuous_const).div_const _).mul
        continuous_const))

theorem calculateDamage_eq_uncut (p : Projectile ℝ) (d : ℝ) (h : d ≤ p.outerRadius) :
    p.calculateDamage d =
      if d ≤ p.innerRadius then p.baseDamage
      else p.baseDamage *
        (1 - ((d - p.innerRadius) / (p.outerRadius - p.innerRadius)) *
          (1 - p.outerDamageMultiplier)) := by
  simp [Projectile.calculateDamage, h]

theorem calculateDamage_continuousAt_inner (p : Projectile ℝ)
    (h1 : p.innerRadius < p.outerRadius) :
    ContinuousAt (fun d : ℝ => p.calculateDamage d) p.innerRadius := by
  refine (falloff_uncut_continuous p).continuousAt.congr ?_
  filter_upwards [Iio_mem_nhds h1] with d hd
  exact (calculateDamage_eq_uncut p d (le_of_lt hd)).symm

theorem calculateDamage_continuous_from_below (p : Projectile ℝ) :
    ContinuousWithinAt (fun d : ℝ => p.calculateDamage d) (Set.Iic p.outerRadius)
      p.outerRadius :=
  (falloff_uncut_continuous p).continuousWithinAt.congr
    (fun d hd => calculateDamage_eq_uncut p d hd)
    (calculateDamage_eq_uncut p _ le_rfl)

theorem calculateDamage_continuousAt_outer_iff (p : Projectile ℝ)
    (h1 : p.innerRadius < p.outerRadius) :
    ContinuousAt (fun d : ℝ => p.calculateDamage d) p.outerRadius ↔
      p.baseDamage * p.outerDamageMultiplier = 0 := by
  constructor
  · intro hc
    have hlim : Filter.Tendsto (fun d : ℝ => p.calculateDamage d)
        (nhdsWithin p.outerRadius (Set.Ioi p.outerRadius))
        (nhds (p.calculateDamage p.outerRadius)) :=
      hc.tendsto.mono_left nhdsWithin_le_nhds
    have hzero : Filter.Tendsto (fun d : ℝ => p.calculateDamage d)
        (nhdsWithin p.outerRadius (Set.Ioi p.outerRadius)) (nhds 0) := by
      refine tendsto_const_nhds.congr' ?_
      filter_upwards [self_mem_nhdsWithin] with d hd
      exact (calculateDamage_beyond p d h1.le hd).symm
    have := tendsto_nhds_unique hlim hzero
    rwa [calculateDamage_at_outer p h1] at this
  · intro hz
    rw [continuousAt_iff_continuous_left_right]
    refine ⟨calculateDamage_continuous_from_below p, ?_⟩
    refine (continuousWithinAt_const : ContinuousWithinAt (fun _ : ℝ => (0 : ℝ))
      (Set.Ici p.outerRadius) p.outerRadius).congr ?_ ?_
    · intro d hd
      rcases eq_or_lt_of_le (Set.mem_Ici.mp hd) with h | h
      · rw [← h, calculateDamage_at_outer p h1, hz]
      · exact calculateDamage_beyond p d h1.le h
    · rw [calculateDamage_at_outer p h1, hz]

/-- C2, counterexample: with the constructed parameters (baseDamage 50, innerRadius 2,
outerRadius 5, outerDamageMultiplier 0.3) calculateDamage is not continuous at
d = outerRadius = 5: the value there is 15 and every larger distance gives 0. -/
theorem C2_jump_at_outerRadius :
    ¬ ContinuousAt (fun d : ℝ => (mainBomb : Projectile ℝ).calculateDamage d) 5 := by
  intro hc
  have h1 : (mainBomb : Projectile ℝ).innerRadius < (mainBomb : Projectile ℝ).outerRadius := by
    norm_num [mainBomb, Projectile.init]
  have h5 : (mainBomb : Projectile ℝ).outerRadius = 5 := rfl
  rw [← h5, calculateDamage_continuousAt_outer_iff _ h1] at hc
  norm_num [mainBomb, Projectile.init] at hc

/-- C2, amended: with innerRadius < outerRadius, calculateDamage is continuous at
d = innerRadius; at d = outerRadius it is continuous from below, it is 0 at every larger
distance, and it is continuous there exactly when baseDamage * outerDamageMultiplier = 0. -/
theorem C2_continuity_at_boundaries (p : Projectile ℝ) (h1 : p.innerRadius < p.outerRadius) :
    ContinuousAt (fun d : ℝ => p.calculateDamage d) p.innerRadius ∧
    ContinuousWithinAt (fun d : ℝ => p.calculateDamage d) (Set.Iic p.outerRadius)
      p.outerRadius ∧
    (∀ d, p.outerRadius < d → p.calculateDamage d = 0) ∧
    (ContinuousAt (fun d : ℝ => p.calculateDamage d) p.outerRadius ↔
      p.baseDamage * p.outerDamageMultiplier = 0) :=
  ⟨calculateDamage_continuousAt_inner p h1, calculateDamage_continuous_from_below p,
   fun d h => calculateDamage_beyond p d h1.le h, calculateDamage_continuousAt_outer_iff p h1⟩

/-- C2, amended, at the bomb main constructs. -/
theorem C2_continuity_at_boundaries_witness :
    (mainBomb : Projectile ℝ).innerRadius < (mainBomb : Projectile ℝ).outerRadius ∧
    ContinuousAt (fun d : ℝ => (mainBomb : Projectile ℝ).calculateDamage d)
      (mainBomb : Projectile ℝ).innerRadius :=
  ⟨by norm_num [mainBomb, Projectile.init],
   (C2_continuity_at_boundaries (mainBomb : Projectile ℝ)
      (by norm_num [mainBomb, Projectile.init])).1⟩

end Continuity

/-! ## Catapult firing state machine -/

section Firing

variable {K : Type} [LinearOrderedField K]

/-- C8: while the catapult is firing, fire, increaseSpeed and decreaseSpeed each return the
catapult state unchanged (every field, so in particular arm angle, animation clock, firing
flag, speed, startAngle and release-rope flag). -/
theorem C8_requests_ignored_while_firing (c : Catapult K) (h : c.isFiring = true) :
    c.fire = c ∧ c.increaseSpeed = c ∧ c.decreaseSpeed = c := by
  simp only [Catapult.isFiring] at h
  simp [Catapult.fire, Catapult.increaseSpeed, Catapult.decreaseSpeed, h]

/-- C8 at a catapult that has just been fired. -/
theorem C8_requests_ignored_while_firing_witness :
    (Catapult.init : Catapult ℚ).fire.isFiring = true ∧
    ((Catapult.init : Catapult ℚ).fire.fire = (Catapult.init : Catapult ℚ).fire ∧
     (Catapult.init : Catapult ℚ).fire.increaseSpeed = (Catapult.init : Catapult ℚ).fire ∧
     (Catapult.init : Catapult ℚ).fire.decreaseSpeed = (Catapult.init : Catapult ℚ).fire) :=
  ⟨by simp [Catapult.isFiring, Catapult.fire, Catapult.init, Catapult.updateArmAngleFromSpeed,
      Catapult.defaults],
   C8_requests_ignored_while_firing _ (by
     simp [Catapult.isFiring, Catapult.fire, Catapult.init, Catapult.updateArmAngleFromSpeed,
       Catapult.defaults])⟩

/-- C9: from every state reset yields a catapult that is not firing, has animation clock 0,
the release rope attached and armAngle = startAngle = minSpeedAngle +
(maxSpeedAngle - minSpeedAngle) * speed; speed, position, yaw and health (and every other
field) are unchanged. -/
theorem C9_reset (c : Catapult K) :
    c.reset.isFiring = false ∧ c.reset.animationTime = 0 ∧
    c.reset.releaseRopeAttached = true ∧
    c.reset.armAngle = c.reset.startAngle ∧
    c.reset.startAngle
      = c.reset.minSpeedAngle + (c.reset.maxSpeedAngle - c.reset.minSpeedAngle) * c.reset.speed ∧
    c.reset.speed = c.speed ∧ c.reset.position = c.position ∧
    c.reset.rotation = c.rotation ∧ c.reset.health = c.health ∧
    c.reset = { c with
      isAnimating := false
      animationTime := 0
      releaseRopeAttached := true
      armAngle := c.minSpeedAngle + (c.maxSpeedAngle - c.minSpeedAngle) * c.speed
      startAngle := c.minSpeedAngle + (c.maxSpeedAngle - c.minSpeedAngle) * c.speed } := by
  simp [Catapult.reset, Catapult.updateArmAngleFromSpeed, Catapult.isFiring]

/-! ### Speed invariant -/

/-- What the calls preserve: the speed invariant, with the never written speedStep
non-negative. -/
theorem speedInvariant_step (c : Catapult K) (op : CatapultOp K)
    (h : c.speedInvariant ∧ 0 ≤ c.speedStep) :
    (c.step op).speedInvariant ∧ 0 ≤ (c.step op).speedStep := by
  obtain ⟨⟨h0, h1, hs⟩, hstep⟩ := h
  cases op with
  | increaseSpeed =>
    simp only [Catapult.step, Catapult.increaseSpeed, Catapult.updateArmAngleFromSpeed,
      Catapult.speedInvariant]
    by_cases ha : c.isAnimating = true
    · simp [ha, h0, h1, hs, hstep]
    · by_cases h2 : 1 < c.speed + c.speedStep
      · simp [ha, h2, hstep]
      · have h3 : c.speed + c.speedStep ≤ 1 := not_lt.mp h2
        have h4 : 0 ≤ c.speed + c.speedStep := add_nonneg h0 hstep
        simp [ha, h2, h3, h4, hstep]
  | decreaseSpeed =>
    simp only [Catapult.step, Catapult.decreaseSpeed, Catapult.updateArmAngleFromSpeed,
      Catapult.speedInvariant]
    by_cases ha : c.isAnimating = true
    · simp [ha, h0, h1, hs, hstep]
    · by_cases h2 : c.speed - c.speedStep < 0
      · simp [ha, h2, hstep]
      · have h3 : 0 ≤ c.speed - c.speedStep := not_lt.mp h2
        have h4 : c.speed - c.speedStep ≤ 1 := by linarith
        simp [ha, h2, h3, h4, hstep]
  | fire =>
    simp only [Catapult.step, Catapult.fire, Catapult.speedInvariant]
    by_cases ha : c.isAnimating = true
    · simp [ha, h0, h1, hs, hstep]
    · simp [ha, h0, h1, hs, hstep]
  | update deltaTime =>
    simp only [Catapult.step, Catapult.update, Catapult.speedInvariant]
    by_cases ha : c.isAnimating = true
    · by_cases hd : c.animationDuration ≤ c.animationTime + deltaTime
      · simp [ha, hd, h0, h1, hs, hstep]
      · simp [ha, hd, h0, h1, hs, hstep]
    · simp [ha, h0, h1, hs, hstep]
  | reset =>
    simp [Catapult.step, Catapult.reset, Catapult.updateArmAngleFromSpeed,
      Catapult.speedInvariant, h0, h1, hstep]

theorem speedInvariant_init :
    (Catapult.init : Catapult K).speedInvariant ∧ 0 ≤ (Catapult.init : Catapult K).speedStep := by
  simp [Catapult.init, Catapult.updateArmAngleFromSpeed, Catapult.defaults,
    Catapult.speedInvariant]
  positivity

theorem speedInvariant_foldl (ops : List (CatapultOp K)) :
    ∀ c : Catapult K, (c.speedInvariant ∧ 0 ≤ c.speedStep) →
      (ops.foldl Catapult.step c).speedInvariant ∧ 0 ≤ (ops.foldl Catapult.step c).speedStep := by
  induction ops with
  | nil => intro c h; simpa using h
  | cons op rest ih =>
    intro c h
    simpa [List.foldl_cons] using ih (c.step op) (speedInvariant_step c op h)

/-- C4: in every catapult state reached from construction by a sequence of increaseSpeed,
decreaseSpeed, fire, update(dt) and reset calls, speed lies in [0, 1] and
startAngle = minSpeedAngle + (maxSpeedAngle - minSpeedAngle) * speed. -/
theorem C4_speed_invariant_reachable (ops : List (CatapultOp K)) :
    0 ≤ (Catapult.run ops).speed ∧ (Catapult.run ops).speed ≤ 1 ∧
    (Catapult.run ops).startAngle
      = (Catapult.run ops).minSpeedAngle
        + ((Catapult.run ops).maxSpeedAngle - (Catapult.run ops).minSpeedAngle)
          * (Catapult.run ops).speed :=
  (speedInvariant_foldl ops Catapult.init speedInvariant_init).1

/-! ### The arm animation -/

theorem update_idle (c : Catapult K) (dt : K) (h : c.isAnimating = false) : c.update dt = c := by
  simp [Catapult.update, h]

theorem foldl_update_idle (dts : List K) :
    ∀ c : Catapult K, c.isAnimating = false → dts.foldl Catapult.update c = c := by
  induction dts with
  | nil => intro c _; rfl
  | cons dt rest ih =>
    intro c h
    rw [List.foldl_cons, update_idle c dt h]
    exact ih c h

/-- Once the accumulated time of a firing catapult reaches animationDuration the arm sits at
endAngle and the catapult is ready again. -/
theorem firing_ends (dts : List K) :
    ∀ s : Catapult K, s.isAnimating = true → dts ≠ [] → (∀ dt ∈ dts, 0 ≤ dt) →
      s.animationDuration ≤ s.animationTime + dts.sum →
      (dts.foldl Catapult.update s).armAngle = s.endAngle ∧
      (dts.foldl Catapult.update s).isAnimating = false := by
  induction dts with
  | nil => intro s _ hne; exact absurd rfl hne
  | cons dt rest ih =>
    intro s hs _ hpos hsum
    rw [List.foldl_cons]
    by_cases hd : s.animationDuration ≤ s.animationTime + dt
    · have hu : (s.update dt).isAnimating = false := by simp [Catapult.update, hs, hd]
      rw [foldl_update_idle rest _ hu]
      simp [Catapult.update, hs, hd]
    · have hu : (s.update dt).isAnimating = true := by simp [Catapult.update, hs, hd]
      have hrest : rest ≠ [] := by
        intro h0
        apply hd
        simpa [h0] using hsum
      have hpos2 : ∀ x ∈ rest, 0 ≤ x := fun x hx => hpos x (List.mem_cons_of_mem _ hx)
      have hsum2 : (s.update dt).animationDuration ≤ (s.update dt).animationTime + rest.sum := by
        have : s.animationDuration ≤ s.animationTime + dt + rest.sum := by
          simpa [List.sum_cons, add_assoc] using hsum
        simpa [Catapult.update, hs, hd] using this
      have h := ih (s.update dt) hu hrest hpos2 hsum2
      have he : (s.update dt).endAngle = s.endAngle := by simp [Catapult.update, hs, hd]
      rw [he] at h
      exact h

/-- While the accumulated time of a firing catapult stays below animationDuration the arm
angle is the eased interpolation at the accumulated time and the catapult keeps firing. -/
theorem firing_progress (dts : List K) :
    ∀ s : Catapult K, s.isAnimating = true → dts ≠ [] → (∀ dt ∈ dts, 0 ≤ dt) →
      s.animationTime + dts.sum < s.animationDuration →
      (dts.foldl Catapult.update s).armAngle = s.easedAngle (s.animationTime + dts.sum) ∧
      (dts.foldl Catapult.update s).isAnimating = true := by
  induction dts with
  | nil => intro s _ hne; exact absurd rfl hne
  | cons dt rest ih =>
    intro s hs _ hpos hsum
    rw [List.foldl_cons]
    have hpos2 : ∀ x ∈ rest, 0 ≤ x := fun x hx => hpos x (List.mem_cons_of_mem _ hx)
    have hrest0 : 0 ≤ rest.sum := List.sum_nonneg hpos2
    have hsum1 : s.animationTime + dt + rest.sum < s.animationDuration := by
      simpa [List.sum_cons, add_assoc] using hsum
    have hd : ¬ s.animationDuration ≤ s.animationTime + dt := by
      intro h
      linarith
    have hu : (s.update dt).isAnimating = true := by simp [Catapult.update, hs, hd]
    by_cases hrest : rest = []
    · subst hrest
      simp [Catapult.update, hs, hd, Catapult.easedAngle]
    · have hsum2 : (s.update dt).animationTime + rest.sum < (s.update dt).animationDuration := by
        simpa [Catapult.update, hs, hd] using hsum1
      have h := ih (s.update dt) hu hrest hpos2 hsum2
      rw [h.1]
      refine ⟨?_, h.2⟩
      simp [Catapult.update, hs, hd, Catapult.easedAngle, List.sum_cons, add_assoc]

theorem easedAngle_gap (c : Catapult K) (e : K) :
    c.endAngle - c.easedAngle e
      = (c.endAngle - c.startAngle) * (1 - e / c.animationDuration) ^ 3 := by
  simp only [Catapult.easedAngle]
  ring

theorem easing_bounds (e d : K) (h0 : 0 < e) (h1 : e < d) :
    0 < (1 - e / d) ^ 3 ∧ (1 - e / d) ^ 3 < 1 := by
  have hd : 0 < d := lt_trans h0 h1
  have ht0 : 0 < e / d := div_pos h0 hd
  have ht1 : e / d < 1 := (div_lt_one hd).mpr h1
  have hu0 : 0 < 1 - e / d := by linarith
  have hu1 : 1 - e / d < 1 := by linarith
  exact ⟨pow_pos hu0 3, pow_lt_one₀ hu0.le hu1 (by norm_num)⟩

theorem easing_antitone (e1 e2 d : K) (h0 : 0 < e1) (h12 : e1 < e2) (h2 : e2 < d) :
    (1 - e2 / d) ^ 3 ≤ (1 - e1 / d) ^ 3 := by
  have hd : 0 < d := lt_trans (lt_trans h0 h12) h2
  have ht : e1 / d ≤ e2 / d := div_le_div_of_nonneg_right h12.le hd.le
  have ht1 : e2 / d < 1 := (div_lt_one hd).mpr h2
  exact pow_le_pow_left₀ (by linarith) (by linarith) 3

theorem fire_ready (c : Catapult K) (h : c.isFiring = false) :
    c.fire.isAnimating = true ∧ c.fire.animationTime = 0 ∧ c.fire.armAngle = c.startAngle ∧
    c.fire.startAngle = c.startAngle ∧ c.fire.endAngle = c.endAngle ∧
    c.fire.animationDuration = c.animationDuration := by
  simp only [Catapult.isFiring] at h
  simp [Catapult.fire, h]

/-- C6: after fire on a ready catapult and at least one update call, all with dt ≥ 0, once
the accumulated dt has reached animationDuration the arm angle equals endAngle and isFiring
is false, and both stay so under any further update calls. -/
theorem C6_firing_completes (c : Catapult K) (hready : c.isFiring = false) (dts : List K)
    (hne : dts ≠ []) (hpos : ∀ dt ∈ dts, 0 ≤ dt) (hsum : c.animationDuration ≤ dts.sum)
    (more : List K) :
    (dts.foldl Catapult.update c.fire).armAngle = c.endAngle ∧
    (dts.foldl Catapult.update c.fire).isFiring = false ∧
    (more.foldl Catapult.update (dts.foldl Catapult.update c.fire)).armAngle = c.endAngle ∧
    (more.foldl Catapult.update (dts.foldl Catapult.update c.fire)).isFiring = false := by
  obtain ⟨hf1, hf2, -, -, hf5, hf6⟩ := fire_ready c hready
  have h := firing_ends dts c.fire hf1 hne hpos (by rw [hf6, hf2, zero_add]; exact hsum)
  rw [hf5] at h
  rw [foldl_update_idle more _ h.2]
  exact ⟨h.1, h.2, h.1, h.2⟩

/-- C6 on the constructed catapult (duration 0.5): two updates of 0.25 each, then one more
update of 1. -/
theorem C6_firing_completes_witness :
    ((Catapult.init : Catapult ℚ).isFiring = false ∧ ([1 / 4, 1 / 4] : List ℚ) ≠ [] ∧
      (∀ dt ∈ ([1 / 4, 1 / 4] : List ℚ), 0 ≤ dt) ∧
      (Catapult.init : Catapult ℚ).animationDuration ≤ ([1 / 4, 1 / 4] : List ℚ).sum) ∧
    (([1 / 4, 1 / 4] : List ℚ).foldl Catapult.update (Catapult.init : Catapult ℚ).fire).armAngle
      = (Catapult.init : Catapult ℚ).endAngle := by
  have h1 : (Catapult.init : Catapult ℚ).isFiring = false := by
    simp [Catapult.isFiring, Catapult.init, Catapult.updateArmAngleFromSpeed, Catapult.defaults]
  have h2 : ([1 / 4, 1 / 4] : List ℚ) ≠ [] := by simp
  have h3 : ∀ dt ∈ ([1 / 4, 1 / 4] : List ℚ), 0 ≤ dt := by
    intro dt hdt
    simp at hdt
    rw [hdt]
    norm_num
  have h4 : (Catapult.init : Catapult ℚ).animationDuration ≤ ([1 / 4, 1 / 4] : List ℚ).sum := by
    norm_num [Catapult.init, Catapult.updateArmAngleFromSpeed, Catapult.defaults]
  exact ⟨⟨h1, h2, h3, h4⟩, (C6_firing_completes _ h1 _ h2 h3 h4 [1]).1⟩

/-! ### Binary32 rounding -/

theorem roundHalfEven_bounds (s : ℚ) : ⌊s⌋ ≤ roundHalfEven s ∧ roundHalfEven s ≤ ⌊s⌋ + 1 := by
  simp only [roundHalfEven]
  split_ifs <;> constructor <;> omega

theorem roundHalfEven_near (s : ℚ) (n : ℤ) (h : |s - n| < 1 / 2) : roundHalfEven s = n := by
  rw [abs_lt] at h
  obtain ⟨h1, h2⟩ := h
  by_cases hn : (n : ℚ) ≤ s
  · have hf : ⌊s⌋ = n := Int.floor_eq_iff.mpr ⟨hn, by linarith⟩
    simp only [roundHalfEven, hf]
    rw [if_pos (by linarith)]
  · have hn : s < n := not_le.mp hn
    have hf : ⌊s⌋ = n - 1 := Int.floor_eq_iff.mpr ⟨by push_cast; linarith, by push_cast; linarith⟩
    simp only [roundHalfEven, hf]
    rw [if_neg (by push_cast; linarith), if_pos (by push_cast; linarith)]
    ring

theorem roundHalfEven_intCast (n : ℤ) : roundHalfEven n = n :=
  roundHalfEven_near n n (by simp)

theorem roundHalfEven_mono {s t : ℚ} (h : s ≤ t) : roundHalfEven s ≤ roundHalfEven t := by
  have hf : ⌊s⌋ ≤ ⌊t⌋ := Int.floor_le_floor h
  rcases lt_or_eq_of_le hf with hlt | heq
  · have h1 := (roundHalfEven_bounds s).2
    have h2 := (roundHalfEven_bounds t).1
    omega
  · have hr : s - ⌊s⌋ ≤ t - ⌊t⌋ := by rw [heq]; linarith
    simp only [roundHalfEven]
    rw [heq] at hr ⊢
    split_ifs <;> first | omega | (exfalso; linarith)

theorem log_two_eq {q : ℚ} {e : ℤ} (hq : 0 < q) (h1 : 2 ^ e ≤ q) (h2 : q < 2 ^ (e + 1)) :
    Int.log 2 q = e := by
  have a1 : e ≤ Int.log 2 q :=
    (Int.zpow_le_iff_le_log (by norm_num) hq).1 (by exact_mod_cast h1)
  have a2 : Int.log 2 q < e + 1 :=
    (Int.lt_zpow_iff_log_lt (by norm_num) hq).1 (by exact_mod_cast h2)
  omega

theorem log_two_bounds {q : ℚ} (hq : 0 < q) :
    (2 : ℚ) ^ Int.log 2 q ≤ q ∧ q < 2 ^ (Int.log 2 q + 1) := by
  have a1 := Int.zpow_log_le_self (b := 2) (by norm_num) hq
  have a2 := Int.lt_zpow_succ_log_self (b := 2) (by norm_num) q
  exact ⟨by exact_mod_cast a1, by exact_mod_cast a2⟩

/-- A positive q rounds to a value between the two powers of two around it. -/
theorem roundF32Pos_bounds {q : ℚ} (hq : 0 < q) :
    (2 : ℚ) ^ Int.log 2 q ≤ roundF32Pos q ∧ roundF32Pos q ≤ 2 ^ (Int.log 2 q + 1) := by
  obtain ⟨h1, h2⟩ := log_two_bounds hq
  have hu : (0 : ℚ) < 2 ^ (Int.log 2 q - 23) := zpow_pos (by norm_num) _
  have e1 : (2 : ℚ) ^ Int.log 2 q = ((2 ^ 23 : ℤ) : ℚ) * 2 ^ (Int.log 2 q - 23) := by
    rw [zpow_sub₀ (by norm_num)]
    push_cast
    field_simp
    ring
  have e2 : (2 : ℚ) ^ (Int.log 2 q + 1) = ((2 ^ 24 : ℤ) : ℚ) * 2 ^ (Int.log 2 q - 23) := by
    rw [zpow_sub₀ (by norm_num), zpow_add₀ (by norm_num)]
    push_cast
    field_simp
    ring
  simp only [roundF32Pos]
  constructor
  · rw [e1]
    apply mul_le_mul_of_nonneg_right _ hu.le
    have : ((2 ^ 23 : ℤ) : ℚ) ≤ q / 2 ^ (Int.log 2 q - 23) := by
      rw [le_div_iff₀ hu, ← e1]
      exact h1
    have := roundHalfEven_mono this
    rw [roundHalfEven_intCast] at this
    exact_mod_cast this
  · rw [e2]
    apply mul_le_mul_of_nonneg_right _ hu.le
    have : q / 2 ^ (Int.log 2 q - 23) ≤ ((2 ^ 24 : ℤ) : ℚ) := by
      rw [div_le_iff₀ hu, ← e2]
      exact h2.le
    have := roundHalfEven_mono this
    rw [roundHalfEven_intCast] at this
    exact_mod_cast this

theorem roundF32Pos_pos {q : ℚ} (hq : 0 < q) : 0 < roundF32Pos q :=
  lt_of_lt_of_le (zpow_pos (by norm_num) _) (roundF32Pos_bounds hq).1

theorem roundF32Pos_mono {x y : ℚ} (hx : 0 < x) (h : x ≤ y) : roundF32Pos x ≤ roundF32Pos y := by
  have hy : 0 < y := lt_of_lt_of_le hx h
  have hl : Int.log 2 x ≤ Int.log 2 y := Int.log_mono_right hx h
  rcases lt_or_eq_of_le hl with hlt | heq
  · have b1 := (roundF32Pos_bounds hx).2
    have b2 := (roundF32Pos_bounds hy).1
    have : (2 : ℚ) ^ (Int.log 2 x + 1) ≤ 2 ^ Int.log 2 y :=
      zpow_le_zpow_right₀ (by norm_num) (by omega)
    linarith
  · simp only [roundF32Pos, heq]
    have hu : (0 : ℚ) < 2 ^ (Int.log 2 y - 23) := zpow_pos (by norm_num) _
    apply mul_le_mul_of_nonneg_right _ hu.le
    exact_mod_cast roundHalfEven_mono (div_le_div_of_nonneg_right h hu.le)

/-- Rounding to binary32 is monotone. -/
theorem roundF32_mono {x y : ℚ} (h : x ≤ y) : roundF32 x ≤ roundF32 y := by
  simp only [roundF32]
  rcases lt_trichotomy x 0 with hx | hx | hx <;> rcases lt_trichotomy y 0 with hy | hy | hy
  · rw [if_neg hx.ne, if_pos hx, if_neg hy.ne, if_pos hy]
    exact neg_le_neg (roundF32Pos_mono (by linarith) (by linarith))
  · rw [if_neg hx.ne, if_pos hx, if_pos hy]
    have := roundF32Pos_pos (q := -x) (by linarith)
    linarith
  · rw [if_neg hx.ne, if_pos hx, if_neg hy.ne', if_neg (not_lt.mpr hy.le)]
    have := roundF32Pos_pos (q := -x) (by linarith)
    have := roundF32Pos_pos hy
    linarith
  · exfalso; linarith
  · rw [if_pos hx, if_pos hy]
  · rw [if_pos hx, if_neg hy.ne', if_neg (not_lt.mpr hy.le)]
    exact (roundF32Pos_pos hy).le
  · exfalso; linarith
  · exfalso; linarith
  · rw [if_neg hx.ne', if_neg (not_lt.mpr hx.le), if_neg hy.ne', if_neg (not_lt.mpr hy.le)]
    exact roundF32Pos_mono hx h

/-- How a rounding is evaluated: the positive q lies in the binade of 2 ^ e and n is the
integer nearest to q in units of 2 ^ (e - 23). -/
theorem roundF32_eval_pos (q : ℚ) (e n : ℤ) (h1 : 2 ^ e ≤ q) (h2 : q < 2 ^ (e + 1))
    (hl : (n : ℚ) - 1 / 2 < q / 2 ^ (e - 23)) (hu : q / 2 ^ (e - 23) < n + 1 / 2) :
    roundF32 q = n * 2 ^ (e - 23) := by
  have hq : (0 : ℚ) < q := lt_of_lt_of_le (zpow_pos (by norm_num) _) h1
  simp only [roundF32, if_neg hq.ne', if_neg (not_lt.mpr hq.le)]
  have hlog := log_two_eq hq h1 h2
  simp only [roundF32Pos, hlog]
  rw [roundHalfEven_near _ n (by rw [abs_lt]; constructor <;> linarith)]

/-- The same for a negative q, whose rounding is the mirror image. -/
theorem roundF32_eval_neg (q : ℚ) (e n : ℤ) (h1 : 2 ^ e ≤ -q) (h2 : -q < 2 ^ (e + 1))
    (hl : (n : ℚ) - 1 / 2 < -q / 2 ^ (e - 23)) (hu : -q / 2 ^ (e - 23) < n + 1 / 2) :
    roundF32 q = -(n * 2 ^ (e - 23)) := by
  have hq : (0 : ℚ) < -q := lt_of_lt_of_le (zpow_pos (by norm_num) _) h1
  have hq2 : q < 0 := by linarith
  simp only [roundF32, if_neg hq2.ne, if_pos hq2]
  have hlog := log_two_eq hq h1 h2
  simp only [roundF32Pos, hlog]
  rw [roundHalfEven_near _ n (by rw [abs_lt]; constructor <;> linarith)]

theorem roundF32_zero : roundF32 0 = 0 := by simp [roundF32]

theorem roundF32_one : roundF32 1 = 1 := by
  rw [roundF32_eval_pos 1 0 8388608 (by norm_num) (by norm_num) (by norm_num) (by norm_num)]
  norm_num


/-- The eased factor the binary32 update computes lies in [0, 1]. -/
theorem easedF32_bounds (a d : ℚ) (h0 : 0 ≤ a) (hd : a < d) :
    0 ≤ roundF32 (1 - powf3F32 (roundF32 (1 - roundF32 (a / d)))) ∧
    roundF32 (1 - powf3F32 (roundF32 (1 - roundF32 (a / d)))) ≤ 1 := by
  have hdpos : 0 < d := lt_of_le_of_lt h0 hd
  have box : ∀ x : ℚ, 0 ≤ x → x ≤ 1 → 0 ≤ roundF32 x ∧ roundF32 x ≤ 1 := by
    intro x hx0 hx1
    have l := roundF32_mono hx0
    have u := roundF32_mono hx1
    rw [roundF32_zero] at l
    rw [roundF32_one] at u
    exact ⟨l, u⟩
  obtain ⟨t0, t1⟩ := box (a / d) (div_nonneg h0 hdpos.le) ((div_le_one hdpos).mpr hd.le)
  obtain ⟨u0, u1⟩ := box (1 - roundF32 (a / d)) (by linarith) (by linarith)
  obtain ⟨p0, p1⟩ := box (roundF32 (1 - roundF32 (a / d)) ^ 3) (pow_nonneg u0 3)
    (pow_le_one₀ u0 u1)
  exact box (1 - powf3F32 (roundF32 (1 - roundF32 (a / d))))
    (by simp only [powf3F32]; linarith) (by simp only [powf3F32]; linarith)

/-- The binary32 interpolation stays between startAngle and the value it takes at factor 1. -/
theorem interpF32_bounds (s e t : ℚ) (ht0 : 0 ≤ t) (ht1 : t ≤ 1) (hs : roundF32 s = s)
    (he : roundF32 (s + roundF32 (roundF32 (e - s) * 1)) = e) :
    min s e ≤ roundF32 (s + roundF32 (roundF32 (e - s) * t)) ∧
    roundF32 (s + roundF32 (roundF32 (e - s) * t)) ≤ max s e := by
  have hs0 : roundF32 (s + roundF32 (roundF32 (e - s) * 0)) = s := by
    rw [mul_zero, roundF32_zero, add_zero, hs]
  rcases le_total 0 (roundF32 (e - s)) with hD | hD
  · have l : roundF32 (s + roundF32 (roundF32 (e - s) * 0))
        ≤ roundF32 (s + roundF32 (roundF32 (e - s) * t)) :=
      roundF32_mono (add_le_add_left (roundF32_mono (mul_le_mul_of_nonneg_left ht0 hD)) s)
    have u : roundF32 (s + roundF32 (roundF32 (e - s) * t))
        ≤ roundF32 (s + roundF32 (roundF32 (e - s) * 1)) :=
      roundF32_mono (add_le_add_left (roundF32_mono (mul_le_mul_of_nonneg_left ht1 hD)) s)
    rw [hs0] at l
    rw [he] at u
    exact ⟨le_trans (min_le_left _ _) l, le_trans u (le_max_right _ _)⟩
  · have l : roundF32 (s + roundF32 (roundF32 (e - s) * 1))
        ≤ roundF32 (s + roundF32 (roundF32 (e - s) * t)) :=
      roundF32_mono (add_le_add_left (roundF32_mono (mul_le_mul_of_nonpos_left ht1 hD)) s)
    have u : roundF32 (s + roundF32 (roundF32 (e - s) * t))
        ≤ roundF32 (s + roundF32 (roundF32 (e - s) * 0)) :=
      roundF32_mono (add_le_add_left (roundF32_mono (mul_le_mul_of_nonpos_left ht0 hD)) s)
    rw [hs0] at u
    rw [he] at l
    exact ⟨le_trans (min_le_right _ _) l, le_trans u (le_max_left _ _)⟩

/-- What the binary32 update does to a firing catapult whose clock stays below the duration. -/
theorem updateF32_firing (c : Catapult ℚ) (dt : ℚ) (h : c.isAnimating = true)
    (hd : ¬ c.animationDuration ≤ roundF32 (c.animationTime + dt)) :
    (c.updateF32 dt).isFiring = true ∧
    (c.updateF32 dt).animationTime = roundF32 (c.animationTime + dt) ∧
    (c.updateF32 dt).armAngle =
      roundF32 (c.startAngle + roundF32 (roundF32 (c.endAngle - c.startAngle) *
        roundF32 (1 - powf3F32 (roundF32 (1 -
          roundF32 (roundF32 (c.animationTime + dt) / c.animationDuration)))))) := by
  simp [Catapult.updateF32, Catapult.isFiring, h, hd]

/-- The firing path of the catapult as constructed, in binary32: startAngle is the float
nearest to -0.03 + 2.8e-8, endAngle is -1.5, the duration 0.5. -/
theorem initF32_fire :
    (Catapult.initF32.fire).isAnimating = true ∧ (Catapult.initF32.fire).animationTime = 0 ∧
    (Catapult.initF32.fire).startAngle = -(125829 / 4194304) ∧
    (Catapult.initF32.fire).armAngle = -(125829 / 4194304) ∧
    (Catapult.initF32.fire).endAngle = -(3 / 2) ∧
    (Catapult.initF32.fire).animationDuration = 1 / 2 := by
  have h1 : roundF32 (-(11 / 10)) = -(9227469 / 8388608) :=
    (roundF32_eval_neg _ 0 9227469 (by norm_num) (by norm_num) (by norm_num)
      (by norm_num)).trans (by norm_num)
  have h2 : roundF32 (-(3 / 100)) = -(16106127 / 536870912) :=
    (roundF32_eval_neg _ (-6) 16106127 (by norm_num) (by norm_num) (by norm_num)
      (by norm_num)).trans (by norm_num)
  have h4 : roundF32 (-(16106127 / 536870912) - -(9227469 / 8388608)) = 8975811 / 8388608 :=
    (roundF32_eval_pos _ 0 8975811 (by norm_num) (by norm_num) (by norm_num)
      (by norm_num)).trans (by norm_num)
  have h5 : roundF32 (8975811 / 8388608 * 1) = 8975811 / 8388608 :=
    (roundF32_eval_pos _ 0 8975811 (by norm_num) (by norm_num) (by norm_num)
      (by norm_num)).trans (by norm_num)
  have h6 : roundF32 (-(9227469 / 8388608) + 8975811 / 8388608) = -(125829 / 4194304) :=
    (roundF32_eval_neg _ (-6) 16106112 (by norm_num) (by norm_num) (by norm_num)
      (by norm_num)).trans (by norm_num)
  have h7 : roundF32 (-(15 / 10)) = -(3 / 2) :=
    (roundF32_eval_neg _ 0 12582912 (by norm_num) (by norm_num) (by norm_num)
      (by norm_num)).trans (by norm_num)
  have h8 : roundF32 (5 / 10) = 1 / 2 :=
    (roundF32_eval_pos _ (-1) 8388608 (by norm_num) (by norm_num) (by norm_num)
      (by norm_num)).trans (by norm_num)
  simp only [Catapult.fire, Catapult.initF32, Catapult.updateArmAngleFromSpeedF32,
    Catapult.defaultsF32, Catapult.defaults, h1, h2, roundF32_one, roundF32_zero, h4, h5, h6,
    h7, h8]
  simp

/-- C7, where it fails: in binary32 the catapult as constructed (startAngle about -0.03,
endAngle -1.5, duration 0.5), fired and updated to the accumulated time 0.4990234375, is
still firing with the arm angle equal to endAngle, because 1.0f - 2^-27 rounds to 1.0f; and
updated to the accumulated time 2^-27 instead, it is still firing with the arm angle equal to
startAngle, because 1.0f - 2^-26 rounds to 1.0f. -/
theorem C7_ends_attained_while_firing :
    (Catapult.initF32.fire).startAngle ≠ (Catapult.initF32.fire).endAngle ∧
    ((Catapult.initF32.fire).updateF32 (511 / 1024)).isFiring = true ∧
    ((Catapult.initF32.fire).updateF32 (511 / 1024)).animationTime = 511 / 1024 ∧
    ((Catapult.initF32.fire).updateF32 (511 / 1024)).armAngle
      = (Catapult.initF32.fire).endAngle ∧
    ((Catapult.initF32.fire).updateF32 (1 / 2 ^ 27)).isFiring = true ∧
    ((Catapult.initF32.fire).updateF32 (1 / 2 ^ 27)).animationTime = 1 / 2 ^ 27 ∧
    ((Catapult.initF32.fire).updateF32 (1 / 2 ^ 27)).armAngle
      = (Catapult.initF32.fire).startAngle := by
  obtain ⟨f1, f2, f3, f4, f5, f6⟩ := initF32_fire
  have a1 : roundF32 (0 + 511 / 1024) = 511 / 1024 :=
    (roundF32_eval_pos _ (-2) 16744448 (by norm_num) (by norm_num) (by norm_num)
      (by norm_num)).trans (by norm_num)
  have a2 : roundF32 (511 / 1024 / (1 / 2)) = 511 / 512 :=
    (roundF32_eval_pos _ (-1) 16744448 (by norm_num) (by norm_num) (by norm_num)
      (by norm_num)).trans (by norm_num)
  have a3 : roundF32 (1 - 511 / 512) = 1 / 512 :=
    (roundF32_eval_pos _ (-9) 8388608 (by norm_num) (by norm_num) (by norm_num)
      (by norm_num)).trans (by norm_num)
  have a4 : powf3F32 (1 / 512) = 1 / 134217728 :=
    (roundF32_eval_pos _ (-27) 8388608 (by norm_num) (by norm_num) (by norm_num)
      (by norm_num)).trans (by norm_num)
  have a5 : roundF32 (1 - 1 / 134217728) = 1 :=
    (roundF32_eval_pos _ (-1) 16777216 (by norm_num) (by norm_num) (by norm_num)
      (by norm_num)).trans (by norm_num)
  have a6 : roundF32 (-(3 / 2) - -(125829 / 4194304)) = -(6165627 / 4194304) :=
    (roundF32_eval_neg _ 0 12331254 (by norm_num) (by norm_num) (by norm_num)
      (by norm_num)).trans (by norm_num)
  have a7 : roundF32 (-(6165627 / 4194304) * 1) = -(6165627 / 4194304) :=
    (roundF32_eval_neg _ 0 12331254 (by norm_num) (by norm_num) (by norm_num)
      (by norm_num)).trans (by norm_num)
  have a8 : roundF32 (-(125829 / 4194304) + -(6165627 / 4194304)) = -(3 / 2) :=
    (roundF32_eval_neg _ 0 12582912 (by norm_num) (by norm_num) (by norm_num)
      (by norm_num)).trans (by norm_num)
  have b1 : roundF32 (0 + 1 / 2 ^ 27) = 1 / 2 ^ 27 :=
    (roundF32_eval_pos _ (-27) 8388608 (by norm_num) (by norm_num) (by norm_num)
      (by norm_num)).trans (by norm_num)
  have b2 : roundF32 (1 / 2 ^ 27 / (1 / 2)) = 1 / 2 ^ 26 :=
    (roundF32_eval_pos _ (-26) 8388608 (by norm_num) (by norm_num) (by norm_num)
      (by norm_num)).trans (by norm_num)
  have b3 : roundF32 (1 - 1 / 2 ^ 26) = 1 :=
    (roundF32_eval_pos _ (-1) 16777216 (by norm_num) (by norm_num) (by norm_num)
      (by norm_num)).trans (by norm_num)
  have b4 : powf3F32 1 = 1 := by
    simp only [powf3F32, one_pow, roundF32_one]
  have b8 : roundF32 (-(125829 / 4194304) + 0) = -(125829 / 4194304) :=
    (roundF32_eval_neg _ (-6) 16106112 (by norm_num) (by norm_num) (by norm_num)
      (by norm_num)).trans (by norm_num)
  have hd1 : ¬ (Catapult.initF32.fire).animationDuration
      ≤ roundF32 ((Catapult.initF32.fire).animationTime + 511 / 1024) := by
    rw [f6, f2, a1]; norm_num
  have hd2 : ¬ (Catapult.initF32.fire).animationDuration
      ≤ roundF32 ((Catapult.initF32.fire).animationTime + 1 / 2 ^ 27) := by
    rw [f6, f2, b1]; norm_num
  obtain ⟨u1, u3, u2⟩ := updateF32_firing _ _ f1 hd1
  obtain ⟨v1, v3, v2⟩ := updateF32_firing _ _ f1 hd2
  refine ⟨by rw [f3, f5]; norm_num, u1, ?_, ?_, v1, ?_, ?_⟩
  · rw [u3, f2, a1]
  · rw [u2, f2, f3, f5, f6, a1, a2, a3, a4, a5, a6, a7, a8]
  · rw [v3, f2, b1]
  · rw [v2, f2, f3, f5, f6, b1, b2, b3, b4, sub_self, roundF32_zero, a6, mul_zero,
      roundF32_zero, b8]

/-- At the angles of the constructed catapult the binary32 interpolation is exact at both
ends: startAngle is a binary32 value and startAngle + (endAngle - startAngle) * 1.0f
evaluates to endAngle. -/
theorem initF32_interp :
    roundF32 (Catapult.initF32.fire).startAngle = (Catapult.initF32.fire).startAngle ∧
    roundF32 ((Catapult.initF32.fire).startAngle +
        roundF32 (roundF32 ((Catapult.initF32.fire).endAngle
          - (Catapult.initF32.fire).startAngle) * 1))
      = (Catapult.initF32.fire).endAngle := by
  obtain ⟨-, -, f3, -, f5, -⟩ := initF32_fire
  have a0 : roundF32 (-(125829 / 4194304)) = -(125829 / 4194304) :=
    (roundF32_eval_neg _ (-6) 16106112 (by norm_num) (by norm_num) (by norm_num)
      (by norm_num)).trans (by norm_num)
  have a6 : roundF32 (-(3 / 2) - -(125829 / 4194304)) = -(6165627 / 4194304) :=
    (roundF32_eval_neg _ 0 12331254 (by norm_num) (by norm_num) (by norm_num)
      (by norm_num)).trans (by norm_num)
  have a7 : roundF32 (-(6165627 / 4194304) * 1) = -(6165627 / 4194304) :=
    (roundF32_eval_neg _ 0 12331254 (by norm_num) (by norm_num) (by norm_num)
      (by norm_num)).trans (by norm_num)
  have a8 : roundF32 (-(125829 / 4194304) + -(6165627 / 4194304)) = -(3 / 2) :=
    (roundF32_eval_neg _ 0 12582912 (by norm_num) (by norm_num) (by norm_num)
      (by norm_num)).trans (by norm_num)
  rw [f3, f5, a0, a6, a7, a8]
  exact ⟨rfl, rfl⟩

/-- C7: right after fire the arm angle is startAngle; after updates (each dt ≥ 0) whose
accumulated time e satisfies 0 < e < animationDuration the catapult is still firing and the
arm angle is, in exact arithmetic, startAngle + (endAngle - startAngle) *
(1 - (1 - e / animationDuration)^3), which lies between startAngle and endAngle, ends
included; of two such accumulated times the later one leaves the arm at least as close to
endAngle; and in binary32 arithmetic an update that leaves the catapult firing leaves the arm
angle in the closed interval between startAngle and endAngle, whenever startAngle is a
binary32 value and startAngle + (endAngle - startAngle) * 1.0f evaluates to endAngle. -/
theorem C7_arm_angle_while_firing (c : Catapult K) (hready : c.isFiring = false) :
    c.fire.armAngle = c.startAngle ∧
    (∀ dts : List K, (∀ dt ∈ dts, 0 ≤ dt) → 0 < dts.sum → dts.sum < c.animationDuration →
      (dts.foldl Catapult.update c.fire).isFiring = true ∧
      (dts.foldl Catapult.update c.fire).armAngle
        = c.startAngle + (c.endAngle - c.startAngle)
            * (1 - (1 - dts.sum / c.animationDuration) ^ 3) ∧
      min c.startAngle c.endAngle ≤ (dts.foldl Catapult.update c.fire).armAngle ∧
      (dts.foldl Catapult.update c.fire).armAngle ≤ max c.startAngle c.endAngle) ∧
    (∀ dts1 dts2 : List K, (∀ dt ∈ dts1, 0 ≤ dt) → (∀ dt ∈ dts2, 0 ≤ dt) →
      0 < dts1.sum → dts1.sum < dts2.sum → dts2.sum < c.animationDuration →
      |c.endAngle - (dts2.foldl Catapult.update c.fire).armAngle|
        ≤ |c.endAngle - (dts1.foldl Catapult.update c.fire).armAngle|) ∧
    (∀ (f : Catapult ℚ) (dt : ℚ), f.isFiring = true → 0 ≤ f.animationTime → 0 ≤ dt →
      roundF32 f.startAngle = f.startAngle →
      roundF32 (f.startAngle + roundF32 (roundF32 (f.endAngle - f.startAngle) * 1))
        = f.endAngle →
      (f.updateF32 dt).isFiring = true →
      min f.startAngle f.endAngle ≤ (f.updateF32 dt).armAngle ∧
      (f.updateF32 dt).armAngle ≤ max f.startAngle f.endAngle) := by
  obtain ⟨hf1, hf2, hf3, hf4, hf5, hf6⟩ := fire_ready c hready
  have key : ∀ dts : List K, (∀ dt ∈ dts, 0 ≤ dt) → 0 < dts.sum →
      dts.sum < c.animationDuration →
      (dts.foldl Catapult.update c.fire).armAngle = c.easedAngle dts.sum ∧
      (dts.foldl Catapult.update c.fire).isAnimating = true := by
    intro dts hpos h0 h1
    have hne : dts ≠ [] := by
      intro h
      rw [h] at h0
      simp at h0
    have h := firing_progress dts c.fire hf1 hne hpos (by rw [hf2, hf6, zero_add]; exact h1)
    rw [hf2, zero_add] at h
    refine ⟨?_, h.2⟩
    rw [h.1]
    simp [Catapult.easedAngle, hf4, hf5, hf6]
  refine ⟨hf3, ?_, ?_, ?_⟩
  · intro dts hpos h0 h1
    obtain ⟨ha, hb⟩ := key dts hpos h0 h1
    obtain ⟨hu0, hu1⟩ := easing_bounds dts.sum c.animationDuration h0 h1
    refine ⟨hb, ?_, ?_⟩
    · rw [ha]
      rfl
    · rw [ha]
      have hgap := easedAngle_gap c dts.sum
      rcases le_total c.startAngle c.endAngle with hle | hge
      · rw [min_eq_left hle, max_eq_right hle]
        have hpos2 : 0 ≤ c.endAngle - c.startAngle := sub_nonneg.mpr hle
        constructor <;> nlinarith
      · rw [min_eq_right hge, max_eq_left hge]
        have hpos2 : 0 ≤ c.startAngle - c.endAngle := sub_nonneg.mpr hge
        constructor <;> nlinarith
  · intro dts1 dts2 hp1 hp2 h0 h12 h2
    rw [(key dts1 hp1 h0 (lt_trans h12 h2)).1, (key dts2 hp2 (lt_trans h0 h12) h2).1,
      easedAngle_gap, easedAngle_gap, abs_mul, abs_mul]
    have hb1 := easing_bounds dts1.sum c.animationDuration h0 (lt_trans h12 h2)
    have hb2 := easing_bounds dts2.sum c.animationDuration (lt_trans h0 h12) h2
    rw [abs_of_pos hb1.1, abs_of_pos hb2.1]
    exact mul_le_mul_of_nonneg_left
      (easing_antitone dts1.sum dts2.sum c.animationDuration h0 h12 h2) (abs_nonneg _)
  · intro f dt hfire ha hdt hs he hstill
    simp only [Catapult.isFiring] at hfire
    have hd : ¬ f.animationDuration ≤ roundF32 (f.animationTime + dt) := by
      intro hcon
      simp [Catapult.updateF32, Catapult.isFiring, hfire, hcon] at hstill
    obtain ⟨-, -, harm⟩ := updateF32_firing f dt hfire hd
    have ha2 : 0 ≤ roundF32 (f.animationTime + dt) := by
      have := roundF32_mono (add_nonneg ha hdt)
      rwa [roundF32_zero] at this
    obtain ⟨t0, t1⟩ := easedF32_bounds _ _ ha2 (not_le.mp hd)
    rw [harm]
    exact interpF32_bounds _ _ _ t0 t1 hs he

/-- C7 on the constructed catapult (duration 0.5) after one update of 0.25, in exact and in
binary32 arithmetic. -/
theorem C7_arm_angle_while_firing_witness :
    (Catapult.init : Catapult ℚ).isFiring = false ∧
    (([1 / 4] : List ℚ).foldl Catapult.update (Catapult.init : Catapult ℚ).fire).armAngle
      = (Catapult.init : Catapult ℚ).startAngle
        + ((Catapult.init : Catapult ℚ).endAngle - (Catapult.init : Catapult ℚ).startAngle)
          * (1 - (1 - ([1 / 4] : List ℚ).sum / (Catapult.init : Catapult ℚ).animationDuration) ^ 3) ∧
    ((Catapult.initF32.fire).updateF32 (1 / 4)).isFiring = true ∧
    min (Catapult.initF32.fire).startAngle (Catapult.initF32.fire).endAngle
      ≤ ((Catapult.initF32.fire).updateF32 (1 / 4)).armAngle ∧
    ((Catapult.initF32.fire).updateF32 (1 / 4)).armAngle
      ≤ max (Catapult.initF32.fire).startAngle (Catapult.initF32.fire).endAngle := by
  have h1 : (Catapult.init : Catapult ℚ).isFiring = false := by
    simp [Catapult.isFiring, Catapult.init, Catapult.updateArmAngleFromSpeed, Catapult.defaults]
  obtain ⟨f1, f2, -, -, -, f6⟩ := initF32_fire
  have q1 : roundF32 (0 + 1 / 4) = 1 / 4 :=
    (roundF32_eval_pos _ (-2) 8388608 (by norm_num) (by norm_num) (by norm_num)
      (by norm_num)).trans (by norm_num)
  have hd : ¬ (Catapult.initF32.fire).animationDuration
      ≤ roundF32 ((Catapult.initF32.fire).animationTime + 1 / 4) := by
    rw [f6, f2, q1]; norm_num
  have hstill := (updateF32_firing _ _ f1 hd).1
  have hfire : (Catapult.initF32.fire).isFiring = true := by
    rw [Catapult.isFiring]; exact f1
  refine ⟨h1, ((C7_arm_angle_while_firing _ h1).2.1 [1 / 4] ?_ ?_ ?_).2.1, hstill,
    (C7_arm_angle_while_firing _ h1).2.2.2 _ (1 / 4) hfire (by rw [f2]) (by norm_num) initF32_interp.1
      initF32_interp.2 hstill⟩
  · intro dt hdt
    simp at hdt
    rw [hdt]
    norm_num
  · norm_num
  · norm_num [Catapult.init, Catapult.updateArmAngleFromSpeed, Catapult.defaults]

end Firing

/-! ## Catapult health -/

section Health

variable {K : Type} [LinearOrderedField K]

/-- C10, counterexample: the constructed catapult (health 100, maxHealth 100) satisfies the
health invariant, but takeDamage(-50) leaves health 150 > maxHealth 100, and setMaxHealth(50)
leaves health 100 > maxHealth 50. -/
theorem C10_health_invariant_broken :
    (Catapult.init : Catapult ℚ).healthInvariant ∧
    ¬ ((Catapult.init : Catapult ℚ).takeDamage (-50)).healthInvariant ∧
    ¬ ((Catapult.init : Catapult ℚ).setMaxHealth 50).healthInvariant := by
  refine ⟨?_, ?_, ?_⟩
  · norm_num [Catapult.healthInvariant, Catapult.init, Catapult.updateArmAngleFromSpeed,
      Catapult.defaults]
  · norm_num [Catapult.healthInvariant, Catapult.takeDamage, Catapult.init,
      Catapult.updateArmAngleFromSpeed, Catapult.defaults]
  · norm_num [Catapult.healthInvariant, Catapult.setMaxHealth, Catapult.init,
      Catapult.updateArmAngleFromSpeed, Catapult.defaults]

/-- C10, amended: the constructed catapult satisfies 0 ≤ health ≤ maxHealth, and from a state
that satisfies it the invariant is kept by setHealth(h) for every h, by takeDamage(d) for
every d ≥ 0, and by setMaxHealth(m) for every m ≥ health; takeDamage(d) keeps health ≥ 0 for
every d. -/
theorem C10_health_invariant_preserved (c : Catapult K) (hinv : c.healthInvariant) :
    (Catapult.init : Catapult K).healthInvariant ∧
    (∀ h : K, (c.setHealth h).healthInvariant) ∧
    (∀ d : K, 0 ≤ d → (c.takeDamage d).healthInvariant) ∧
    (∀ d : K, 0 ≤ (c.takeDamage d).health) ∧
    (∀ m : K, c.health ≤ m → (c.setMaxHealth m).healthInvariant) := by
  obtain ⟨h0, h1⟩ := hinv
  have hmax : 0 ≤ c.maxHealth := le_trans h0 h1
  refine ⟨?_, ?_, ?_, ?_, ?_⟩
  · simp [Catapult.healthInvariant, Catapult.init, Catapult.updateArmAngleFromSpeed,
      Catapult.defaults]
  · intro h
    simp only [Catapult.healthInvariant, Catapult.setHealth, Catapult.glmClamp]
    exact ⟨le_min (le_max_right _ _) hmax, min_le_right _ _⟩
  · intro d hd
    simp only [Catapult.healthInvariant, Catapult.takeDamage]
    by_cases hneg : c.health - d < 0
    · simp [hneg, hmax]
    · simp only [hneg, if_false]
      exact ⟨not_lt.mp hneg, by linarith⟩
  · intro d
    simp only [Catapult.takeDamage]
    by_cases hneg : c.health - d < 0
    · simp [hneg]
    · simp only [hneg, if_false]
      exact not_lt.mp hneg
  · intro m hm
    simp only [Catapult.healthInvariant, Catapult.setMaxHealth]
    exact ⟨h0, hm⟩

/-- C10, amended, on the constructed catapult: a zombie hit of 10. -/
theorem C10_health_invariant_preserved_witness :
    (Catapult.init : Catapult ℚ).healthInvariant ∧
    ((Catapult.init : Catapult ℚ).takeDamage 10).healthInvariant := by
  have h : (Catapult.init : Catapult ℚ).healthInvariant := by
    norm_num [Catapult.healthInvariant, Catapult.init, Catapult.updateArmAngleFromSpeed,
      Catapult.defaults]
  exact ⟨h, (C10_health_invariant_preserved _ h).2.2.1 10 (by norm_num)⟩

end Health

/-! ## Launch velocity (over the reals) -/

section Launch

theorem glmRotate_y (angle : ℝ) (v : Vec3 ℝ) :
    (glmRotate realMath angle ⟨0, 1, 0⟩).mulDir v
      = ⟨Real.cos angle * v.x + Real.sin angle * v.z, v.y,
         -(Real.sin angle) * v.x + Real.cos angle * v.z⟩ := by
  simp [glmRotate, glmNormalize, Mat3.mulDir, Vec3.add, Vec3.smul, Vec3.dot, realMath]

theorem launchVelocity_dot (c : Catapult ℝ) :
    (launchVelocity realMath c).dot (launchVelocity realMath c)
      = c.getLaunchSpeed * c.getLaunchSpeed := by
  simp only [launchVelocity, glmRotate_y]
  simp only [Vec3.dot, realMath]
  have h1 := Real.cos_sq_add_sin_sq (c.getArmAngle - 31415926535 / 10000000000 / 2)
  have h2 := Real.cos_sq_add_sin_sq c.getRotation
  generalize Real.cos (c.getArmAngle - 31415926535 / 10000000000 / 2) = ca at h1 ⊢
  generalize Real.sin (c.getArmAngle - 31415926535 / 10000000000 / 2) = sa at h1 ⊢
  generalize Real.cos c.getRotation = cr at h2 ⊢
  generalize Real.sin c.getRotation = sr at h2 ⊢
  generalize c.getLaunchSpeed = L
  have e : cr * (-L * ca) * (cr * (-L * ca)) + -L * sa * (-L * sa)
      + -sr * (-L * ca) * (-sr * (-L * ca))
      = L * L * (ca ^ 2 * (cr ^ 2 + sr ^ 2) + sa ^ 2) := by ring
  simp only [mul_zero, add_zero]
  rw [e, h2, mul_one, h1, mul_one]

theorem getLaunchSpeed_nonneg (c : Catapult ℝ) (h0 : 0 ≤ c.speed)
    (hmin : 0 ≤ c.minLaunchSpeed) (hle : c.minLaunchSpeed ≤ c.maxLaunchSpeed) :
    0 ≤ c.getLaunchSpeed := by
  simp only [Catapult.getLaunchSpeed]
  have := mul_nonneg (sub_nonneg.mpr hle) h0
  linarith

/-- C5: for every arm angle, yaw and speed in [0, 1], with the launch speed bounds
0 ≤ minLaunchSpeed ≤ maxLaunchSpeed (the class fixes them at 5 and 15), the velocity main
passes to launch has Euclidean length getLaunchSpeed() =
minLaunchSpeed + (maxLaunchSpeed - minLaunchSpeed) * speed, and this length does not decrease
when speed grows. -/
theorem C5_launch_velocity_magnitude (c : Catapult ℝ) (h0 : 0 ≤ c.speed) (_h1 : c.speed ≤ 1)
    (hmin : 0 ≤ c.minLaunchSpeed) (hle : c.minLaunchSpeed ≤ c.maxLaunchSpeed) :
    Vec3.length realMath (launchVelocity realMath c) = c.getLaunchSpeed ∧
    c.getLaunchSpeed = c.minLaunchSpeed + (c.maxLaunchSpeed - c.minLaunchSpeed) * c.speed ∧
    (∀ c2 : Catapult ℝ, c2.minLaunchSpeed = c.minLaunchSpeed →
      c2.maxLaunchSpeed = c.maxLaunchSpeed → c.speed ≤ c2.speed →
      Vec3.length realMath (launchVelocity realMath c)
        ≤ Vec3.length realMath (launchVelocity realMath c2)) := by
  have hlen : ∀ d : Catapult ℝ, 0 ≤ d.getLaunchSpeed →
      Vec3.length realMath (launchVelocity realMath d) = d.getLaunchSpeed := by
    intro d hd
    have : Vec3.length realMath (launchVelocity realMath d)
        = Real.sqrt ((launchVelocity realMath d).dot (launchVelocity realMath d)) := rfl
    rw [this, launchVelocity_dot, Real.sqrt_mul_self hd]
  refine ⟨hlen c (getLaunchSpeed_nonneg c h0 hmin hle), rfl, ?_⟩
  intro c2 e1 e2 hs
  have h02 : 0 ≤ c2.speed := le_trans h0 hs
  rw [hlen c (getLaunchSpeed_nonneg c h0 hmin hle),
    hlen c2 (getLaunchSpeed_nonneg c2 h02 (by rw [e1]; exact hmin) (by rw [e1, e2]; exact hle))]
  simp only [Catapult.getLaunchSpeed, e1, e2]
  have := mul_le_mul_of_nonneg_left hs (sub_nonneg.mpr hle)
  linarith

/-- C5 on the constructed catapult (speed 1, launch speed bounds 5 and 15). -/
theorem C5_launch_velocity_magnitude_witness :
    ((0 : ℝ) ≤ (Catapult.init : Catapult ℝ).speed ∧ (Catapult.init : Catapult ℝ).speed ≤ 1 ∧
      0 ≤ (Catapult.init : Catapult ℝ).minLaunchSpeed ∧
      (Catapult.init : Catapult ℝ).minLaunchSpeed ≤ (Catapult.init : Catapult ℝ).maxLaunchSpeed) ∧
    Vec3.length realMath (launchVelocity realMath (Catapult.init : Catapult ℝ))
      = (Catapult.init : Catapult ℝ).getLaunchSpeed := by
  have h0 : (0 : ℝ) ≤ (Catapult.init : Catapult ℝ).speed := by
    norm_num [Catapult.init, Catapult.updateArmAngleFromSpeed, Catapult.defaults]
  have h1 : (Catapult.init : Catapult ℝ).speed ≤ 1 := by
    norm_num [Catapult.init, Catapult.updateArmAngleFromSpeed, Catapult.defaults]
  have h2 : (0 : ℝ) ≤ (Catapult.init : Catapult ℝ).minLaunchSpeed := by
    norm_num [Catapult.init, Catapult.updateArmAngleFromSpeed, Catapult.defaults]
  have h3 : (Catapult.init : Catapult ℝ).minLaunchSpeed
      ≤ (Catapult.init : Catapult ℝ).maxLaunchSpeed := by
    norm_num [Catapult.init, Catapult.updateArmAngleFromSpeed, Catapult.defaults]
  exact ⟨⟨h0, h1, h2, h3⟩, (C5_launch_velocity_magnitude _ h0 h1 h2 h3).1⟩

end Launch

/-! ## Splash damage, once per flight -/

section Splash

variable {K : Type} [LinearOrderedField K]

theorem calculateDamage_nonneg (p : Projectile K) (d : K) (hb : 0 ≤ p.baseDamage)
    (hm : 0 ≤ p.outerDamageMultiplier) : 0 ≤ p.calculateDamage d := by
  by_cases h1 : d ≤ p.innerRadius
  · rw [calculateDamage_inner p d h1]; exact hb
  · by_cases h2 : d ≤ p.outerRadius
    · have h1 : p.innerRadius < d := not_le.mp h1
      rw [calculateDamage_linear p d h1 h2]
      have hden : 0 < p.outerRadius - p.innerRadius := by linarith
      have ht0 : 0 ≤ (d - p.innerRadius) / (p.outerRadius - p.innerRadius) :=
        div_nonneg (by linarith) hden.le
      have ht1 : (d - p.innerRadius) / (p.outerRadius - p.innerRadius) ≤ 1 :=
        (div_le_one hden).mpr (by linarith)
      apply mul_nonneg hb
      nlinarith [mul_nonneg ht0 hm]
    · simp [Projectile.calculateDamage, h1, h2]

/-- In free flight update keeps the bomb launched and without damage applied, and the impact
animation starts exactly when the collision is detected. -/
theorem update_inFlight (m : MathFns K) (b : Projectile K) (dt : K) (t : Terrain K)
    (h1 : b.isLaunched = true) (h2 : b.hasHit = false) (h3 : b.damageApplied = false)
    (h4 : b.isAnimating = false) :
    (b.update m dt (some t)).isLaunched = true ∧
    (b.update m dt (some t)).damageApplied = false ∧
    (b.update m dt (some t)).isAnimating = (b.update m dt (some t)).hasHit := by
  simp only [Projectile.update, h4, h1, h2, Projectile.checkCollision]
  simp only [Bool.false_eq_true, if_false, Bool.not_false, Bool.and_self, if_true]
  split_ifs <;>
    simp_all [Projectile.startImpactAnimation, Projectile.createShatterEffect]

/-- During the impact animation update leaves hasHit and damageApplied alone, and either keeps
the bomb launched and animating or ends both. -/
theorem update_animating (m : MathFns K) (b : Projectile K) (dt : K) (t : Terrain K)
    (h4 : b.isAnimating = true) :
    (b.update m dt (some t)).hasHit = b.hasHit ∧
    (b.update m dt (some t)).damageApplied = b.damageApplied ∧
    (((b.update m dt (some t)).isLaunched = b.isLaunched ∧
        (b.update m dt (some t)).isAnimating = true) ∨
     ((b.update m dt (some t)).isLaunched = false ∧
        (b.update m dt (some t)).isAnimating = false)) := by
  simp only [Projectile.update, h4, if_true, Projectile.updateFragments]
  split_ifs <;> simp_all

/-- A free-flight update whose integrated position is at or below terrain height + 0.15 detects
the ground collision and starts the impact animation. -/
theorem update_ground_hit (m : MathFns K) (b : Projectile K) (dt : K) (t : Terrain K)
    (h1 : b.isLaunched = true) (h2 : b.hasHit = false) (h4 : b.isAnimating = false)
    (hy : (b.position.add ((b.velocity.add ((⟨0, -(981 / 100), 0⟩ : Vec3 K).smul dt)).smul dt)).y
      ≤ t.getHeight
          (b.position.add ((b.velocity.add ((⟨0, -(981 / 100), 0⟩ : Vec3 K).smul dt)).smul dt)).x
          (b.position.add ((b.velocity.add ((⟨0, -(981 / 100), 0⟩ : Vec3 K).smul dt)).smul dt)).z
        + 15 / 100) :
    (b.update m dt (some t)).hasHit = true ∧ (b.update m dt (some t)).isAnimating = true ∧
    (b.update m dt (some t)).impactTime = 0 ∧ (b.update m dt (some t)).isLaunched = true ∧
    (b.update m dt (some t)).damageApplied = b.damageApplied := by
  simp only [Projectile.update, h4, h1, h2, Projectile.checkCollision]
  simp only [Bool.false_eq_true, if_false, Bool.not_false, Bool.and_self, if_true, hy]
  simp [Projectile.startImpactAnimation, Projectile.createShatterEffect, h1]

/-- The update that brings impactTime to 2 or more ends the impact animation and the flight. -/
theorem update_animation_end (m : MathFns K) (b : Projectile K) (dt : K) (t : Terrain K)
    (h4 : b.isAnimating = true) (ht : 2 ≤ b.impactTime + dt) :
    (b.update m dt (some t)).isLaunched = false ∧ (b.update m dt (some t)).isAnimating = false ∧
    (b.update m dt (some t)).hasHit = b.hasHit ∧
    (b.update m dt (some t)).damageApplied = b.damageApplied := by
  simp [Projectile.update, h4, Projectile.updateFragments, ht]

/-- The frames of the impact animation neither detect a collision nor run the damage block. -/
theorem flight_animating (m : MathFns K) (events : List (FlightEvent K)) :
    ∀ b : Projectile K, b.hasHit = true → b.damageApplied = true → b.isAnimating = true →
      ∀ e ∈ (flight m events b).1, e = (false, false) := by
  induction events with
  | nil => intro b _ _ _ e he; simp [flight] at he
  | cons ev rest ih =>
    intro b h2 h3 h4 e he
    cases ev with
    | respawn pos => simp [flight] at he
    | frame f =>
      by_cases h1 : b.isLaunched = true
      · obtain ⟨u1, u2, u3⟩ := update_animating m b f.deltaTime f.terrain h4
        rw [h2] at u1
        rw [h3] at u2
        have hc : collisionDetected m f.terrain f.deltaTime b = false := by
          simp [collisionDetected, h2]
        have hd : damagesZombies m f.terrain f.deltaTime b = false := by
          simp [damagesZombies, u1, u2]
        simp only [flight, h1, if_true, hc, hd, List.mem_cons] at he
        rcases he with he | he
        · exact he
        · rcases u3 with ⟨v1, v2⟩ | ⟨v1, v2⟩
          · refine ih _ ?_ ?_ ?_ e he
            · simp [flightFrame, u1, u2, v1, v2, h1]
            · simp [flightFrame, u1, u2, v1, v2, h1]
            · simp [flightFrame, u1, u2, v1, v2, h1]
          · have hnl : (flightFrame m f.terrain f.deltaTime ⟨b, f.zombies, f.catapult⟩).bomb.isLaunched
                = false := by
              simp only [flightFrame, u1, u2, v1, v2]
              split_ifs <;> simp_all
            cases rest with
            | nil => simp [flight] at he
            | cons ev2 rest2 =>
              cases ev2 with
              | respawn pos => simp [flight] at he
              | frame f2 => simp [flight, hnl] at he
      · have h1 : b.isLaunched = false := by simpa using h1
        simp [flight, h1] at he

theorem count_damage_none (l : List (Bool × Bool)) (h : ∀ e ∈ l, e = (false, false)) :
    (l.map Prod.snd).count true = 0 := by
  rw [List.count_eq_zero]
  intro hmem
  obtain ⟨e, he, hsnd⟩ := List.mem_map.mp hmem
  rw [h e he] at hsnd
  simp at hsnd

/-- From free flight on: the damage block runs exactly in the frame that detects the
collision, in at most one frame, and in exactly one if the flight has ended. -/
theorem flight_inFlight (m : MathFns K) (events : List (FlightEvent K)) :
    ∀ b : Projectile K, b.isLaunched = true → b.hasHit = false → b.damageApplied = false →
      b.isAnimating = false →
      (∀ e ∈ (flight m events b).1, e.1 = e.2) ∧
      ((flight m events b).1.map Prod.snd).count true ≤ 1 ∧
      ((∀ ev ∈ events, ∃ f, ev = FlightEvent.frame f) →
        (flight m events b).2.isLaunched = false →
        ((flight m events b).1.map Prod.snd).count true = 1) := by
  induction events with
  | nil =>
    intro b h1 _ _ _
    simp [flight, h1]
  | cons ev rest ih =>
    intro b h1 h2 h3 h4
    cases ev with
    | respawn pos =>
      refine ⟨by simp [flight], by simp [flight], ?_⟩
      intro hall
      obtain ⟨f, hf⟩ := hall _ (List.mem_cons_self _ _)
      exact absurd hf (by simp)
    | frame f =>
    have hallrest : (∀ ev ∈ FlightEvent.frame f :: rest, ∃ f, ev = FlightEvent.frame f) →
        ∀ ev ∈ rest, ∃ f, ev = FlightEvent.frame f :=
      fun hall ev hev => hall ev (List.mem_cons_of_mem _ hev)
    obtain ⟨u1, u2, u3⟩ := update_inFlight m b f.deltaTime f.terrain h1 h2 h3 h4
    by_cases hh : (b.update m f.deltaTime (some f.terrain)).hasHit = true
    · rw [hh] at u3
      have hc : collisionDetected m f.terrain f.deltaTime b = true := by
        simp [collisionDetected, h2, hh]
      have hd : damagesZombies m f.terrain f.deltaTime b = true := by
        simp [damagesZombies, hh, u2]
      have hrest := flight_animating m rest
        (flightFrame m f.terrain f.deltaTime ⟨b, f.zombies, f.catapult⟩).bomb
        (by simp [flightFrame, hh, u1, u2, u3])
        (by simp [flightFrame, hh, u1, u2, u3])
        (by simp [flightFrame, hh, u1, u2, u3])
      have hcount := count_damage_none _ hrest
      simp only [flight, h1, if_true, hc, hd, List.map_cons, List.count_cons_self, hcount]
      refine ⟨?_, by norm_num, fun _ _ => by norm_num⟩
      intro e he
      rcases List.mem_cons.mp he with he | he
      · rw [he]
      · rw [hrest e he]
    · have hh : (b.update m f.deltaTime (some f.terrain)).hasHit = false := by simpa using hh
      rw [hh] at u3
      have hc : collisionDetected m f.terrain f.deltaTime b = false := by
        simp [collisionDetected, h2, hh]
      have hd : damagesZombies m f.terrain f.deltaTime b = false := by
        simp [damagesZombies, hh]
      have hnext : (flightFrame m f.terrain f.deltaTime ⟨b, f.zombies, f.catapult⟩).bomb
          = b.update m f.deltaTime (some f.terrain) := by
        simp [flightFrame, hh, u1, u2, u3]
      obtain ⟨i1, i2, i3⟩ := ih (b.update m f.deltaTime (some f.terrain)) u1 hh u2 u3
      simp only [flight, h1, if_true, hc, hd, hnext, List.map_cons]
      refine ⟨?_, ?_, ?_⟩
      · intro e he
        rcases List.mem_cons.mp he with he | he
        · rw [he]
        · exact i1 e he
      · simpa using i2
      · intro hall hl
        simpa using i3 (hallrest hall) hl

theorem flightFrame_zombies (m : MathFns K) (terrain : Terrain K) (dt : K) (s : Scene K) :
    (flightFrame m terrain dt s).zombies =
      if damagesZombies m terrain dt s.bomb = true then
        s.zombies.map (applySplash m (s.bomb.update m dt (some terrain)))
      else s.zombies := by
  simp only [flightFrame, damagesZombies]
  split_ifs <;> simp_all

theorem applySplash_effect (m : MathFns K) (bomb : Projectile K) (z : Zombie K)
    (hb : 0 ≤ bomb.baseDamage) (hm : 0 ≤ bomb.outerDamageMultiplier)
    (hr : bomb.innerRadius ≤ bomb.outerRadius) :
    (z.isAlive = false → applySplash m bomb z = z) ∧
    (bomb.outerRadius < splashDistance m bomb z → applySplash m bomb z = z) ∧
    (z.isAlive = true → 0 ≤ z.health →
      (applySplash m bomb z).health
        = max (z.health - bomb.calculateDamage (splashDistance m bomb z)) 0) := by
  refine ⟨?_, ?_, ?_⟩
  · intro h
    simp [applySplash, h]
  · intro h
    simp [applySplash, calculateDamage_beyond bomb _ hr h]
  · intro ha hz
    have hd := calculateDamage_nonneg bomb (splashDistance m bomb z) hb hm
    simp only [applySplash, ha, if_true]
    by_cases hpos : 0 < bomb.calculateDamage (splashDistance m bomb z)
    · simp only [hpos, if_true, Zombie.takeDamage]
      by_cases hle : z.health - bomb.calculateDamage (splashDistance m bomb z) ≤ 0
      · simp [hle]
      · simp only [hle, if_false]
        rw [max_eq_left (not_le.mp hle).le]
    · have h0 : bomb.calculateDamage (splashDistance m bomb z) = 0 :=
        le_antisymm (not_lt.mp hpos) hd
      simp only [hpos, if_false]
      rw [h0, sub_zero, max_eq_left hz]

/-- C3, counterexample: the bomb main constructs is launched with velocity (0, 10, 0) over
flat terrain; one frame of 0.01 s follows (the bomb is at height 0.599019, no collision), then
the catapult dies and main respawns.  The flight is over (isLaunched is false, the next launch
can follow) and not one of its frames ran the damage block. -/
theorem C3_flight_cut_short_by_respawn :
    ((flight realMath
        [FlightEvent.frame ⟨flatTerrain, 1 / 100, [], Catapult.init⟩,
         FlightEvent.respawn ⟨0, 1 / 2, 0⟩]
        ((mainBomb : Projectile ℝ).launch ⟨0, 10, 0⟩)).1.map Prod.snd).count true = 0 ∧
    (flight realMath
        [FlightEvent.frame ⟨flatTerrain, 1 / 100, [], Catapult.init⟩,
         FlightEvent.respawn ⟨0, 1 / 2, 0⟩]
        ((mainBomb : Projectile ℝ).launch ⟨0, 10, 0⟩)).2.isLaunched = false := by
  have hu : ((mainBomb : Projectile ℝ).launch ⟨0, 10, 0⟩).update realMath (1 / 100)
      (some flatTerrain)
      = { (mainBomb : Projectile ℝ).launch ⟨0, 10, 0⟩ with
          velocity := ⟨0, 10 - 981 / 10000, 0⟩
          position := ⟨0, 1 / 2 + (10 - 981 / 10000) / 100, 0⟩ } := by
    simp only [Projectile.update, Projectile.launch, mainBomb, Projectile.init,
      Projectile.checkCollision, flatTerrain, Vec3.add, Vec3.smul]
    norm_num
  have hl0 : ((mainBomb : Projectile ℝ).launch ⟨0, 10, 0⟩).isLaunched = true := rfl
  have hh : (((mainBomb : Projectile ℝ).launch ⟨0, 10, 0⟩).update realMath (1 / 100)
      (some flatTerrain)).hasHit = false := by rw [hu]; rfl
  constructor
  · simp only [flight, hl0, if_true, damagesZombies, hh, Bool.false_and, List.map_cons,
      List.map_nil]
    decide
  · simp only [flight, hl0, if_true, respawnBombReset]

/-- C3, amended: splash damage is applied at most once per flight.  (1) A frame of a flight
changes the zombie list only through the damage block, which applies applySplash to every
zombie.  (2) With baseDamage ≥ 0, outerDamageMultiplier ≥ 0 and innerRadius ≤ outerRadius,
applySplash leaves a dead zombie and a zombie whose horizontal distance h from impactPosition
exceeds outerRadius unchanged, and sets the health of an alive zombie (health ≥ 0) to
max (health - calculateDamage h) 0.  (3) In the frames that follow a launch, the damage block
runs exactly in the frame in which the collision is detected and in at most one frame; it
runs in exactly one frame when the flight has ended without a respawn. -/
theorem C3_splash_damage_at_most_once_per_flight (m : MathFns K) :
    (∀ (terrain : Terrain K) (dt : K) (s : Scene K),
      (flightFrame m terrain dt s).zombies =
        if damagesZombies m terrain dt s.bomb = true then
          s.zombies.map (applySplash m (s.bomb.update m dt (some terrain)))
        else s.zombies) ∧
    (∀ (bomb : Projectile K) (z : Zombie K), 0 ≤ bomb.baseDamage →
      0 ≤ bomb.outerDamageMultiplier → bomb.innerRadius ≤ bomb.outerRadius →
      (z.isAlive = false → applySplash m bomb z = z) ∧
      (bomb.outerRadius < splashDistance m bomb z → applySplash m bomb z = z) ∧
      (z.isAlive = true → 0 ≤ z.health →
        (applySplash m bomb z).health
          = max (z.health - bomb.calculateDamage (splashDistance m bomb z)) 0)) ∧
    (∀ (p : Projectile K) (v : Vec3 K) (events : List (FlightEvent K)),
      (∀ e ∈ (flight m events (p.launch v)).1, e.1 = e.2) ∧
      ((flight m events (p.launch v)).1.map Prod.snd).count true ≤ 1 ∧
      ((∀ ev ∈ events, ∃ f, ev = FlightEvent.frame f) →
        (flight m events (p.launch v)).2.isLaunched = false →
        ((flight m events (p.launch v)).1.map Prod.snd).count true = 1)) :=
  ⟨fun terrain dt s => flightFrame_zombies m terrain dt s,
   fun bomb z hb hm hr => applySplash_effect m bomb z hb hm hr,
   fun p v events => flight_inFlight m events (p.launch v) rfl rfl rfl rfl⟩

/-- C3, amended, at the bomb main constructs.  A freshly constructed zombie at (3, 0, 4) gets
health max (health - calculateDamage h) 0; and the flight launched with velocity (0, 10, 0)
over flat terrain and run for two frames of 3 s (ground hit in the first, end of the impact
animation in the second) is over and has exactly one damage frame. -/
theorem C3_splash_damage_at_most_once_per_flight_witness :
    ((0 : ℝ) ≤ (mainBomb : Projectile ℝ).baseDamage ∧
      0 ≤ (mainBomb : Projectile ℝ).outerDamageMultiplier ∧
      (mainBomb : Projectile ℝ).innerRadius ≤ (mainBomb : Projectile ℝ).outerRadius ∧
      (Zombie.init (⟨3, 0, 4⟩ : Vec3 ℝ) (1 / 100) 1 ZombieBehavior.IDLE 8 false).isAlive = true ∧
      0 ≤ (Zombie.init (⟨3, 0, 4⟩ : Vec3 ℝ) (1 / 100) 1 ZombieBehavior.IDLE 8 false).health) ∧
    (applySplash realMath mainBomb
        (Zombie.init (⟨3, 0, 4⟩ : Vec3 ℝ) (1 / 100) 1 ZombieBehavior.IDLE 8 false)).health
      = max ((Zombie.init (⟨3, 0, 4⟩ : Vec3 ℝ) (1 / 100) 1 ZombieBehavior.IDLE 8 false).health
          - (mainBomb : Projectile ℝ).calculateDamage (splashDistance realMath mainBomb
              (Zombie.init (⟨3, 0, 4⟩ : Vec3 ℝ) (1 / 100) 1 ZombieBehavior.IDLE 8 false))) 0 ∧
    (flight realMath
        [FlightEvent.frame ⟨flatTerrain, 3, [], Catapult.init⟩,
         FlightEvent.frame ⟨flatTerrain, 3, [], Catapult.init⟩]
        ((mainBomb : Projectile ℝ).launch ⟨0, 10, 0⟩)).2.isLaunched = false ∧
    ((flight realMath
        [FlightEvent.frame ⟨flatTerrain, 3, [], Catapult.init⟩,
         FlightEvent.frame ⟨flatTerrain, 3, [], Catapult.init⟩]
        ((mainBomb : Projectile ℝ).launch ⟨0, 10, 0⟩)).1.map Prod.snd).count true = 1 := by
  have h1 : (0 : ℝ) ≤ (mainBomb : Projectile ℝ).baseDamage := by
    norm_num [mainBomb, Projectile.init]
  have h2 : (0 : ℝ) ≤ (mainBomb : Projectile ℝ).outerDamageMultiplier := by
    norm_num [mainBomb, Projectile.init]
  have h3 : (mainBomb : Projectile ℝ).innerRadius ≤ (mainBomb : Projectile ℝ).outerRadius := by
    norm_num [mainBomb, Projectile.init]
  have h4 : (Zombie.init (⟨3, 0, 4⟩ : Vec3 ℝ) (1 / 100) 1 ZombieBehavior.IDLE 8 false).isAlive
      = true := rfl
  have h5 : (0 : ℝ)
      ≤ (Zombie.init (⟨3, 0, 4⟩ : Vec3 ℝ) (1 / 100) 1 ZombieBehavior.IDLE 8 false).health := by
    norm_num [Zombie.init]
  -- first frame: ground hit
  obtain ⟨a1, a2, a3, a4, a5⟩ := update_ground_hit realMath
    ((mainBomb : Projectile ℝ).launch ⟨0, 10, 0⟩) 3 flatTerrain rfl rfl rfl
    (by norm_num [Projectile.launch, mainBomb, Projectile.init, flatTerrain, Vec3.add, Vec3.smul])
  have a5 : (((mainBomb : Projectile ℝ).launch ⟨0, 10, 0⟩).update realMath 3
      (some flatTerrain)).damageApplied = false := a5
  have hb1 : (flightFrame realMath flatTerrain 3
      ⟨(mainBomb : Projectile ℝ).launch ⟨0, 10, 0⟩, [], Catapult.init⟩).bomb
      = { ((mainBomb : Projectile ℝ).launch ⟨0, 10, 0⟩).update realMath 3 (some flatTerrain) with
          damageApplied := true } := by
    simp [flightFrame, a1, a2, a4, a5]
  -- second frame: the impact animation ends
  obtain ⟨c1, c2, -, -⟩ := update_animation_end realMath
    { ((mainBomb : Projectile ℝ).launch ⟨0, 10, 0⟩).update realMath 3 (some flatTerrain) with
      damageApplied := true } 3 flatTerrain a2 (by rw [a3]; norm_num)
  have hb2 : (flightFrame realMath flatTerrain 3
      ⟨{ ((mainBomb : Projectile ℝ).launch ⟨0, 10, 0⟩).update realMath 3 (some flatTerrain) with
          damageApplied := true }, [], Catapult.init⟩).bomb.isLaunched = false := by
    simp only [flightFrame]
    split_ifs <;> simp_all
  have hover : (flight realMath
      [FlightEvent.frame ⟨flatTerrain, 3, [], Catapult.init⟩,
       FlightEvent.frame ⟨flatTerrain, 3, [], Catapult.init⟩]
      ((mainBomb : Projectile ℝ).launch ⟨0, 10, 0⟩)).2.isLaunched = false := by
    have hl0 : ((mainBomb : Projectile ℝ).launch ⟨0, 10, 0⟩).isLaunched = true := rfl
    have hl1 : (flightFrame realMath flatTerrain 3
        ⟨(mainBomb : Projectile ℝ).launch ⟨0, 10, 0⟩, [], Catapult.init⟩).bomb.isLaunched
        = true := by rw [hb1]; exact a4
    simp only [flight, hl0, if_true, hl1]
    rw [hb1]
    exact hb2
  have hC3 := C3_splash_damage_at_most_once_per_flight realMath
  exact ⟨⟨h1, h2, h3, h4, h5⟩, ((hC3.2.1 _ _ h1 h2 h3).2.2 h4 h5), hover,
    (hC3.2.2 mainBomb ⟨0, 10, 0⟩ _).2.2 (by simp) hover⟩

end Splash

/-! ## Zombie health and alive flag -/

section ZombieHealth

variable {K : Type} [LinearOrderedField K]

/-- C11, counterexample: a freshly constructed zombie (health 100, alive) satisfies
alive ⇔ health > 0, but setAlive(false) leaves it dead with health 100; and once it is dead
(after takeDamage(100): health 0, not alive) both setHealth(50) and takeDamage(-10) give it
positive health without making it alive. -/
theorem C11_alive_invariant_broken :
    (Zombie.init (⟨0, 0, 0⟩ : Vec3 ℚ) (1 / 100) 1 ZombieBehavior.IDLE 8 false).aliveInvariant ∧
    ¬ ((Zombie.init (⟨0, 0, 0⟩ : Vec3 ℚ) (1 / 100) 1 ZombieBehavior.IDLE 8 false).setAlive
        false).aliveInvariant ∧
    ((Zombie.init (⟨0, 0, 0⟩ : Vec3 ℚ) (1 / 100) 1 ZombieBehavior.IDLE 8 false).takeDamage
        100).aliveInvariant ∧
    ¬ (((Zombie.init (⟨0, 0, 0⟩ : Vec3 ℚ) (1 / 100) 1 ZombieBehavior.IDLE 8 false).takeDamage
        100).setHealth 50).aliveInvariant ∧
    ¬ (((Zombie.init (⟨0, 0, 0⟩ : Vec3 ℚ) (1 / 100) 1 ZombieBehavior.IDLE 8 false).takeDamage
        100).takeDamage (-10)).aliveInvariant := by
  refine ⟨?_, ?_, ?_, ?_, ?_⟩ <;>
    norm_num [Zombie.aliveInvariant, Zombie.isAlive, Zombie.getHealth, Zombie.setAlive,
      Zombie.setHealth, Zombie.takeDamage, Zombie.init]

theorem zombie_takeDamage_alive (z : Zombie K)
    (ha : z.isAlive = true) (d : K) : (z.takeDamage d).aliveInvariant := by
  simp only [Zombie.aliveInvariant, Zombie.isAlive, Zombie.getHealth] at ha ⊢
  simp only [Zombie.takeDamage]
  by_cases h : z.health - d ≤ 0
  · simp [h]
  · simp only [h, if_false]
    exact ⟨fun _ => not_le.mp h, fun _ => ha⟩

theorem zombie_setHealth_alive (z : Zombie K) (ha : z.isAlive = true) (h : K) :
    (z.setHealth h).aliveInvariant := by
  simp only [Zombie.aliveInvariant, Zombie.isAlive, Zombie.getHealth] at ha ⊢
  simp only [Zombie.setHealth]
  by_cases hh : h ≤ 0
  · simp [hh]
  · simp only [hh, if_false]
    exact ⟨fun _ => not_le.mp hh, fun _ => ha⟩

/-- C11, amended: a constructed zombie satisfies alive ⇔ health > 0, and from a state that
satisfies it the invariant is kept by setMaxHealth(m) for every m, by takeDamage(d) and
setHealth(h) for every d and h while the zombie is alive, by takeDamage(d) for d ≥ 0 and
setHealth(h) for h ≤ 0 also when it is dead, and by setAlive(b) exactly when b is the current
alive flag. -/
theorem C11_alive_invariant_preserved (z : Zombie K) (hinv : z.aliveInvariant) :
    (∀ (position : Vec3 K) (scale speed : K) (behavior : ZombieBehavior) (radius : K)
      (boss : Bool), (Zombie.init position scale speed behavior radius boss).aliveInvariant) ∧
    (∀ m : K, (z.setMaxHealth m).aliveInvariant) ∧
    (z.isAlive = true → ∀ d : K, (z.takeDamage d).aliveInvariant) ∧
    (z.isAlive = true → ∀ h : K, (z.setHealth h).aliveInvariant) ∧
    (∀ d : K, 0 ≤ d → (z.takeDamage d).aliveInvariant) ∧
    (∀ h : K, h ≤ 0 → (z.setHealth h).aliveInvariant) ∧
    (∀ b : Bool, (z.setAlive b).aliveInvariant ↔ b = z.isAlive) := by
  refine ⟨?_, ?_, ?_, ?_, ?_, ?_, ?_⟩
  · intro position scale speed behavior radius boss
    simp [Zombie.aliveInvariant, Zombie.isAlive, Zombie.getHealth, Zombie.init]
  · intro m
    simpa [Zombie.aliveInvariant, Zombie.isAlive, Zombie.getHealth, Zombie.setMaxHealth]
      using hinv
  · intro ha d
    exact zombie_takeDamage_alive z ha d
  · intro ha h
    exact zombie_setHealth_alive z ha h
  · intro d hd
    by_cases ha : z.isAlive = true
    · exact zombie_takeDamage_alive z ha d
    · simp only [Zombie.aliveInvariant, Zombie.isAlive, Zombie.getHealth] at hinv ha ⊢
      have hz : z.health ≤ 0 := not_lt.mp (fun h => ha (hinv.mpr h))
      have hle : z.health - d ≤ 0 := by linarith
      simp [Zombie.takeDamage, hle]
  · intro h hh
    simp [Zombie.aliveInvariant, Zombie.isAlive, Zombie.getHealth, Zombie.setHealth, hh]
  · intro b
    simp only [Zombie.aliveInvariant, Zombie.isAlive, Zombie.getHealth, Zombie.setAlive]
      at hinv ⊢
    constructor
    · intro hb
      cases b with
      | true =>
        have := hb.mp rfl
        exact (hinv.mpr this).symm
      | false =>
        cases hz : z.alive with
        | false => rfl
        | true =>
          have := hinv.mp hz
          exact absurd (hb.mpr this) (by simp)
    · intro hb
      rw [hb]
      exact hinv

/-- C11, amended, at a freshly constructed zombie taking 40 damage. -/
theorem C11_alive_invariant_preserved_witness :
    (Zombie.init (⟨0, 0, 0⟩ : Vec3 ℚ) (1 / 100) 1 ZombieBehavior.IDLE 8 false).aliveInvariant ∧
    ((Zombie.init (⟨0, 0, 0⟩ : Vec3 ℚ) (1 / 100) 1 ZombieBehavior.IDLE 8 false).takeDamage
      40).aliveInvariant := by
  have h : (Zombie.init (⟨0, 0, 0⟩ : Vec3 ℚ) (1 / 100) 1 ZombieBehavior.IDLE 8
      false).aliveInvariant := by
    norm_num [Zombie.aliveInvariant, Zombie.isAlive, Zombie.getHealth, Zombie.init]
  exact ⟨h, (C11_alive_invariant_preserved _ h).2.2.1 rfl 40⟩

end ZombieHealth

/-! ## Zombie behaviour state machine -/

section ZombieBehaviour

variable {K : Type} [LinearOrderedField K]

/-- C18: setAnimationState(next) called in a state different from next leaves the zombie in
state next with animation clock 0; called with the current state it changes nothing. -/
theorem C18_setAnimationState (z : Zombie K) :
    (∀ next : ZombieAnimationState, z.currentAnimState ≠ next →
      (z.setAnimationState next).currentAnimState = next ∧
      (z.setAnimationState next).animationTime = 0) ∧
    z.setAnimationState z.currentAnimState = z := by
  constructor
  · intro next h
    simp [Zombie.setAnimationState, h]
  · simp [Zombie.setAnimationState]

/-- C18 at a patrol zombie (constructed in state WALKING) switched to ATTACKING. -/
theorem C18_setAnimationState_witness :
    (Zombie.init (⟨0, 0, 0⟩ : Vec3 ℚ) (1 / 100) 1 ZombieBehavior.PATROL 10
        false).currentAnimState ≠ ZombieAnimationState.ATTACKING ∧
    ((Zombie.init (⟨0, 0, 0⟩ : Vec3 ℚ) (1 / 100) 1 ZombieBehavior.PATROL 10
        false).setAnimationState ZombieAnimationState.ATTACKING).animationTime = 0 :=
  ⟨by simp [Zombie.init],
   ((C18_setAnimationState (Zombie.init (⟨0, 0, 0⟩ : Vec3 ℚ) (1 / 100) 1 ZombieBehavior.PATROL 10
      false)).1 ZombieAnimationState.ATTACKING (by simp [Zombie.init])).2⟩

theorem attackBranch_effect (m : MathFns K) (atan2f : K → K → K) (z : Zombie K)
    (target : Vec3 K) (terrainHeight : K) :
    (Zombie.attackBranch m atan2f z target terrainHeight).currentAnimState
      = ZombieAnimationState.ATTACKING ∧
    (Zombie.attackBranch m atan2f z target terrainHeight).isMoving = false ∧
    (Zombie.attackBranch m atan2f z target terrainHeight).position
      = ⟨z.position.x, terrainHeight, z.position.z⟩ := by
  simp only [Zombie.attackBranch, Zombie.setAnimationState]
  split_ifs <;> simp_all

/-- C15: for an alive zombie of either behaviour, in any prior animation state, an update
with distance ≤ attackRange leaves isAttacking() true, the moving flag false, and the x and z
coordinates unchanged. -/
theorem C15_attack_freezes_movement (m : MathFns K) (atan2f : K → K → K) (z : Zombie K)
    (deltaTime : K) (target : Vec3 K) (terrainHeight distance : K)
    (halive : z.isAlive = true) (hrange : distance ≤ z.attackRange) :
    (z.update m atan2f deltaTime target terrainHeight distance).isAttacking = true ∧
    (z.update m atan2f deltaTime target terrainHeight distance).isMoving = false ∧
    (z.update m atan2f deltaTime target terrainHeight distance).position.x = z.position.x ∧
    (z.update m atan2f deltaTime target terrainHeight distance).position.z = z.position.z := by
  simp only [Zombie.isAlive] at halive
  obtain ⟨h1, h2, h3⟩ := attackBranch_effect m atan2f z target terrainHeight
  have hu : z.update m atan2f deltaTime target terrainHeight distance
      = Zombie.attackBranch m atan2f z target terrainHeight := by
    simp only [Zombie.update, halive]
    cases z.behavior <;> simp [Zombie.updateIdle, Zombie.updatePatrol, hrange]
  rw [hu, Zombie.isAttacking, h1, h2, h3]
  simp

/-- C15 at a running boss zombie at distance 1 with attackRange 2. -/
theorem C15_attack_freezes_movement_witness :
    (({ Zombie.init (⟨3, 0, 4⟩ : Vec3 ℝ) (1 / 50) 1 ZombieBehavior.IDLE 16 true with
        currentAnimState := ZombieAnimationState.RUNNING, isMoving := true } :
        Zombie ℝ).isAlive = true ∧
      (1 : ℝ) ≤ ({ Zombie.init (⟨3, 0, 4⟩ : Vec3 ℝ) (1 / 50) 1 ZombieBehavior.IDLE 16 true with
        currentAnimState := ZombieAnimationState.RUNNING, isMoving := true } :
        Zombie ℝ).attackRange) ∧
    (({ Zombie.init (⟨3, 0, 4⟩ : Vec3 ℝ) (1 / 50) 1 ZombieBehavior.IDLE 16 true with
        currentAnimState := ZombieAnimationState.RUNNING, isMoving := true } :
        Zombie ℝ).update realMath realAtan2 (1 / 60) ⟨3, 0, 5⟩ 0 1).isMoving = false := by
  have h1 : ({ Zombie.init (⟨3, 0, 4⟩ : Vec3 ℝ) (1 / 50) 1 ZombieBehavior.IDLE 16 true with
      currentAnimState := ZombieAnimationState.RUNNING, isMoving := true } :
      Zombie ℝ).isAlive = true := rfl
  have h2 : (1 : ℝ) ≤ ({ Zombie.init (⟨3, 0, 4⟩ : Vec3 ℝ) (1 / 50) 1 ZombieBehavior.IDLE 16
      true with currentAnimState := ZombieAnimationState.RUNNING, isMoving := true } :
      Zombie ℝ).attackRange := by norm_num [Zombie.init]
  exact ⟨⟨h1, h2⟩, (C15_attack_freezes_movement _ _ _ _ _ _ _ h1 h2).2.1⟩

/-! ### Chase, idle and patrol (over the reals) -/

theorem horizontal_length (a b : Vec3 ℝ) :
    Vec3.length realMath ({ b.sub a with y := 0 } : Vec3 ℝ) = horizontalDistance a b := by
  simp only [Vec3.length, Vec3.dot, Vec3.sub, realMath, horizontalDistance]
  congr 1
  ring

theorem horizontal_normalize (a b : Vec3 ℝ) :
    glmNormalize realMath ({ b.sub a with y := 0 } : Vec3 ℝ)
      = ⟨(b.x - a.x) / horizontalDistance a b, 0, (b.z - a.z) / horizontalDistance a b⟩ := by
  have h := horizontal_length a b
  simp only [Vec3.length, Vec3.sub] at h
  simp only [glmNormalize, Vec3.smul, Vec3.sub, h]
  simp [div_eq_mul_inv]

theorem horizontal_unit (a b : Vec3 ℝ) (h : 0 < horizontalDistance a b) :
    ((b.x - a.x) / horizontalDistance a b) ^ 2 + ((b.z - a.z) / horizontalDistance a b) ^ 2
      = 1 := by
  have hsq : horizontalDistance a b ^ 2 = (b.x - a.x) ^ 2 + (b.z - a.z) ^ 2 := by
    simp only [horizontalDistance]
    exact Real.sq_sqrt (by positivity)
  rw [div_pow, div_pow, ← add_div, ← hsq]
  exact div_self (pow_ne_zero 2 h.ne')

/-- What moveTowardsTarget does to the position, over the reals: a step of
effectiveSpeed * deltaTime along the unit horizontal direction when the target is more than
0.1 away horizontally, no change otherwise. -/
theorem moveTowardsTarget_position (atan2f : ℝ → ℝ → ℝ) (z : Zombie ℝ) (deltaTime : ℝ)
    (target : Vec3 ℝ) (terrainHeight : ℝ) :
    (1 / 10 < horizontalDistance z.position target →
      (Zombie.moveTowardsTarget realMath atan2f z deltaTime target terrainHeight).position
        = ⟨z.position.x + (target.x - z.position.x) / horizontalDistance z.position target
              * (if z.currentAnimState = ZombieAnimationState.RUNNING
                  then z.speed * z.runSpeedMultiplier else z.speed) * deltaTime,
           terrainHeight,
           z.position.z + (target.z - z.position.z) / horizontalDistance z.position target
              * (if z.currentAnimState = ZombieAnimationState.RUNNING
                  then z.speed * z.runSpeedMultiplier else z.speed) * deltaTime⟩) ∧
    (horizontalDistance z.position target ≤ 1 / 10 →
      (Zombie.moveTowardsTarget realMath atan2f z deltaTime target terrainHeight).position
        = z.position) ∧
    (Zombie.moveTowardsTarget realMath atan2f z deltaTime target terrainHeight).currentAnimState
      = z.currentAnimState := by
  refine ⟨?_, ?_, ?_⟩
  · intro h
    simp only [Zombie.moveTowardsTarget, horizontal_length, horizontal_normalize, h, if_true]
  · intro h
    simp only [Zombie.moveTowardsTarget, horizontal_length, not_lt.mpr h, if_false]
  · simp only [Zombie.moveTowardsTarget]
    split_ifs <;> rfl

theorem setAnimationState_keeps {K : Type} [LinearOrderedField K] (z : Zombie K)
    (state : ZombieAnimationState) :
    (z.setAnimationState state).currentAnimState = state ∧
    (z.setAnimationState state).position = z.position ∧
    (z.setAnimationState state).speed = z.speed ∧
    (z.setAnimationState state).runSpeedMultiplier = z.runSpeedMultiplier ∧
    (z.setAnimationState state).currentPatrolTarget = z.currentPatrolTarget ∧
    (z.setAnimationState state).patrolTowardsB = z.patrolTowardsB ∧
    (z.setAnimationState state).patrolPointA = z.patrolPointA ∧
    (z.setAnimationState state).patrolPointB = z.patrolPointB := by
  simp only [Zombie.setAnimationState]
  split_ifs <;> simp_all

theorem update_alive {K : Type} [LinearOrderedField K] (m : MathFns K) (atan2f : K → K → K)
    (z : Zombie K) (deltaTime : K) (target : Vec3 K) (terrainHeight distance : K)
    (halive : z.alive = true) :
    (z.behavior = ZombieBehavior.IDLE ∧
      z.update m atan2f deltaTime target terrainHeight distance
        = Zombie.updateIdle m atan2f z deltaTime target terrainHeight distance) ∨
    (z.behavior = ZombieBehavior.PATROL ∧
      z.update m atan2f deltaTime target terrainHeight distance
        = Zombie.updatePatrol m atan2f z deltaTime target terrainHeight distance) := by
  unfold Zombie.update
  rw [if_neg (by simp [halive])]
  cases hb : z.behavior
  · exact Or.inl ⟨rfl, rfl⟩
  · exact Or.inr ⟨rfl, rfl⟩

/-- C16: for an alive zombie of either behaviour and an update with
attackRange < distance ≤ detectionRadius, the animation state afterwards is RUNNING, and if
the horizontal distance to the target exceeds 0.1 the horizontal displacement is
speed * runSpeedMultiplier * dt times the unit vector ((tx - x) / h, (tz - z) / h), h the
horizontal distance from the old position to the target. -/
theorem C16_chase_step (atan2f : ℝ → ℝ → ℝ) (z : Zombie ℝ) (deltaTime : ℝ) (target : Vec3 ℝ)
    (terrainHeight distance : ℝ) (halive : z.isAlive = true)
    (h1 : z.attackRange < distance) (h2 : distance ≤ z.detectionRadius) :
    (z.update realMath atan2f deltaTime target terrainHeight distance).currentAnimState
      = ZombieAnimationState.RUNNING ∧
    (1 / 10 < horizontalDistance z.position target →
      (z.update realMath atan2f deltaTime target terrainHeight distance).position.x
          - z.position.x
        = z.speed * z.runSpeedMultiplier * deltaTime
            * ((target.x - z.position.x) / horizontalDistance z.position target) ∧
      (z.update realMath atan2f deltaTime target terrainHeight distance).position.z
          - z.position.z
        = z.speed * z.runSpeedMultiplier * deltaTime
            * ((target.z - z.position.z) / horizontalDistance z.position target) ∧
      ((target.x - z.position.x) / horizontalDistance z.position target) ^ 2
        + ((target.z - z.position.z) / horizontalDistance z.position target) ^ 2 = 1) := by
  simp only [Zombie.isAlive] at halive
  have hu : z.update realMath atan2f deltaTime target terrainHeight distance
      = Zombie.moveTowardsTarget realMath atan2f
          (({ z with isChasing := true } : Zombie ℝ).setAnimationState
            ZombieAnimationState.RUNNING) deltaTime target terrainHeight := by
    rcases update_alive realMath atan2f z deltaTime target terrainHeight distance halive
      with ⟨-, hu⟩ | ⟨-, hu⟩ <;> rw [hu] <;>
      simp only [Zombie.updateIdle, Zombie.updatePatrol, if_neg (not_le.mpr h1), if_pos h2]
  obtain ⟨k1, k2, k3, k4, -⟩ :=
    setAnimationState_keeps ({ z with isChasing := true } : Zombie ℝ)
      ZombieAnimationState.RUNNING
  obtain ⟨m1, -, m3⟩ := moveTowardsTarget_position atan2f
    (({ z with isChasing := true } : Zombie ℝ).setAnimationState ZombieAnimationState.RUNNING)
    deltaTime target terrainHeight
  rw [hu]
  refine ⟨by rw [m3, k1], ?_⟩
  intro hd
  rw [k2] at m1
  rw [m1 hd, k1, k3, k4]
  simp only [if_true]
  refine ⟨by ring, by ring, horizontal_unit _ _ (lt_trans (by norm_num) hd)⟩

/-- C16 at a freshly constructed zombie at the origin chasing a target at (3, 0, 4), 5 away. -/
theorem C16_chase_step_witness :
    ((Zombie.init (⟨0, 0, 0⟩ : Vec3 ℝ) (1 / 100) 1 ZombieBehavior.IDLE 8 false).isAlive = true ∧
      (Zombie.init (⟨0, 0, 0⟩ : Vec3 ℝ) (1 / 100) 1 ZombieBehavior.IDLE 8 false).attackRange
        < 5 ∧
      (5 : ℝ) ≤ (Zombie.init (⟨0, 0, 0⟩ : Vec3 ℝ) (1 / 100) 1 ZombieBehavior.IDLE 8
        false).detectionRadius) ∧
    ((Zombie.init (⟨0, 0, 0⟩ : Vec3 ℝ) (1 / 100) 1 ZombieBehavior.IDLE 8 false).update realMath
        realAtan2 (1 / 60) ⟨3, 0, 4⟩ 0 5).currentAnimState = ZombieAnimationState.RUNNING := by
  have h0 : (Zombie.init (⟨0, 0, 0⟩ : Vec3 ℝ) (1 / 100) 1 ZombieBehavior.IDLE 8
      false).isAlive = true := rfl
  have h1 : (Zombie.init (⟨0, 0, 0⟩ : Vec3 ℝ) (1 / 100) 1 ZombieBehavior.IDLE 8
      false).attackRange < 5 := by norm_num [Zombie.init]
  have h2 : (5 : ℝ) ≤ (Zombie.init (⟨0, 0, 0⟩ : Vec3 ℝ) (1 / 100) 1 ZombieBehavior.IDLE 8
      false).detectionRadius := by norm_num [Zombie.init]
  exact ⟨⟨h0, h1, h2⟩, (C16_chase_step realAtan2 _ (1 / 60) ⟨3, 0, 4⟩ 0 5 h0 h1 h2).1⟩

/-- C17: for an alive zombie and an update with distance beyond both attackRange and
detectionRadius: with IDLE behaviour the state afterwards is IDLE and x, z are unchanged; with
PATROL behaviour the state afterwards is WALKING, the patrol target was first switched to the
other endpoint exactly when its horizontal distance h0 from the zombie was below 0.5, and the
zombie then moved by speed * dt along the unit horizontal direction to the resulting target
when that target is more than 0.1 away horizontally (and did not move in x, z otherwise). -/
theorem C17_idle_and_patrol (atan2f : ℝ → ℝ → ℝ) (z : Zombie ℝ) (deltaTime : ℝ)
    (target : Vec3 ℝ) (terrainHeight distance : ℝ) (halive : z.isAlive = true)
    (h1 : z.attackRange < distance) (h2 : z.detectionRadius < distance) :
    (z.behavior = ZombieBehavior.IDLE →
      (z.update realMath atan2f deltaTime target terrainHeight distance).currentAnimState
        = ZombieAnimationState.IDLE ∧
      (z.update realMath atan2f deltaTime target terrainHeight distance).position.x
        = z.position.x ∧
      (z.update realMath atan2f deltaTime target terrainHeight distance).position.z
        = z.position.z) ∧
    (z.behavior = ZombieBehavior.PATROL →
      (z.update realMath atan2f deltaTime target terrainHeight distance).currentAnimState
        = ZombieAnimationState.WALKING ∧
      (z.update realMath atan2f deltaTime target terrainHeight distance).currentPatrolTarget
        = (if horizontalDistance z.position z.currentPatrolTarget < 1 / 2 then
            (if z.patrolTowardsB = true then z.patrolPointA else z.patrolPointB)
          else z.currentPatrolTarget) ∧
      (z.update realMath atan2f deltaTime target terrainHeight distance).patrolTowardsB
        = (if horizontalDistance z.position z.currentPatrolTarget < 1 / 2 then
            !z.patrolTowardsB else z.patrolTowardsB) ∧
      (1 / 10 < horizontalDistance z.position
          (z.update realMath atan2f deltaTime target terrainHeight distance).currentPatrolTarget →
        (z.update realMath atan2f deltaTime target terrainHeight distance).position.x
            - z.position.x
          = z.speed * deltaTime
            * (((z.update realMath atan2f deltaTime target terrainHeight
                  distance).currentPatrolTarget.x - z.position.x)
              / horizontalDistance z.position
                (z.update realMath atan2f deltaTime target terrainHeight
                  distance).currentPatrolTarget) ∧
        (z.update realMath atan2f deltaTime target terrainHeight distance).position.z
            - z.position.z
          = z.speed * deltaTime
            * (((z.update realMath atan2f deltaTime target terrainHeight
                  distance).currentPatrolTarget.z - z.position.z)
              / horizontalDistance z.position
                (z.update realMath atan2f deltaTime target terrainHeight
                  distance).currentPatrolTarget)) ∧
      (horizontalDistance z.position
          (z.update realMath atan2f deltaTime target terrainHeight distance).currentPatrolTarget
          ≤ 1 / 10 →
        (z.update realMath atan2f deltaTime target terrainHeight distance).position
          = z.position)) := by
  simp only [Zombie.isAlive] at halive
  constructor
  · intro hb
    rcases update_alive realMath atan2f z deltaTime target terrainHeight distance halive
      with ⟨-, hu⟩ | ⟨hb2, -⟩
    · rw [hu]
      obtain ⟨k1, k2, -⟩ := setAnimationState_keeps
        ({ z with isChasing := false, isMoving := false } : Zombie ℝ) ZombieAnimationState.IDLE
      simp only [Zombie.updateIdle, if_neg (not_le.mpr h1), if_neg (not_le.mpr h2), k1, k2]
      exact ⟨trivial, trivial, trivial⟩
    · rw [hb] at hb2
      exact absurd hb2 (by simp)
  · intro hb
    rcases update_alive realMath atan2f z deltaTime target terrainHeight distance halive
      with ⟨hb2, -⟩ | ⟨-, hu⟩
    · rw [hb] at hb2
      exact absurd hb2 (by simp)
    · obtain ⟨k1, k2, k3, -, k5, k6, k7, k8⟩ := setAnimationState_keeps
        ({ z with isChasing := false } : Zombie ℝ) ZombieAnimationState.WALKING
      have k2 : (({ z with isChasing := false } : Zombie ℝ).setAnimationState
          ZombieAnimationState.WALKING).position = z.position := k2
      have k3 : (({ z with isChasing := false } : Zombie ℝ).setAnimationState
          ZombieAnimationState.WALKING).speed = z.speed := k3
      have k5 : (({ z with isChasing := false } : Zombie ℝ).setAnimationState
          ZombieAnimationState.WALKING).currentPatrolTarget = z.currentPatrolTarget := k5
      have k6 : (({ z with isChasing := false } : Zombie ℝ).setAnimationState
          ZombieAnimationState.WALKING).patrolTowardsB = z.patrolTowardsB := k6
      have k7 : (({ z with isChasing := false } : Zombie ℝ).setAnimationState
          ZombieAnimationState.WALKING).patrolPointA = z.patrolPointA := k7
      have k8 : (({ z with isChasing := false } : Zombie ℝ).setAnimationState
          ZombieAnimationState.WALKING).patrolPointB = z.patrolPointB := k8
      generalize hz2 : ({ z with isChasing := false } : Zombie ℝ).setAnimationState
          ZombieAnimationState.WALKING = z2 at k1 k2 k3 k5 k6 k7 k8
      have hu2 : z.update realMath atan2f deltaTime target terrainHeight distance
          = Zombie.moveTowardsTarget realMath atan2f
              (if horizontalDistance z.position z.currentPatrolTarget < 1 / 2 then
                if z.patrolTowardsB = true then
                  { z2 with currentPatrolTarget := z.patrolPointA, patrolTowardsB := false }
                else { z2 with currentPatrolTarget := z.patrolPointB, patrolTowardsB := true }
              else z2) deltaTime
              (if horizontalDistance z.position z.currentPatrolTarget < 1 / 2 then
                (if z.patrolTowardsB = true then z.patrolPointA else z.patrolPointB)
              else z.currentPatrolTarget) terrainHeight := by
        rw [hu]
        simp only [Zombie.updatePatrol, if_neg (not_le.mpr h1), if_neg (not_le.mpr h2), hz2]
        rw [← k2, ← k5, ← k6, ← k7, ← k8, horizontal_length]
        split_ifs <;> rfl
      generalize hz3 : (if horizontalDistance z.position z.currentPatrolTarget < 1 / 2 then
          if z.patrolTowardsB = true then
            { z2 with currentPatrolTarget := z.patrolPointA, patrolTowardsB := false }
          else { z2 with currentPatrolTarget := z.patrolPointB, patrolTowardsB := true }
          else z2) = z3 at hu2
      have p1 : z3.position = z.position := by
        rw [← hz3]; split_ifs <;> simp [k2]
      have p2 : z3.speed = z.speed := by
        rw [← hz3]; split_ifs <;> simp [k3]
      have p3 : z3.currentAnimState = ZombieAnimationState.WALKING := by
        rw [← hz3]; split_ifs <;> simp [k1]
      have p4 : z3.currentPatrolTarget
          = (if horizontalDistance z.position z.currentPatrolTarget < 1 / 2 then
              (if z.patrolTowardsB = true then z.patrolPointA else z.patrolPointB)
            else z.currentPatrolTarget) := by
        rw [← hz3]; split_ifs <;> simp [k5]
      have p5 : z3.patrolTowardsB
          = (if horizontalDistance z.position z.currentPatrolTarget < 1 / 2 then
              !z.patrolTowardsB else z.patrolTowardsB) := by
        rw [← hz3]; split_ifs <;> simp_all
      generalize (if horizontalDistance z.position z.currentPatrolTarget < 1 / 2 then
          (if z.patrolTowardsB = true then z.patrolPointA else z.patrolPointB)
          else z.currentPatrolTarget) = T at hu2 p4 ⊢
      obtain ⟨m1, m2, m3⟩ := moveTowardsTarget_position atan2f z3 deltaTime T terrainHeight
      have q1 : (Zombie.moveTowardsTarget realMath atan2f z3 deltaTime T
          terrainHeight).currentPatrolTarget = T := by
        rw [← p4]
        simp only [Zombie.moveTowardsTarget]
        split_ifs <;> rfl
      have q2 : (Zombie.moveTowardsTarget realMath atan2f z3 deltaTime T
          terrainHeight).patrolTowardsB = z3.patrolTowardsB := by
        simp only [Zombie.moveTowardsTarget]
        split_ifs <;> rfl
      rw [hu2, q1, q2, m3, p3, p5]
      rw [p1] at m1 m2
      refine ⟨rfl, rfl, rfl, ?_, ?_⟩
      · intro hd
        rw [m1 hd, p3, p2]
        simp only [reduceCtorEq, if_false]
        constructor <;> ring
      · intro hd
        rw [m2 hd]

/-- C17 at a freshly constructed patrol zombie with the catapult 50 away. -/
theorem C17_idle_and_patrol_witness :
    ((Zombie.init (⟨0, 0, 0⟩ : Vec3 ℝ) (1 / 100) (4 / 5) ZombieBehavior.PATROL 10
        false).isAlive = true ∧
      (Zombie.init (⟨0, 0, 0⟩ : Vec3 ℝ) (1 / 100) (4 / 5) ZombieBehavior.PATROL 10
        false).attackRange < 50 ∧
      (Zombie.init (⟨0, 0, 0⟩ : Vec3 ℝ) (1 / 100) (4 / 5) ZombieBehavior.PATROL 10
        false).detectionRadius < 50 ∧
      (Zombie.init (⟨0, 0, 0⟩ : Vec3 ℝ) (1 / 100) (4 / 5) ZombieBehavior.PATROL 10
        false).behavior = ZombieBehavior.PATROL) ∧
    ((Zombie.init (⟨0, 0, 0⟩ : Vec3 ℝ) (1 / 100) (4 / 5) ZombieBehavior.PATROL 10
        false).update realMath realAtan2 (1 / 60) ⟨30, 0, 40⟩ 0 50).currentAnimState
      = ZombieAnimationState.WALKING := by
  have h0 : (Zombie.init (⟨0, 0, 0⟩ : Vec3 ℝ) (1 / 100) (4 / 5) ZombieBehavior.PATROL 10
      false).isAlive = true := rfl
  have h1 : (Zombie.init (⟨0, 0, 0⟩ : Vec3 ℝ) (1 / 100) (4 / 5) ZombieBehavior.PATROL 10
      false).attackRange < 50 := by norm_num [Zombie.init]
  have h2 : (Zombie.init (⟨0, 0, 0⟩ : Vec3 ℝ) (1 / 100) (4 / 5) ZombieBehavior.PATROL 10
      false).detectionRadius < 50 := by norm_num [Zombie.init]
  have h3 : (Zombie.init (⟨0, 0, 0⟩ : Vec3 ℝ) (1 / 100) (4 / 5) ZombieBehavior.PATROL 10
      false).behavior = ZombieBehavior.PATROL := rfl
  exact ⟨⟨h0, h1, h2, h3⟩,
    ((C17_idle_and_patrol realAtan2 _ (1 / 60) ⟨30, 0, 40⟩ 0 50 h0 h1 h2).2 h3).1⟩

/-- A chase tick of a zombie that is within 0.1 of the target horizontally leaves the whole
position, the y coordinate included, as it was. -/
theorem chase_near_target_keeps_position (atan2f : ℝ → ℝ → ℝ) (z : Zombie ℝ) (deltaTime : ℝ)
    (target : Vec3 ℝ) (terrainHeight distance : ℝ) (halive : z.isAlive = true)
    (h1 : z.attackRange < distance) (h2 : distance ≤ z.detectionRadius)
    (hnear : horizontalDistance z.position target ≤ 1 / 10) :
    (z.update realMath atan2f deltaTime target terrainHeight distance).position = z.position ∧
    (z.update realMath atan2f deltaTime target terrainHeight distance).currentAnimState
      = ZombieAnimationState.RUNNING := by
  simp only [Zombie.isAlive] at halive
  have hu : z.update realMath atan2f deltaTime target terrainHeight distance
      = Zombie.moveTowardsTarget realMath atan2f
          (({ z with isChasing := true } : Zombie ℝ).setAnimationState
            ZombieAnimationState.RUNNING) deltaTime target terrainHeight := by
    rcases update_alive realMath atan2f z deltaTime target terrainHeight distance halive
      with ⟨-, hu⟩ | ⟨-, hu⟩ <;> rw [hu] <;>
      simp only [Zombie.updateIdle, Zombie.updatePatrol, if_neg (not_le.mpr h1), if_pos h2]
  obtain ⟨k1, k2, -⟩ :=
    setAnimationState_keeps ({ z with isChasing := true } : Zombie ℝ)
      ZombieAnimationState.RUNNING
  obtain ⟨-, m2, m3⟩ := moveTowardsTarget_position atan2f
    (({ z with isChasing := true } : Zombie ℝ).setAnimationState ZombieAnimationState.RUNNING)
    deltaTime target terrainHeight
  have k2 : (({ z with isChasing := true } : Zombie ℝ).setAnimationState
      ZombieAnimationState.RUNNING).position = z.position := k2
  rw [hu, m3, k1]
  rw [k2] at m2
  exact ⟨m2 hnear, rfl⟩

/-- C19, where it fails: an alive IDLE zombie at (0, 0, 0) (detectionRadius 8,
attackRange 2) is updated with the target at (0, 3, 0), distance 3 and terrainHeight 1.  The
tick is a chase tick (state RUNNING), the target is 0 away horizontally, and the y coordinate
stays 0 instead of becoming the terrainHeight argument 1. -/
theorem C19_y_not_clamped_near_target :
    ((Zombie.init (⟨0, 0, 0⟩ : Vec3 ℝ) (1 / 100) 1 ZombieBehavior.IDLE 8 false).update realMath
        realAtan2 (1 / 60) ⟨0, 3, 0⟩ 1 3).currentAnimState = ZombieAnimationState.RUNNING ∧
    ((Zombie.init (⟨0, 0, 0⟩ : Vec3 ℝ) (1 / 100) 1 ZombieBehavior.IDLE 8 false).update realMath
        realAtan2 (1 / 60) ⟨0, 3, 0⟩ 1 3).position.y = 0 ∧
    ((Zombie.init (⟨0, 0, 0⟩ : Vec3 ℝ) (1 / 100) 1 ZombieBehavior.IDLE 8 false).update realMath
        realAtan2 (1 / 60) ⟨0, 3, 0⟩ 1 3).position.y ≠ 1 := by
  have h := chase_near_target_keeps_position realAtan2
    (Zombie.init (⟨0, 0, 0⟩ : Vec3 ℝ) (1 / 100) 1 ZombieBehavior.IDLE 8 false) (1 / 60)
    ⟨0, 3, 0⟩ 1 3 rfl (by norm_num [Zombie.init]) (by norm_num [Zombie.init])
    (by norm_num [horizontalDistance, Zombie.init])
  refine ⟨h.2, ?_, ?_⟩
  · rw [h.1]
    rfl
  · rw [h.1]
    norm_num [Zombie.init]

end ZombieBehaviour

/-! ## Projectile impact -/

section Impact

variable {K : Type} [LinearOrderedField K]

theorem startImpactAnimation_effect (m : MathFns K) (p : Projectile K) (hit : Vec3 K) :
    (Projectile.startImpactAnimation m p hit).fragments.length = 24 ∧
    (Projectile.startImpactAnimation m p hit).hasShattered = true ∧
    (Projectile.startImpactAnimation m p hit).isAnimating = true ∧
    (Projectile.startImpactAnimation m p hit).impactTime = 0 ∧
    (Projectile.startImpactAnimation m p hit).position = hit ∧
    (Projectile.startImpactAnimation m p hit).impactPosition = hit ∧
    (Projectile.startImpactAnimation m p hit).velocity = ⟨0, 0, 0⟩ ∧
    (Projectile.startImpactAnimation m p hit).hasHit = p.hasHit ∧
    (Projectile.startImpactAnimation m p hit).isLaunched = p.isLaunched := by
  simp [Projectile.startImpactAnimation, Projectile.createShatterEffect, Vec3.splat]

/-- In every state the program can reach, a bomb whose impact animation plays has hit: a
launched bomb that has not hit is in free flight. -/
theorem animating_implies_hit (m : MathFns K) (startPos : Vec3 K) (ops : List (BombOp K)) :
    (bombAfter m startPos ops).isAnimating = true → (bombAfter m startPos ops).hasHit = true := by
  have step : ∀ (b : Projectile K) (op : BombOp K),
      (b.isAnimating = true → b.hasHit = true) →
      ((BombOp.apply m b op).isAnimating = true → (BombOp.apply m b op).hasHit = true) := by
    intro b op hb
    cases op with
    | launch v => simp [BombOp.apply, Projectile.launch]
    | update dt terrain =>
      simp only [BombOp.apply, Projectile.update]
      by_cases ha : b.isAnimating = true
      · simp only [ha, if_true, Projectile.updateFragments]
        split_ifs <;> simp_all
      · simp only [ha, Bool.false_eq_true, if_false]
        cases terrain with
        | none =>
          simp only [Projectile.checkCollision]
          split_ifs <;> simp_all
        | some t =>
          simp only [Projectile.checkCollision]
          split_ifs <;>
            simp_all [Projectile.startImpactAnimation, Projectile.createShatterEffect]
    | trackBucket pos => simpa [BombOp.apply] using hb
    | markDamageApplied => simpa [BombOp.apply] using hb
    | autoReset =>
      simp only [BombOp.apply]
      split_ifs <;> simp_all
    | respawn pos => simp [BombOp.apply, respawnBombReset]
  have all : ∀ (l : List (BombOp K)) (b : Projectile K),
      (b.isAnimating = true → b.hasHit = true) →
      ((l.foldl (BombOp.apply m) b).isAnimating = true →
        (l.foldl (BombOp.apply m) b).hasHit = true) := by
    intro l
    induction l with
    | nil => intro b hb; simpa using hb
    | cons op rest ih =>
      intro b hb
      simpa [List.foldl_cons] using ih _ (step b op hb)
  exact all ops _ (by simp [Projectile.init])

/-- C12: for a launched projectile that has not hit (free flight, so no impact animation is
playing) and a non-null terrain: an update whose integrated position has
y ≤ terrainHeight + 0.15 sets hasHit, puts the projectile at the integrated x, z with
y = terrainHeight + 0.15, zeroes the velocity, records impactPosition = position, starts the
impact animation (isAnimating, impactTime 0) and creates exactly 24 fragments; an update whose
integrated position is above terrainHeight + 0.15 and touches no tree or wall leaves hasHit
false and the projectile at the integrated position. -/
theorem C12_ground_collision (m : MathFns K) (p : Projectile K) (dt : K) (t : Terrain K)
    (h1 : p.isLaunched = true) (h2 : p.hasHit = false) (h4 : p.isAnimating = false) :
    ((p.integratedPosition dt).y
        ≤ t.getHeight (p.integratedPosition dt).x (p.integratedPosition dt).z + 15 / 100 →
      (p.update m dt (some t)).hasHit = true ∧
      (p.update m dt (some t)).position
        = ⟨(p.integratedPosition dt).x,
           t.getHeight (p.integratedPosition dt).x (p.integratedPosition dt).z + 15 / 100,
           (p.integratedPosition dt).z⟩ ∧
      (p.update m dt (some t)).velocity = ⟨0, 0, 0⟩ ∧
      (p.update m dt (some t)).impactPosition = (p.update m dt (some t)).position ∧
      (p.update m dt (some t)).isAnimating = true ∧
      (p.update m dt (some t)).impactTime = 0 ∧
      (p.update m dt (some t)).fragments.length = 24) ∧
    (t.getHeight (p.integratedPosition dt).x (p.integratedPosition dt).z + 15 / 100
        < (p.integratedPosition dt).y →
      t.checkTreeCollision (p.integratedPosition dt).x (p.integratedPosition dt).z (15 / 100)
        = false →
      t.checkWallCollision (p.integratedPosition dt).x (p.integratedPosition dt).z (15 / 100)
        = false →
      (p.update m dt (some t)).hasHit = false ∧
      (p.update m dt (some t)).position = p.integratedPosition dt) := by
  constructor
  · intro hy
    have hu : p.update m dt (some t)
        = Projectile.startImpactAnimation m
            { p with
              velocity := p.velocity.add ((⟨0, -(981 / 100), 0⟩ : Vec3 K).smul dt)
              position := ⟨(p.integratedPosition dt).x,
                t.getHeight (p.integratedPosition dt).x (p.integratedPosition dt).z + 15 / 100,
                (p.integratedPosition dt).z⟩
              hasHit := true }
            ⟨(p.integratedPosition dt).x,
              t.getHeight (p.integratedPosition dt).x (p.integratedPosition dt).z + 15 / 100,
              (p.integratedPosition dt).z⟩ := by
      simp only [Projectile.integratedPosition] at hy ⊢
      simp only [Projectile.update, h4, h1, h2, Projectile.checkCollision]
      simp only [Bool.false_eq_true, if_false, Bool.not_false, Bool.and_self, if_true, hy]
    obtain ⟨e1, -, e3, e4, e5, e6, e7, e8, -⟩ := startImpactAnimation_effect m
      { p with
        velocity := p.velocity.add ((⟨0, -(981 / 100), 0⟩ : Vec3 K).smul dt)
        position := ⟨(p.integratedPosition dt).x,
          t.getHeight (p.integratedPosition dt).x (p.integratedPosition dt).z + 15 / 100,
          (p.integratedPosition dt).z⟩
        hasHit := true }
      ⟨(p.integratedPosition dt).x,
        t.getHeight (p.integratedPosition dt).x (p.integratedPosition dt).z + 15 / 100,
        (p.integratedPosition dt).z⟩
    rw [hu]
    exact ⟨e8, e5, e7, e6.trans e5.symm, e3, e4, e1⟩
  · intro hy htree hwall
    simp only [Projectile.integratedPosition] at hy htree hwall ⊢
    simp only [Projectile.update, h4, h1, h2, Projectile.checkCollision]
    simp [not_le.mpr hy, htree, hwall, h2]

/-- C12 at the bomb main constructs, launched with velocity (0, 10, 0) over flat terrain of
height 0: an update of 3 s integrates to y = -57.79 ≤ 0.15 and hits. -/
theorem C12_ground_collision_witness :
    (((mainBomb : Projectile ℝ).launch ⟨0, 10, 0⟩).isLaunched = true ∧
      ((mainBomb : Projectile ℝ).launch ⟨0, 10, 0⟩).hasHit = false ∧
      ((mainBomb : Projectile ℝ).launch ⟨0, 10, 0⟩).isAnimating = false ∧
      (((mainBomb : Projectile ℝ).launch ⟨0, 10, 0⟩).integratedPosition 3).y
        ≤ (flatTerrain : Terrain ℝ).getHeight
            (((mainBomb : Projectile ℝ).launch ⟨0, 10, 0⟩).integratedPosition 3).x
            (((mainBomb : Projectile ℝ).launch ⟨0, 10, 0⟩).integratedPosition 3).z
          + 15 / 100) ∧
    (((mainBomb : Projectile ℝ).launch ⟨0, 10, 0⟩).update realMath 3
      (some flatTerrain)).fragments.length = 24 := by
  have hy : (((mainBomb : Projectile ℝ).launch ⟨0, 10, 0⟩).integratedPosition 3).y
      ≤ (flatTerrain : Terrain ℝ).getHeight
          (((mainBomb : Projectile ℝ).launch ⟨0, 10, 0⟩).integratedPosition 3).x
          (((mainBomb : Projectile ℝ).launch ⟨0, 10, 0⟩).integratedPosition 3).z
        + 15 / 100 := by
    norm_num [Projectile.integratedPosition, Projectile.launch, mainBomb, Projectile.init,
      flatTerrain, Vec3.add, Vec3.smul]
  exact ⟨⟨rfl, rfl, rfl, hy⟩,
    ((C12_ground_collision realMath _ 3 flatTerrain rfl rfl rfl).1 hy).2.2.2.2.2.2⟩

/-- What update keeps once the shatter effect exists: hasShattered stays set, the fragments
stay 24 while the animation plays, and a bomb that stopped animating is not launched. -/
theorem shattered_step (m : MathFns K) (q : Projectile K) (dt : K)
    (terrain : Option (Terrain K))
    (h : q.hasShattered = true ∧ (q.isAnimating = true → q.fragments.length = 24) ∧
      (q.isAnimating = false → q.isLaunched = false)) :
    (q.update m dt terrain).hasShattered = true ∧
    ((q.update m dt terrain).isAnimating = true → (q.update m dt terrain).fragments.length = 24) ∧
    ((q.update m dt terrain).isAnimating = false → (q.update m dt terrain).isLaunched = false) := by
  obtain ⟨a1, a2, a3⟩ := h
  by_cases ha : q.isAnimating = true
  · simp only [Projectile.update, ha, if_true, Projectile.updateFragments]
    split_ifs <;> simp_all
  · have ha : q.isAnimating = false := by simpa using ha
    have hl := a3 ha
    simp [Projectile.update, ha, hl, a1]

theorem shattered_foldl (m : MathFns K) (steps : List (K × Option (Terrain K))) :
    ∀ q : Projectile K,
      (q.hasShattered = true ∧ (q.isAnimating = true → q.fragments.length = 24) ∧
        (q.isAnimating = false → q.isLaunched = false)) →
      (steps.foldl (fun b s => b.update m s.1 s.2) q).hasShattered = true ∧
      ((steps.foldl (fun b s => b.update m s.1 s.2) q).isAnimating = true →
        (steps.foldl (fun b s => b.update m s.1 s.2) q).fragments.length = 24) := by
  induction steps with
  | nil => intro q h; exact ⟨h.1, h.2.1⟩
  | cons s rest ih =>
    intro q h
    simpa [List.foldl_cons] using ih _ (shattered_step m q s.1 s.2 h)

/-- C13: once an impact has started (startImpactAnimation ran) the fragment collection has
exactly 24 elements and createShatterEffect(pos), for any pos, returns the projectile
unchanged; after any further updates the same holds: createShatterEffect changes nothing,
and the fragments are still 24 as long as the animation plays. -/
theorem C13_shatter_idempotent (m : MathFns K) (p : Projectile K) (hit : Vec3 K)
    (steps : List (K × Option (Terrain K))) :
    (Projectile.startImpactAnimation m p hit).fragments.length = 24 ∧
    (∀ pos : Vec3 K,
      Projectile.createShatterEffect m (Projectile.startImpactAnimation m p hit) pos
        = Projectile.startImpactAnimation m p hit) ∧
    ((steps.foldl (fun b s => b.update m s.1 s.2)
        (Projectile.startImpactAnimation m p hit)).isAnimating = true →
      (steps.foldl (fun b s => b.update m s.1 s.2)
        (Projectile.startImpactAnimation m p hit)).fragments.length = 24) ∧
    (∀ pos : Vec3 K,
      Projectile.createShatterEffect m
          (steps.foldl (fun b s => b.update m s.1 s.2)
            (Projectile.startImpactAnimation m p hit)) pos
        = steps.foldl (fun b s => b.update m s.1 s.2)
            (Projectile.startImpactAnimation m p hit)) := by
  obtain ⟨e1, e2, e3, -⟩ := startImpactAnimation_effect m p hit
  obtain ⟨f1, f2⟩ := shattered_foldl m steps (Projectile.startImpactAnimation m p hit)
    ⟨e2, fun _ => e1, fun h => by rw [e3] at h; simp at h⟩
  refine ⟨e1, ?_, f2, ?_⟩
  · intro pos
    simp [Projectile.createShatterEffect, e2]
  · intro pos
    simp [Projectile.createShatterEffect, f1]

/-- C13 at the bomb main constructs, hit at (0, 0.15, 0) and updated once by 0.5 s: the
animation still plays and 24 fragments are there. -/
theorem C13_shatter_idempotent_witness :
    (([((1 / 2 : ℝ), some (flatTerrain : Terrain ℝ))].foldl
        (fun b s => b.update realMath s.1 s.2)
        (Projectile.startImpactAnimation realMath ((mainBomb : Projectile ℝ).launch ⟨0, 10, 0⟩)
          ⟨0, 15 / 100, 0⟩)).isAnimating = true) ∧
    (([((1 / 2 : ℝ), some (flatTerrain : Terrain ℝ))].foldl
        (fun b s => b.update realMath s.1 s.2)
        (Projectile.startImpactAnimation realMath ((mainBomb : Projectile ℝ).launch ⟨0, 10, 0⟩)
          ⟨0, 15 / 100, 0⟩)).fragments.length = 24) := by
  have ha : ([((1 / 2 : ℝ), some (flatTerrain : Terrain ℝ))].foldl
      (fun b s => b.update realMath s.1 s.2)
      (Projectile.startImpactAnimation realMath ((mainBomb : Projectile ℝ).launch ⟨0, 10, 0⟩)
        ⟨0, 15 / 100, 0⟩)).isAnimating = true := by
    obtain ⟨-, -, e3, e4, -⟩ := startImpactAnimation_effect realMath
      ((mainBomb : Projectile ℝ).launch ⟨0, 10, 0⟩) ⟨0, 15 / 100, 0⟩
    simp only [List.foldl_cons, List.foldl_nil, Projectile.update, e3, if_true,
      Projectile.updateFragments, e4]
    norm_num
  exact ⟨ha, (C13_shatter_idempotent realMath _ _ _).2.2.1 ha⟩

/-- C14: while the impact animation plays on a launched projectile with its 24 fragments, an
update that leaves impactTime below 2 keeps isAnimating and isLaunched true and the 24
fragments present; the update that brings impactTime to 2 or more leaves isAnimating false,
isLaunched false and no fragments; neither moves the projectile position. -/
theorem C14_impact_animation (m : MathFns K) (p : Projectile K) (dt : K)
    (terrain : Option (Terrain K)) (hanim : p.isAnimating = true)
    (hlaunched : p.isLaunched = true) (hfrag : p.fragments.length = 24) :
    (p.impactTime + dt < 2 →
      (p.update m dt terrain).isAnimating = true ∧
      (p.update m dt terrain).isLaunched = true ∧
      (p.update m dt terrain).fragments.length = 24 ∧
      (p.update m dt terrain).impactTime = p.impactTime + dt ∧
      (p.update m dt terrain).position = p.position) ∧
    (2 ≤ p.impactTime + dt →
      (p.update m dt terrain).isAnimating = false ∧
      (p.update m dt terrain).isLaunched = false ∧
      (p.update m dt terrain).fragments = [] ∧
      (p.update m dt terrain).position = p.position) := by
  constructor
  · intro h
    simp [Projectile.update, hanim, Projectile.updateFragments, not_le.mpr h, hlaunched, hfrag]
  · intro h
    simp [Projectile.update, hanim, Projectile.updateFragments, h]

/-- C14 at the bomb main constructs right after its impact at (0, 0.15, 0): an update of
2.5 s ends the animation. -/
theorem C14_impact_animation_witness :
    ((Projectile.startImpactAnimation realMath ((mainBomb : Projectile ℝ).launch ⟨0, 10, 0⟩)
        ⟨0, 15 / 100, 0⟩).isAnimating = true ∧
      (Projectile.startImpactAnimation realMath ((mainBomb : Projectile ℝ).launch ⟨0, 10, 0⟩)
        ⟨0, 15 / 100, 0⟩).isLaunched = true ∧
      (Projectile.startImpactAnimation realMath ((mainBomb : Projectile ℝ).launch ⟨0, 10, 0⟩)
        ⟨0, 15 / 100, 0⟩).fragments.length = 24 ∧
      (2 : ℝ) ≤ (Projectile.startImpactAnimation realMath
        ((mainBomb : Projectile ℝ).launch ⟨0, 10, 0⟩) ⟨0, 15 / 100, 0⟩).impactTime + 5 / 2) ∧
    ((Projectile.startImpactAnimation realMath ((mainBomb : Projectile ℝ).launch ⟨0, 10, 0⟩)
        ⟨0, 15 / 100, 0⟩).update realMath (5 / 2) (some flatTerrain)).fragments = [] := by
  obtain ⟨e1, -, e3, e4, -, -, -, -, e9⟩ := startImpactAnimation_effect realMath
    ((mainBomb : Projectile ℝ).launch ⟨0, 10, 0⟩) ⟨0, 15 / 100, 0⟩
  have e9 : (Projectile.startImpactAnimation realMath
      ((mainBomb : Projectile ℝ).launch ⟨0, 10, 0⟩) ⟨0, 15 / 100, 0⟩).isLaunched = true := e9
  have ht : (2 : ℝ) ≤ (Projectile.startImpactAnimation realMath
      ((mainBomb : Projectile ℝ).launch ⟨0, 10, 0⟩) ⟨0, 15 / 100, 0⟩).impactTime + 5 / 2 := by
    rw [e4]; norm_num
  exact ⟨⟨e3, e9, e1, ht⟩,
    ((C14_impact_animation realMath _ (5 / 2) (some flatTerrain) e3 e9 e1).2 ht).2.2.1⟩

end Impact

/-! ## Zombie attacks on the catapult -/

section ZombieAttack

variable {K : Type} [LinearOrderedField K]

theorem setAnimationState_isBoss (z : Zombie K) (state : ZombieAnimationState) :
    (z.setAnimationState state).isBoss = z.isBoss := by
  simp only [Zombie.setAnimationState]
  split_ifs <;> rfl

theorem moveTowardsTarget_isBoss (m : MathFns K) (atan2f : K → K → K) (z : Zombie K)
    (dt : K) (target : Vec3 K) (terrainHeight : K) :
    (Zombie.moveTowardsTarget m atan2f z dt target terrainHeight).isBoss = z.isBoss := by
  simp only [Zombie.moveTowardsTarget]
  split_ifs <;> rfl

theorem update_isBoss (m : MathFns K) (atan2f : K → K → K) (z : Zombie K) (dt : K)
    (target : Vec3 K) (terrainHeight distance : K) :
    (z.update m atan2f dt target terrainHeight distance).isBoss = z.isBoss := by
  by_cases halive : z.alive = true
  · rcases update_alive m atan2f z dt target terrainHeight distance halive
      with ⟨-, hu⟩ | ⟨-, hu⟩ <;> rw [hu]
    · simp only [Zombie.updateIdle, Zombie.attackBranch]
      split_ifs <;>
        simp only [moveTowardsTarget_isBoss, setAnimationState_isBoss]
    · simp only [Zombie.updatePatrol, Zombie.attackBranch]
      split_ifs <;>
        simp only [moveTowardsTarget_isBoss, setAnimationState_isBoss]
  · simp [Zombie.update, halive]

theorem cooldownTick_bounds (f : ZombieFrame K) (c : K) :
    0 ≤ cooldownTick f c ∧ c - f.deltaTime ≤ cooldownTick f c ∧
    (c ≤ 1 → 0 ≤ f.deltaTime → cooldownTick f c ≤ 1) := by
  simp only [cooldownTick]
  by_cases h : c - f.deltaTime < 0
  · simp only [h, if_true]
    exact ⟨le_rfl, h.le, fun _ _ => zero_le_one⟩
  · simp only [h, if_false]
    exact ⟨not_lt.mp h, le_rfl, fun h1 h2 => by linarith⟩

theorem attacksCatapult_iff (m : MathFns K) (atan2f : K → K → K) (f : ZombieFrame K) (c : K) :
    attacksCatapult m atan2f f c = true ↔
      f.zombie.isAlive = true ∧ (zombieAfterUpdate m atan2f f).isAttacking = true ∧
      distanceToCatapult m f ≤ 25 / 10 ∧ cooldownTick f c ≤ 0 ∧ f.catapult.isAlive = true := by
  simp [attacksCatapult, and_assoc]

theorem attackBlock_cooldown (m : MathFns K) (atan2f : K → K → K) (f : ZombieFrame K) (c : K) :
    (zombieAttackBlock m atan2f f c).2.1 =
      if attacksCatapult m atan2f f c = true then 1
      else if f.zombie.isAlive = true then cooldownTick f c else c := by
  by_cases ha : f.zombie.isAlive = true
  · simp only [zombieAttackBlock, attacksCatapult, ha, if_true, Bool.true_and]
    split_ifs <;> rfl
  · have ha : f.zombie.isAlive = false := by simpa using ha
    simp [zombieAttackBlock, attacksCatapult, ha]

theorem attackBlock_catapult (m : MathFns K) (atan2f : K → K → K) (f : ZombieFrame K) (c : K) :
    (zombieAttackBlock m atan2f f c).2.2 =
      if attacksCatapult m atan2f f c = true then
        f.catapult.takeDamage (if f.zombie.isBoss = true then 20 else 10)
      else f.catapult := by
  by_cases ha : f.zombie.isAlive = true
  · simp only [zombieAttackBlock, attacksCatapult, ha, if_true, Bool.true_and]
    have hb : (zombieAfterUpdate m atan2f f).getIsBoss = f.zombie.isBoss := by
      simp only [Zombie.getIsBoss, zombieAfterUpdate, update_isBoss]
    split_ifs <;> simp_all
  · have ha : f.zombie.isAlive = false := by simpa using ha
    simp [zombieAttackBlock, attacksCatapult, ha]

/-- After a run of frames with frame times ≥ 0 a cooldown that started at most 1 is at most 1
and has dropped by no more than the frame times add up to. -/
theorem cooldownAfter_lower (m : MathFns K) (atan2f : K → K → K)
    (frames : List (ZombieFrame K)) :
    ∀ c : K, c ≤ 1 → (∀ f ∈ frames, 0 ≤ f.deltaTime) →
      c - (frames.map (fun f => f.deltaTime)).sum ≤ cooldownAfter m atan2f c frames ∧
      cooldownAfter m atan2f c frames ≤ 1 := by
  induction frames with
  | nil => intro c hc _; simp [cooldownAfter, hc]
  | cons f rest ih =>
    intro c hc hpos
    have hf : 0 ≤ f.deltaTime := hpos f (List.mem_cons_self _ _)
    have hrest : ∀ g ∈ rest, 0 ≤ g.deltaTime := fun g hg => hpos g (List.mem_cons_of_mem _ hg)
    obtain ⟨t0, t1, t2⟩ := cooldownTick_bounds f c
    have hstep : c - f.deltaTime ≤ (zombieAttackBlock m atan2f f c).2.1 ∧
        (zombieAttackBlock m atan2f f c).2.1 ≤ 1 := by
      rw [attackBlock_cooldown]
      split_ifs
      · exact ⟨by linarith, le_rfl⟩
      · exact ⟨t1, t2 hc hf⟩
      · exact ⟨by linarith, hc⟩
    obtain ⟨i1, i2⟩ := ih _ hstep.2 hrest
    have e : cooldownAfter m atan2f c (f :: rest)
        = cooldownAfter m atan2f (zombieAttackBlock m atan2f f c).2.1 rest := by
      simp [cooldownAfter]
    rw [e]
    refine ⟨?_, i2⟩
    simp only [List.map_cons, List.sum_cons]
    linarith [hstep.1]

/-- C20: one iteration of the zombie loop changes the catapult only by the attack, which
happens only if the zombie is alive, its animation state after the update is ATTACKING, its
distance to the catapult before the update is at most 2.5, its decremented cooldown is 0 and
the catapult is alive; the attack is takeDamage(20) for a boss and takeDamage(10) otherwise;
and between an attack of a zombie and a later attack of the same zombie the frame times
(each ≥ 0) add up to at least the attack interval 1. -/
theorem C20_zombie_attack (m : MathFns K) (atan2f : K → K → K) :
    (∀ (f : ZombieFrame K) (c : K),
      (zombieAttackBlock m atan2f f c).2.2 =
        if attacksCatapult m atan2f f c = true then
          f.catapult.takeDamage (if f.zombie.isBoss = true then 20 else 10)
        else f.catapult) ∧
    (∀ (f : ZombieFrame K) (c : K), attacksCatapult m atan2f f c = true →
      f.zombie.isAlive = true ∧
      (zombieAfterUpdate m atan2f f).currentAnimState = ZombieAnimationState.ATTACKING ∧
      distanceToCatapult m f ≤ 25 / 10 ∧ cooldownTick f c = 0 ∧ f.catapult.isAlive = true) ∧
    (∀ (c : K) (before : List (ZombieFrame K)) (first : ZombieFrame K)
      (between : List (ZombieFrame K)) (second : ZombieFrame K),
      (∀ f ∈ between, 0 ≤ f.deltaTime) → 0 ≤ second.deltaTime →
      attacksCatapult m atan2f first (cooldownAfter m atan2f c before) = true →
      attacksCatapult m atan2f second
        (cooldownAfter m atan2f c (before ++ first :: between)) = true →
      1 ≤ (between.map (fun f => f.deltaTime)).sum + second.deltaTime) := by
  refine ⟨fun f c => attackBlock_catapult m atan2f f c, ?_, ?_⟩
  · intro f c h
    obtain ⟨a1, a2, a3, a4, a5⟩ := (attacksCatapult_iff m atan2f f c).mp h
    refine ⟨a1, ?_, a3, le_antisymm a4 (cooldownTick_bounds f c).1, a5⟩
    simpa [Zombie.isAttacking] using a2
  · intro c before first between second hpos hsec h1 h2
    have e : cooldownAfter m atan2f c (before ++ first :: between)
        = cooldownAfter m atan2f 1 between := by
      simp only [cooldownAfter, List.foldl_append, List.foldl_cons]
      have : (zombieAttackBlock m atan2f first
          (List.foldl (fun c f => (zombieAttackBlock m atan2f f c).2.1) c before)).2.1 = 1 := by
        rw [attackBlock_cooldown]
        simp only [cooldownAfter] at h1
        rw [if_pos h1]
      rw [this]
    rw [e] at h2
    obtain ⟨-, -, -, a4, -⟩ := (attacksCatapult_iff m atan2f second _).mp h2
    obtain ⟨l1, -⟩ := cooldownAfter_lower m atan2f between 1 le_rfl hpos
    have t1 := (cooldownTick_bounds second (cooldownAfter m atan2f 1 between)).2.1
    linarith

theorem update_in_attack_range (m : MathFns K) (atan2f : K → K → K) (z : Zombie K) (dt : K)
    (target : Vec3 K) (terrainHeight distance : K) (halive : z.alive = true)
    (hrange : distance ≤ z.attackRange) :
    (z.update m atan2f dt target terrainHeight distance).currentAnimState
      = ZombieAnimationState.ATTACKING := by
  rcases update_alive m atan2f z dt target terrainHeight distance halive
    with ⟨-, hu⟩ | ⟨-, hu⟩ <;> rw [hu] <;>
    simp only [Zombie.updateIdle, Zombie.updatePatrol, if_pos hrange] <;>
    exact (attackBranch_effect m atan2f z target terrainHeight).1

theorem bossFrame_attacks (dt c : ℝ) (h : c ≤ dt) :
    attacksCatapult realMath realAtan2 (bossFrame dt) c = true := by
  have hd : distanceToCatapult realMath (bossFrame dt : ZombieFrame ℝ) = 1 := by
    simp [distanceToCatapult, bossFrame, Zombie.getPosition, Zombie.init, Vec3.sub, Vec3.length,
      Vec3.dot, realMath]
  rw [attacksCatapult_iff]
  refine ⟨rfl, ?_, ?_, ?_, ?_⟩
  · simp only [Zombie.isAttacking, zombieAfterUpdate, decide_eq_true_eq]
    apply update_in_attack_range _ _ _ _ _ _ _ rfl
    rw [hd]
    norm_num [bossFrame, Zombie.init]
  · rw [hd]; norm_num
  · simp only [cooldownTick, bossFrame]
    split_ifs with h0
    · exact le_rfl
    · linarith
  · simp [Catapult.isAlive, bossFrame, Catapult.init, Catapult.updateArmAngleFromSpeed,
      Catapult.defaults]

/-- C20 at the boss frame: with cooldown 0 the boss attacks in a frame of 1/60 s, and it
attacks again in the next frame when that frame lasts 1 s. -/
theorem C20_zombie_attack_witness :
    ((0 : ℝ) ≤ (bossFrame 1 : ZombieFrame ℝ).deltaTime ∧
      attacksCatapult realMath realAtan2 (bossFrame (1 / 60))
        (cooldownAfter realMath realAtan2 0 []) = true ∧
      attacksCatapult realMath realAtan2 (bossFrame 1)
        (cooldownAfter realMath realAtan2 0 ([] ++ bossFrame (1 / 60) :: [])) = true) ∧
    (zombieAfterUpdate realMath realAtan2 (bossFrame (1 / 60) : ZombieFrame ℝ)).currentAnimState
      = ZombieAnimationState.ATTACKING ∧
    (1 : ℝ) ≤ (([] : List (ZombieFrame ℝ)).map (fun f => f.deltaTime)).sum
      + (bossFrame 1 : ZombieFrame ℝ).deltaTime := by
  have h0 : (0 : ℝ) ≤ (bossFrame 1 : ZombieFrame ℝ).deltaTime := by norm_num [bossFrame]
  have h1 : attacksCatapult realMath realAtan2 (bossFrame (1 / 60))
      (cooldownAfter realMath realAtan2 0 []) = true :=
    bossFrame_attacks (1 / 60) _ (by norm_num [cooldownAfter])
  have h2 : attacksCatapult realMath realAtan2 (bossFrame 1)
      (cooldownAfter realMath realAtan2 0 ([] ++ bossFrame (1 / 60) :: [])) = true := by
    apply bossFrame_attacks
    have hc : cooldownAfter realMath realAtan2 0 ([] ++ bossFrame (1 / 60) :: []) = 1 := by
      simp only [cooldownAfter, List.nil_append, List.foldl_cons, List.foldl_nil]
      rw [attackBlock_cooldown, if_pos (bossFrame_attacks (1 / 60) 0 (by norm_num))]
    rw [hc]
  have hC := C20_zombie_attack realMath realAtan2
  exact ⟨⟨h0, h1, h2⟩, (hC.2.1 _ _ h1).2.1,
    hC.2.2 0 [] (bossFrame (1 / 60)) [] (bossFrame 1) (by simp) h0 h1 h2⟩

end ZombieAttack

/-! ## Damage monotonicity, the free-flight step and the shatter fragments -/

section ProjectileLaws

variable {K : Type} [LinearOrderedField K]

/-- With a base damage of at least 0 and a multiplier of at most 1 no distance gets more than
the base damage. -/
theorem calculateDamage_le_base (p : Projectile K) (d : K) (hb : 0 ≤ p.baseDamage)
    (hm1 : p.outerDamageMultiplier ≤ 1) : p.calculateDamage d ≤ p.baseDamage := by
  by_cases h1 : d ≤ p.innerRadius
  · rw [calculateDamage_inner p d h1]
  · by_cases h2 : d ≤ p.outerRadius
    · have h1 : p.innerRadius < d := not_le.mp h1
      rw [calculateDamage_linear p d h1 h2]
      have hden : 0 < p.outerRadius - p.innerRadius := by linarith
      have ht0 : 0 ≤ (d - p.innerRadius) / (p.outerRadius - p.innerRadius) :=
        div_nonneg (by linarith) hden.le
      have hprod : 0 ≤ (d - p.innerRadius) / (p.outerRadius - p.innerRadius) *
          (1 - p.outerDamageMultiplier) := mul_nonneg ht0 (by linarith)
      nlinarith [mul_nonneg hb hprod]
    · simp [Projectile.calculateDamage, h1, h2, hb]

/-- Past both radii the damage is 0, whatever the order of the radii. -/
theorem calculateDamage_outside (p : Projectile K) (d : K) (h1 : p.innerRadius < d)
    (h2 : p.outerRadius < d) : p.calculateDamage d = 0 := by
  simp [Projectile.calculateDamage, not_le.mpr h1, not_le.mpr h2]

/-- C30: for baseDamage ≥ 0 and 0 ≤ outerDamageMultiplier ≤ 1, whatever the radii, the damage
at the farther of two distances is between 0 and the damage at the nearer one, which is at most
baseDamage. -/
theorem C30_damage_monotone (p : Projectile K) (hb : 0 ≤ p.baseDamage)
    (hm0 : 0 ≤ p.outerDamageMultiplier) (hm1 : p.outerDamageMultiplier ≤ 1)
    (d1 d2 : K) (h : d1 ≤ d2) :
    0 ≤ p.calculateDamage d2 ∧ p.calculateDamage d2 ≤ p.calculateDamage d1 ∧
      p.calculateDamage d1 ≤ p.baseDamage := by
  refine ⟨calculateDamage_nonneg p d2 hb hm0, ?_, calculateDamage_le_base p d1 hb hm1⟩
  by_cases h1 : d1 ≤ p.innerRadius
  · rw [calculateDamage_inner p d1 h1]
    exact calculateDamage_le_base p d2 hb hm1
  · have h1 : p.innerRadius < d1 := not_le.mp h1
    by_cases h2 : d2 ≤ p.outerRadius
    · rw [calculateDamage_linear p d1 h1 (le_trans h h2),
        calculateDamage_linear p d2 (lt_of_lt_of_le h1 h) h2]
      have hden : 0 < p.outerRadius - p.innerRadius := by linarith
      have ht : (d1 - p.innerRadius) / (p.outerRadius - p.innerRadius) ≤
          (d2 - p.innerRadius) / (p.outerRadius - p.innerRadius) :=
        div_le_div_of_nonneg_right (by linarith) hden.le
      have hk : 0 ≤ 1 - p.outerDamageMultiplier := by linarith
      apply mul_le_mul_of_nonneg_left _ hb
      have := mul_le_mul_of_nonneg_right ht hk
      linarith
    · rw [calculateDamage_outside p d2 (lt_of_lt_of_le h1 h) (not_le.mp h2)]
      exact calculateDamage_nonneg p d1 hb hm0

theorem C30_damage_monotone_witness :
    0 ≤ (mainBomb : Projectile ℚ).calculateDamage 4 ∧
      (mainBomb : Projectile ℚ).calculateDamage 4 ≤ (mainBomb : Projectile ℚ).calculateDamage 3 ∧
      (mainBomb : Projectile ℚ).calculateDamage 3 ≤ (mainBomb : Projectile ℚ).baseDamage :=
  C30_damage_monotone mainBomb (by norm_num [mainBomb, Projectile.init])
    (by norm_num [mainBomb, Projectile.init]) (by norm_num [mainBomb, Projectile.init]) 3 4
    (by norm_num)

/-- A collision check that reports no collision leaves the projectile as it was. -/
theorem checkCollision_unchanged (p : Projectile K) (terrain : Option (Terrain K))
    (h : (p.checkCollision terrain).1 = false) : (p.checkCollision terrain).2 = p := by
  cases terrain with
  | none => rfl
  | some t =>
    simp only [Projectile.checkCollision] at h ⊢
    split_ifs at h ⊢ <;> simp_all

/-- C28: a launched, un-hit, non-animating projectile whose update detects no collision gets
velocity' = velocity + (0, -9.81 dt, 0) and position' = position + velocity' dt and keeps every
other field (isLaunched, hasHit, damageApplied, isAnimating, fragments among them); a
projectile that is neither launched nor animating is left unchanged by update. -/
theorem C28_free_flight_step (m : MathFns K) (p : Projectile K) (dt : K)
    (terrain : Option (Terrain K)) :
    (p.isLaunched = true → p.hasHit = false → p.isAnimating = false →
      (Projectile.checkCollision
        { p with
          velocity := ⟨p.velocity.x, p.velocity.y - 981 / 100 * dt, p.velocity.z⟩
          position := ⟨p.position.x + p.velocity.x * dt,
            p.position.y + (p.velocity.y - 981 / 100 * dt) * dt,
            p.position.z + p.velocity.z * dt⟩ } terrain).1 = false →
      p.update m dt terrain =
        { p with
          velocity := ⟨p.velocity.x, p.velocity.y - 981 / 100 * dt, p.velocity.z⟩
          position := ⟨p.position.x + p.velocity.x * dt,
            p.position.y + (p.velocity.y - 981 / 100 * dt) * dt,
            p.position.z + p.velocity.z * dt⟩ }) ∧
    (p.isLaunched = false → p.isAnimating = false → p.update m dt terrain = p) := by
  have hv : p.velocity.add ((⟨0, -(981 / 100), 0⟩ : Vec3 K).smul dt)
      = ⟨p.velocity.x, p.velocity.y - 981 / 100 * dt, p.velocity.z⟩ := by
    simp only [Vec3.add, Vec3.smul, zero_mul, add_zero, Vec3.mk.injEq, true_and, and_true]
    ring
  have hpos : p.position.add
      ((⟨p.velocity.x, p.velocity.y - 981 / 100 * dt, p.velocity.z⟩ : Vec3 K).smul dt)
      = ⟨p.position.x + p.velocity.x * dt, p.position.y + (p.velocity.y - 981 / 100 * dt) * dt,
          p.position.z + p.velocity.z * dt⟩ := rfl
  constructor
  · intro h1 h2 h3 hc
    unfold Projectile.update
    rw [if_neg (by simp [h3]), if_pos (by simp [h1, h2])]
    simp only [hv, hpos]
    rw [hc]
    simp only [Bool.false_eq_true, if_false]
    exact checkCollision_unchanged _ terrain hc
  · intro h1 h3
    simp [Projectile.update, h1, h3]

theorem C28_free_flight_step_witness :
    ((mainBomb : Projectile ℚ).launch ⟨1, 2, 3⟩).update ⟨id, id, id⟩ 1 none =
      { (mainBomb : Projectile ℚ).launch ⟨1, 2, 3⟩ with
        velocity := ⟨1, 2 - 981 / 100 * 1, 3⟩
        position := ⟨0 + 1 * 1, 1 / 2 + (2 - 981 / 100 * 1) * 1, 0 + 3 * 1⟩ } ∧
    (mainBomb : Projectile ℚ).update ⟨id, id, id⟩ 1 none = mainBomb :=
  ⟨(C28_free_flight_step ⟨id, id, id⟩ ((mainBomb : Projectile ℚ).launch ⟨1, 2, 3⟩) 1 none).1
      rfl rfl rfl rfl,
    (C28_free_flight_step ⟨id, id, id⟩ (mainBomb : Projectile ℚ) 1 none).2 rfl rfl⟩

end ProjectileLaws

/-! ## Shatter fragments -/

section ShatterFragments

/-- The height y_i = 1 - 2 i / 23 of fragment i lies in [-1, 1] for i up to 23. -/
theorem fragment_height_sq (i : Nat) (hi : i < 24) :
    0 ≤ 1 - (1 - 2 * (i : ℝ) / (24 - 1)) * (1 - 2 * (i : ℝ) / (24 - 1)) := by
  have h0 : (0 : ℝ) ≤ (i : ℝ) := Nat.cast_nonneg i
  have h1 : (i : ℝ) ≤ 23 := by exact_mod_cast Nat.le_of_lt_succ hi
  have h2 : -1 ≤ 1 - 2 * (i : ℝ) / (24 - 1) := by
    have : 2 * (i : ℝ) / (24 - 1) ≤ 2 := by
      rw [div_le_iff₀ (by norm_num)]
      linarith
    linarith
  have h3 : 1 - 2 * (i : ℝ) / (24 - 1) ≤ 1 := by
    have : 0 ≤ 2 * (i : ℝ) / (24 - 1) := div_nonneg (by linarith) (by norm_num)
    linarith
  nlinarith

/-- C27: fragment i (0 ≤ i < 24) of the shatter effect at hit position p starts at p with life
1, size 0.08 + (i mod 4) * 0.03 and velocity (r cos θ s, y s + 0.5, r sin θ s) with
s = 3.0 + (i mod 7) * 0.4, y = 1 - 2 i / 23, r = sqrt (1 - y²), θ = i * 2.399963229728653;
without the 0.5 bias its speed is exactly s, s lies in [3.0, 5.4] and the size in
[0.08, 0.17]. -/
theorem C27_fragment_spiral (b : Projectile ℝ) (p : Vec3 ℝ) (i : Nat) (hi : i < 24) :
    ∃ frag : Fragment ℝ,
      (Projectile.startImpactAnimation realMath b p).fragments[i]? = some frag ∧
      frag.position = p ∧ frag.life = 1 ∧
      frag.size = 8 / 100 + ((i % 4 : Nat) : ℝ) * (3 / 100) ∧
      frag.velocity =
        ⟨Real.sqrt (1 - (1 - 2 * (i : ℝ) / 23) ^ 2) *
            Real.cos ((i : ℝ) * (2399963229728653 / 1000000000000000)) *
            (3 + ((i % 7 : Nat) : ℝ) * (4 / 10)),
          (1 - 2 * (i : ℝ) / 23) * (3 + ((i % 7 : Nat) : ℝ) * (4 / 10)) + 1 / 2,
          Real.sqrt (1 - (1 - 2 * (i : ℝ) / 23) ^ 2) *
            Real.sin ((i : ℝ) * (2399963229728653 / 1000000000000000)) *
            (3 + ((i % 7 : Nat) : ℝ) * (4 / 10))⟩ ∧
      Vec3.length realMath ⟨frag.velocity.x, frag.velocity.y - 1 / 2, frag.velocity.z⟩
        = 3 + ((i % 7 : Nat) : ℝ) * (4 / 10) ∧
      3 ≤ 3 + ((i % 7 : Nat) : ℝ) * (4 / 10) ∧ 3 + ((i % 7 : Nat) : ℝ) * (4 / 10) ≤ 54 / 10 ∧
      8 / 100 ≤ frag.size ∧ frag.size ≤ 17 / 100 := by
  have h7 : ((i % 7 : Nat) : ℝ) ≤ 6 := by
    exact_mod_cast Nat.le_of_lt_succ (Nat.mod_lt i (by norm_num))
  have h4 : ((i % 4 : Nat) : ℝ) ≤ 3 := by
    exact_mod_cast Nat.le_of_lt_succ (Nat.mod_lt i (by norm_num))
  have h70 : (0 : ℝ) ≤ ((i % 7 : Nat) : ℝ) := Nat.cast_nonneg _
  have h40 : (0 : ℝ) ≤ ((i % 4 : Nat) : ℝ) := Nat.cast_nonneg _
  have hy := fragment_height_sq i hi
  have e23 : ((24 : ℝ) - 1) = 23 := by norm_num
  rw [e23] at hy
  refine ⟨Projectile.mkFragment realMath p i, ?_, rfl, rfl, rfl, ?_, ?_, by linarith,
    by linarith, ?_, ?_⟩
  · simp [Projectile.startImpactAnimation, Projectile.createShatterEffect, List.getElem?_map,
      List.getElem?_range hi]
  · simp only [Projectile.mkFragment, realMath, e23, Vec3.mk.injEq]
    refine ⟨?_, ?_, ?_⟩ <;> ring_nf
  · simp only [Projectile.mkFragment, realMath, Vec3.length, Vec3.dot, e23, add_sub_cancel_right]
    have hs : (0 : ℝ) ≤ 3 + ((i % 7 : Nat) : ℝ) * (4 / 10) := by linarith
    have hr := Real.mul_self_sqrt hy
    have hcs := Real.cos_sq_add_sin_sq ((i : ℝ) * (2399963229728653 / 1000000000000000))
    generalize Real.sqrt (1 - (1 - 2 * (i : ℝ) / 23) * (1 - 2 * (i : ℝ) / 23)) = r at hr ⊢
    generalize Real.cos ((i : ℝ) * (2399963229728653 / 1000000000000000)) = c at hcs ⊢
    generalize Real.sin ((i : ℝ) * (2399963229728653 / 1000000000000000)) = sn at hcs ⊢
    generalize (3 : ℝ) + ((i % 7 : Nat) : ℝ) * (4 / 10) = s at hs ⊢
    generalize (1 : ℝ) - 2 * (i : ℝ) / 23 = y at hr ⊢
    have e : r * c * s * (r * c * s) + y * s * (y * s) + r * sn * s * (r * sn * s) = s * s := by
      have : r * c * s * (r * c * s) + y * s * (y * s) + r * sn * s * (r * sn * s)
          = s * s * ((r * r) * (c ^ 2 + sn ^ 2) + y * y) := by ring
      rw [this, hcs, hr]
      ring
    rw [e]
    exact Real.sqrt_mul_self hs
  · show (8 : ℝ) / 100 ≤ 8 / 100 + ((i % 4 : Nat) : ℝ) * (3 / 100)
    linarith
  · show (8 : ℝ) / 100 + ((i % 4 : Nat) : ℝ) * (3 / 100) ≤ 17 / 100
    linarith

theorem C27_fragment_spiral_witness :
    ∃ frag : Fragment ℝ,
      (Projectile.startImpactAnimation realMath mainBomb ⟨1, 2, 3⟩).fragments[5]? = some frag ∧
      frag.position = ⟨1, 2, 3⟩ ∧ frag.life = 1 ∧
      frag.size = 8 / 100 + ((5 % 4 : Nat) : ℝ) * (3 / 100) ∧
      frag.velocity =
        ⟨Real.sqrt (1 - (1 - 2 * ((5 : Nat) : ℝ) / 23) ^ 2) *
            Real.cos (((5 : Nat) : ℝ) * (2399963229728653 / 1000000000000000)) *
            (3 + ((5 % 7 : Nat) : ℝ) * (4 / 10)),
          (1 - 2 * ((5 : Nat) : ℝ) / 23) * (3 + ((5 % 7 : Nat) : ℝ) * (4 / 10)) + 1 / 2,
          Real.sqrt (1 - (1 - 2 * ((5 : Nat) : ℝ) / 23) ^ 2) *
            Real.sin (((5 : Nat) : ℝ) * (2399963229728653 / 1000000000000000)) *
            (3 + ((5 % 7 : Nat) : ℝ) * (4 / 10))⟩ ∧
      Vec3.length realMath ⟨frag.velocity.x, frag.velocity.y - 1 / 2, frag.velocity.z⟩
        = 3 + ((5 % 7 : Nat) : ℝ) * (4 / 10) ∧
      3 ≤ 3 + ((5 % 7 : Nat) : ℝ) * (4 / 10) ∧ 3 + ((5 % 7 : Nat) : ℝ) * (4 / 10) ≤ 54 / 10 ∧
      8 / 100 ≤ frag.size ∧ frag.size ≤ 17 / 100 :=
  C27_fragment_spiral mainBomb ⟨1, 2, 3⟩ 5 (by decide)

/-- C26: a bomb launched from rest at (0, 0.5, 0) hits the flat ground in a 1-second update and
shatters; the respawn reset of the next frame puts it back to resting (isLaunched and
isAnimating false) with all 24 fragments still in the collection, while the end of the
animation in update empties it. -/
theorem C26_respawn_keeps_fragments {K : Type} [LinearOrderedField K] (m : MathFns K)
    (bucket : Vec3 K) :
    (bombAfter m ⟨0, 1 / 2, 0⟩
      [BombOp.launch ⟨0, 0, 0⟩, BombOp.update 1 (some flatTerrain),
        BombOp.respawn bucket]).isLaunched = false ∧
    (bombAfter m ⟨0, 1 / 2, 0⟩
      [BombOp.launch ⟨0, 0, 0⟩, BombOp.update 1 (some flatTerrain),
        BombOp.respawn bucket]).isAnimating = false ∧
    (bombAfter m ⟨0, 1 / 2, 0⟩
      [BombOp.launch ⟨0, 0, 0⟩, BombOp.update 1 (some flatTerrain),
        BombOp.respawn bucket]).fragments.length = 24 ∧
    (bombAfter m ⟨0, 1 / 2, 0⟩
      [BombOp.launch ⟨0, 0, 0⟩, BombOp.update 1 (some flatTerrain),
        BombOp.update 2 (some flatTerrain)]).fragments = [] := by
  have hy : (2 : K)⁻¹ ≤ 15 / 100 + 981 / 100 := by norm_num
  simp [bombAfter, BombOp.apply, Projectile.init, Projectile.launch, Projectile.update,
    Projectile.checkCollision, flatTerrain, Vec3.add, Vec3.smul, Vec3.splat, hy,
    Projectile.startImpactAnimation, Projectile.createShatterEffect, respawnBombReset,
    Projectile.updateFragments]

end ShatterFragments

/-! ## Obstacle avoidance of the zombie pass -/

section Avoidance

theorem setAnimationState_speed {K : Type} [LinearOrderedField K] (z : Zombie K)
    (state : ZombieAnimationState) : (z.setAnimationState state).speed = z.speed := by
  simp only [Zombie.setAnimationState]
  split_ifs <;> rfl

theorem moveTowardsTarget_speed {K : Type} [LinearOrderedField K] (m : MathFns K)
    (atan2f : K → K → K) (z : Zombie K) (dt : K) (target : Vec3 K) (terrainHeight : K) :
    (Zombie.moveTowardsTarget m atan2f z dt target terrainHeight).speed = z.speed := by
  simp only [Zombie.moveTowardsTarget]
  split_ifs <;> rfl

/-- Zombie::update never changes the speed of a zombie. -/
theorem update_speed {K : Type} [LinearOrderedField K] (m : MathFns K) (atan2f : K → K → K)
    (z : Zombie K) (dt : K) (target : Vec3 K) (terrainHeight distance : K) :
    (z.update m atan2f dt target terrainHeight distance).speed = z.speed := by
  by_cases halive : z.alive = true
  · rcases update_alive m atan2f z dt target terrainHeight distance halive
      with ⟨-, hu⟩ | ⟨-, hu⟩ <;> rw [hu]
    · simp only [Zombie.updateIdle, Zombie.attackBranch]
      split_ifs <;>
        simp only [moveTowardsTarget_speed, setAnimationState_speed]
    · simp only [Zombie.updatePatrol, Zombie.attackBranch]
      split_ifs <;>
        simp only [moveTowardsTarget_speed, setAnimationState_speed]
  · simp [Zombie.update, halive]

/-- The zombie the loop body leaves is the updated zombie put through the avoidance. -/
theorem zombieLoopBody_zombie {K : Type} [LinearOrderedField K] (m : MathFns K)
    (atan2f : K → K → K) (f : ZombieFrame K) (cooldown : K) (halive : f.zombie.isAlive = true) :
    (zombieLoopBody m atan2f f cooldown).1 = avoidObstacle m f (zombieAfterUpdate m atan2f f) := by
  simp only [zombieLoopBody, zombieAttackBlock, halive, if_true]
  split_ifs <;> rfl

/-- In attack range Zombie::update keeps x and z and puts y on the terrain height. -/
theorem update_position_in_attack_range {K : Type} [LinearOrderedField K] (m : MathFns K)
    (atan2f : K → K → K) (z : Zombie K) (dt : K) (target : Vec3 K) (terrainHeight distance : K)
    (halive : z.alive = true) (hrange : distance ≤ z.attackRange) :
    (z.update m atan2f dt target terrainHeight distance).position
      = ⟨z.position.x, terrainHeight, z.position.z⟩ := by
  rcases update_alive m atan2f z dt target terrainHeight distance halive
    with ⟨-, hu⟩ | ⟨-, hu⟩ <;> rw [hu] <;>
    simp only [Zombie.updateIdle, Zombie.updatePatrol, if_pos hrange] <;>
    exact (attackBranch_effect m atan2f z target terrainHeight).2.2

/-- C21: for a living zombie whose position after Zombie::update collides with a tree or wall
(radius 0.25) and whose old position is more than 0.1 from the catapult horizontally, with d
the unit horizontal direction from the old position to the catapult: the final x and z are
those of old + (-d.z, 0, d.x) * speed * dt if that point is collision-free; otherwise those of
old + (d.z, 0, -d.x) * speed * dt if that point is collision-free; otherwise the old x and z. -/
theorem C21_obstacle_avoidance (atan2f : ℝ → ℝ → ℝ) (f : ZombieFrame ℝ) (cooldown : ℝ)
    (halive : f.zombie.isAlive = true)
    (hcol : collisionFree f.terrain (zombieAfterUpdate realMath atan2f f).getPosition = false)
    (hfar : 1 / 10 < horizontalDistance f.zombie.position f.catapultPos) :
    ∃ d left right : Vec3 ℝ,
      d = ⟨(f.catapultPos.x - f.zombie.position.x) /
            horizontalDistance f.zombie.position f.catapultPos, 0,
          (f.catapultPos.z - f.zombie.position.z) /
            horizontalDistance f.zombie.position f.catapultPos⟩ ∧
      d.x ^ 2 + d.z ^ 2 = 1 ∧
      left = f.zombie.position.add
        (((⟨-d.z, 0, d.x⟩ : Vec3 ℝ).smul f.zombie.speed).smul f.deltaTime) ∧
      right = f.zombie.position.add
        (((⟨d.z, 0, -d.x⟩ : Vec3 ℝ).smul f.zombie.speed).smul f.deltaTime) ∧
      (collisionFree f.terrain left = true →
        (zombieLoopBody realMath atan2f f cooldown).1.position.x = left.x ∧
        (zombieLoopBody realMath atan2f f cooldown).1.position.z = left.z) ∧
      (collisionFree f.terrain left = false → collisionFree f.terrain right = true →
        (zombieLoopBody realMath atan2f f cooldown).1.position.x = right.x ∧
        (zombieLoopBody realMath atan2f f cooldown).1.position.z = right.z) ∧
      (collisionFree f.terrain left = false → collisionFree f.terrain right = false →
        (zombieLoopBody realMath atan2f f cooldown).1.position.x = f.zombie.position.x ∧
        (zombieLoopBody realMath atan2f f cooldown).1.position.z = f.zombie.position.z) := by
  have hpos : 0 < horizontalDistance f.zombie.position f.catapultPos := by linarith
  refine ⟨_, _, _, rfl, horizontal_unit _ _ hpos, rfl, rfl, ?_⟩
  rw [zombieLoopBody_zombie realMath atan2f f cooldown halive]
  have hsp : (zombieAfterUpdate realMath atan2f f).getSpeed = f.zombie.speed := by
    simp only [Zombie.getSpeed, zombieAfterUpdate, update_speed]
  have hc : (f.terrain.checkTreeCollision (zombieAfterUpdate realMath atan2f f).getPosition.x
        (zombieAfterUpdate realMath atan2f f).getPosition.z (25 / 100) ||
      f.terrain.checkWallCollision (zombieAfterUpdate realMath atan2f f).getPosition.x
        (zombieAfterUpdate realMath atan2f f).getPosition.z (25 / 100)) = true := by
    simp only [collisionFree] at hcol
    revert hcol
    cases f.terrain.checkTreeCollision (zombieAfterUpdate realMath atan2f f).getPosition.x
        (zombieAfterUpdate realMath atan2f f).getPosition.z (25 / 100) <;>
      cases f.terrain.checkWallCollision (zombieAfterUpdate realMath atan2f f).getPosition.x
        (zombieAfterUpdate realMath atan2f f).getPosition.z (25 / 100) <;> simp
  have hlen := horizontal_length f.zombie.position f.catapultPos
  have hnorm := horizontal_normalize f.zombie.position f.catapultPos
  unfold avoidObstacle
  simp only [Zombie.getPosition] at hc
  simp only [hc, if_true, Zombie.getPosition, hlen, hfar, hnorm, hsp, collisionFree,
    Zombie.setPosition]
  refine ⟨?_, ?_, ?_⟩
  · intro h1
    rw [if_pos h1]
    exact ⟨rfl, rfl⟩
  · intro h1 h2
    rw [if_neg (by simp [h1]), if_pos h2]
    exact ⟨rfl, rfl⟩
  · intro h1 h2
    rw [if_neg (by simp [h1]), if_neg (by simp [h2])]
    exact ⟨rfl, rfl⟩

/-- C21 at the hedge frame: the zombie stands in the hedge next to the catapult, the point to
its left is free. -/
theorem C21_obstacle_avoidance_witness :
    ∃ d left right : Vec3 ℝ,
      d = ⟨((hedgeFrame : ZombieFrame ℝ).catapultPos.x - (hedgeFrame : ZombieFrame ℝ).zombie.position.x) /
            horizontalDistance (hedgeFrame : ZombieFrame ℝ).zombie.position (hedgeFrame : ZombieFrame ℝ).catapultPos, 0,
          ((hedgeFrame : ZombieFrame ℝ).catapultPos.z - (hedgeFrame : ZombieFrame ℝ).zombie.position.z) /
            horizontalDistance (hedgeFrame : ZombieFrame ℝ).zombie.position (hedgeFrame : ZombieFrame ℝ).catapultPos⟩ ∧
      d.x ^ 2 + d.z ^ 2 = 1 ∧
      left = (hedgeFrame : ZombieFrame ℝ).zombie.position.add
        (((⟨-d.z, 0, d.x⟩ : Vec3 ℝ).smul (hedgeFrame : ZombieFrame ℝ).zombie.speed).smul (hedgeFrame : ZombieFrame ℝ).deltaTime) ∧
      right = (hedgeFrame : ZombieFrame ℝ).zombie.position.add
        (((⟨d.z, 0, -d.x⟩ : Vec3 ℝ).smul (hedgeFrame : ZombieFrame ℝ).zombie.speed).smul (hedgeFrame : ZombieFrame ℝ).deltaTime) ∧
      (collisionFree (hedgeFrame : ZombieFrame ℝ).terrain left = true →
        (zombieLoopBody realMath realAtan2 hedgeFrame 0).1.position.x = left.x ∧
        (zombieLoopBody realMath realAtan2 hedgeFrame 0).1.position.z = left.z) ∧
      (collisionFree (hedgeFrame : ZombieFrame ℝ).terrain left = false → collisionFree (hedgeFrame : ZombieFrame ℝ).terrain right = true →
        (zombieLoopBody realMath realAtan2 hedgeFrame 0).1.position.x = right.x ∧
        (zombieLoopBody realMath realAtan2 hedgeFrame 0).1.position.z = right.z) ∧
      (collisionFree (hedgeFrame : ZombieFrame ℝ).terrain left = false → collisionFree (hedgeFrame : ZombieFrame ℝ).terrain right = false →
        (zombieLoopBody realMath realAtan2 hedgeFrame 0).1.position.x = (hedgeFrame : ZombieFrame ℝ).zombie.position.x ∧
        (zombieLoopBody realMath realAtan2 hedgeFrame 0).1.position.z = (hedgeFrame : ZombieFrame ℝ).zombie.position.z) := by
  have hd : distanceToCatapult realMath (hedgeFrame : ZombieFrame ℝ) = 1 := by
    simp [distanceToCatapult, hedgeFrame, Zombie.getPosition, Zombie.init, Vec3.sub, Vec3.length,
      Vec3.dot, realMath]
  have hp : (zombieAfterUpdate realMath realAtan2 (hedgeFrame : ZombieFrame ℝ)).position
      = ⟨0, 0, 0⟩ := by
    simp only [zombieAfterUpdate]
    rw [update_position_in_attack_range _ _ _ _ _ _ _ rfl
      (by rw [hd]; norm_num [hedgeFrame, Zombie.init])]
    simp [hedgeFrame, Zombie.init, Zombie.getPosition]
  exact C21_obstacle_avoidance realAtan2 hedgeFrame 0 rfl
    (by simp only [collisionFree, Zombie.getPosition, hp]; simp [hedgeFrame])
    (by norm_num [horizontalDistance, hedgeFrame, Zombie.init])

end Avoidance

/-! ## The vertex-count table of the catapult mesh -/

section VertexCounts

/-- Every index draw reads is at most t + 13. -/
theorem read_index_bound {K : Type} (c : Catapult K) : ∀ i ∈ c.drawReads, i ≤ c.tiers + 13 := by
  intro i hi
  simp only [Catapult.drawReads, List.mem_append, List.mem_flatMap, List.mem_range,
    List.mem_cons, List.mem_singleton, List.not_mem_nil, or_false] at hi
  rcases hi with (⟨a, ha, h⟩ | h) | ⟨a, ha, h⟩ <;> omega

variable {K : Type} [LinearOrderedField K]

theorem length_flatMap_const {α β : Type} (l : List α) (f : α → List β) (n : Nat)
    (h : ∀ a, (f a).length = n) : (l.flatMap f).length = l.length * n := by
  induction l with
  | nil => simp
  | cons a l ih => simp [List.flatMap_cons, h, ih, Nat.succ_mul, Nat.add_comm]

theorem addBox_length (x y z width height depth : K) :
    (addBox x y z width height depth).length = 36 := by
  simp [addBox, flatTriangle]

theorem addHollowBox_length (x y z width height depth bt : K) :
    (addHollowBox x y z width height depth bt).length = 144 := by
  simp [addHollowBox, addBox_length]

theorem addRotatedBox_length (m : MathFns K) (fixedX fixedY fixedZ length width height angle : K) :
    (addRotatedBox m fixedX fixedY fixedZ length width height angle).length = 36 := by
  simp [addRotatedBox, flatTriangle]

theorem addBowlOuter_length (m : MathFns K) (centerX centerY centerZ w h d rotAngle : K) :
    (addBowlOuter m centerX centerY centerZ w h d rotAngle).length = 1152 := by
  unfold addBowlOuter
  rw [length_flatMap_const _ _ 144 (fun layer => by
    rw [length_flatMap_const _ _ 6 (fun i => by simp [bowlOuterPatch]), List.length_range]),
    List.length_range]

theorem addBowlInner_length (m : MathFns K) (centerX centerY centerZ w h d bt rotAngle : K) :
    (addBowlInner m centerX centerY centerZ w h d bt rotAngle).length = 1296 := by
  unfold addBowlInner
  rw [List.length_append, length_flatMap_const _ _ 144 (fun layer => by
    rw [length_flatMap_const _ _ 6 (fun i => by simp [bowlInnerPatch]), List.length_range]),
    length_flatMap_const _ _ 6 (fun i => by simp [bowlRimPatch, flatTriangle]),
    List.length_range, List.length_range]

theorem addStretchedBox_length (m : MathFns K) (x1 y1 z1 x2 y2 z2 thickness : K) :
    (addStretchedBox m x1 y1 z1 x2 y2 z2 thickness).length = 36 := by
  simp [addStretchedBox, flatTriangle]

theorem rubberBand_length (m : MathFns K) (c : Catapult K) :
    (c.rubberBand m).length = if c.rubberBandsVisible then 36 else 0 := by
  unfold Catapult.rubberBand
  split_ifs <;> simp [addStretchedBox_length]

theorem releaseRope_length (m : MathFns K) (c : Catapult K) :
    (c.releaseRope m).length = if c.releaseRopeAttached then 36 else 0 := by
  unfold Catapult.releaseRope
  split_ifs <;> simp [addStretchedBox_length]

/-- The writes of rebuildGeometry with every measured count evaluated. -/
theorem countWrites_eq (m : MathFns K) (c : Catapult K) :
    (c.rebuildGeometry m).countWrites =
      (List.range c.tiers).map (fun i => (i, 144)) ++
        [(c.tiers, 144), (c.tiers + 1, 144), (c.tiers + 2, 36), (c.tiers + 3, 36),
          (c.tiers + 4, 36), (c.tiers + 5, 1296), (c.tiers + 6, 1152),
          (c.tiers + 7, if c.rubberBandsVisible then 36 else 0), (c.tiers + 8, 0),
          (c.tiers + 9, if c.releaseRopeAttached then 36 else 0)] ++
        (List.range 4).map (fun w => (c.tiers + 10 + w, 336)) ++
        (List.range' (c.tiers + 10 + 4) (20 - (c.tiers + 10 + 4))).map (fun k => (k, 0)) := by
  simp only [Catapult.rebuildGeometry, Catapult.tierPlank, addHollowBox_length, addBox_length,
    addRotatedBox_length, addBowlInner_length, addBowlOuter_length, rubberBand_length,
    releaseRope_length]

/-- Every index rebuildGeometry writes is at most t + 13 or, in the zeroing loop, at most 19. -/
theorem write_index_bound (m : MathFns K) (c : Catapult K) :
    ∀ i ∈ (c.rebuildGeometry m).countWrites.map Prod.fst, i ≤ max (c.tiers + 13) 19 := by
  intro i hi
  rw [countWrites_eq] at hi
  simp only [List.map_append, List.map_map, List.mem_append, List.mem_map, List.mem_range,
    List.mem_range', Function.comp] at hi
  simp only [List.mem_cons, List.mem_singleton, List.not_mem_nil, or_false] at hi
  rw [le_max_iff]
  rcases hi with ((⟨a, ha, rfl⟩ | ⟨a, ha, rfl⟩) | ⟨a, ha, rfl⟩) | ⟨a, ⟨j, hj, rfl⟩, rfl⟩
  · left; omega
  · left
    rcases ha with h | h | h | h | h | h | h | h | h | h <;> rw [h] <;> dsimp only <;> omega
  · left; omega
  · right; omega

/-- C29, where it fails: the catapult as constructed has t = 1, and its rebuildGeometry writes
slot 19 in the zeroing loop, beyond t + 13 = 14. -/
theorem C29_zeroing_loop_index :
    (Catapult.init : Catapult ℚ).tiers = 1 ∧
    19 ∈ ((Catapult.init : Catapult ℚ).rebuildGeometry ⟨id, id, id⟩).countWrites.map Prod.fst ∧
    ¬ (∀ i ∈ (Catapult.init : Catapult ℚ).tableIndices ⟨id, id, id⟩,
        i ≤ (Catapult.init : Catapult ℚ).tiers + 13) := by
  have ht : (Catapult.init : Catapult ℚ).tiers = 1 := by decide
  have h19 : 19 ∈
      ((Catapult.init : Catapult ℚ).rebuildGeometry ⟨id, id, id⟩).countWrites.map Prod.fst := by
    rw [countWrites_eq, ht]
    decide
  refine ⟨ht, h19, fun h => ?_⟩
  have := h 19 (by
    simp only [Catapult.tableIndices, List.mem_append]
    exact Or.inl h19)
  omega

/-- C29: the indices at which rebuildGeometry writes and draw reads the 20-slot table all lie
in [0, 20) exactly when t = max(1, tierCount) ≤ 6; index t + 13 is written and read, no read
goes beyond it, and no write goes beyond the larger of t + 13 and 19 (the zeroing loop stops
at 19); setTiering stores any count unchanged, and for every count ≥ 7 an index of at least 20
is written and read. -/
theorem C29_table_index_range (m : MathFns K) (c : Catapult K) :
    ((∀ i ∈ c.tableIndices m, i < 20) ↔ c.tiers ≤ 6) ∧
    (c.tiers + 13 ∈ (c.rebuildGeometry m).countWrites.map Prod.fst ∧
      c.tiers + 13 ∈ c.drawReads ∧ (∀ i ∈ c.drawReads, i ≤ c.tiers + 13) ∧
      ∀ i ∈ (c.rebuildGeometry m).countWrites.map Prod.fst, i ≤ max (c.tiers + 13) 19) ∧
    (∀ (count : Int) (gapY : K), (c.setTiering count gapY).tierCount = count) ∧
    (∀ (count : Int) (gapY : K), 7 ≤ count →
      (∃ i ∈ ((c.setTiering count gapY).rebuildGeometry m).countWrites.map Prod.fst, 20 ≤ i) ∧
      (∃ i ∈ (c.setTiering count gapY).drawReads, 20 ≤ i)) := by
  have hw : ∀ c : Catapult K, c.tiers + 13 ∈ (c.rebuildGeometry m).countWrites.map Prod.fst := by
    intro c
    rw [countWrites_eq]
    simp [List.range_succ]
  have hr : ∀ c : Catapult K, c.tiers + 13 ∈ c.drawReads := by
    intro c
    simp [Catapult.drawReads, List.range_succ]
  have hset : ∀ (count : Int) (gapY : K), 7 ≤ count → 7 ≤ (c.setTiering count gapY).tiers := by
    intro count gapY h7
    simp only [Catapult.tiers, Catapult.setTiering]
    rw [if_neg (by omega)]
    omega
  refine ⟨⟨fun h => ?_, fun h i hi => ?_⟩,
    ⟨hw c, hr c, read_index_bound c, write_index_bound m c⟩, fun _ _ => rfl,
    fun count gapY h7 => ⟨⟨_, hw _, ?_⟩, ⟨_, hr _, ?_⟩⟩⟩
  · have := h (c.tiers + 13) (by
      simp only [Catapult.tableIndices, List.mem_append]
      exact Or.inl (hw c))
    omega
  · simp only [Catapult.tableIndices, List.mem_append] at hi
    rcases hi with hi | hi
    · have := write_index_bound m c i hi
      rw [le_max_iff] at this
      omega
    · have := read_index_bound c i hi
      omega
  · have := hset count gapY h7
    omega
  · have := hset count gapY h7
    omega

end VertexCounts

/-! ## The stretched box of the rubber band and the release rope -/

section StretchedBox

/-- C23: after setArmRotation(0), setHorizontalPlankSize(0.08, 0, 0.59) and
setHorizontalPlankPosition(-1.1, -0.2, 0) the rubber band is visible and both its end points
are (-1.1, -0.2, 0), so rebuildGeometry calls addStretchedBox with coincident end points: the
length it divides by is 0. -/
theorem C23_zero_length_stretch :
    (slackBandCatapult : Catapult ℝ).rubberBandsVisible = true ∧
    (slackBandCatapult : Catapult ℝ).rubberArm realMath = ⟨-(11 / 10), -(2 / 10), 0⟩ ∧
    (slackBandCatapult : Catapult ℝ).rubberPlank = ⟨-(11 / 10), -(2 / 10), 0⟩ ∧
    (slackBandCatapult : Catapult ℝ).rubberBand realMath =
      addStretchedBox realMath (-(11 / 10)) (-(2 / 10)) 0 (-(11 / 10)) (-(2 / 10)) 0
        (slackBandCatapult : Catapult ℝ).rubberThickness ∧
    stretchLength realMath (-(11 / 10)) (-(2 / 10)) 0 (-(11 / 10)) (-(2 / 10)) 0 = 0 := by
  have hv : (slackBandCatapult : Catapult ℝ).rubberBandsVisible = true := rfl
  have ha : (slackBandCatapult : Catapult ℝ).rubberArm realMath = ⟨-(11 / 10), -(2 / 10), 0⟩ := by
    simp [Catapult.rubberArm, slackBandCatapult, Catapult.setArmRotation,
      Catapult.setHorizontalPlankSize, Catapult.setHorizontalPlankPosition, Catapult.init,
      Catapult.updateArmAngleFromSpeed, Catapult.defaults, realMath]
  have hp : (slackBandCatapult : Catapult ℝ).rubberPlank = ⟨-(11 / 10), -(2 / 10), 0⟩ := by
    simp [Catapult.rubberPlank, slackBandCatapult, Catapult.setArmRotation,
      Catapult.setHorizontalPlankSize, Catapult.setHorizontalPlankPosition]
  refine ⟨hv, ha, hp, ?_, ?_⟩
  · simp only [Catapult.rubberBand, hv, if_true, ha, hp]
  · simp [stretchLength, realMath]

/-- C24: for p1 = (0, 0, 0), p2 = (1, 0, 0) and thickness 0.02 the stretched box has
dir = (1, 0, 0), right = (0, 0, 1), forward = (0, 1, 0); its first two triangles are the cap
at p1 (every vertex has x = 0) and carry the normal (0, -1, 0) = -forward, not -dir, and its
next two triangles are the cap at p2 (every vertex has x = 1) and carry (0, 1, 0) = forward,
not dir. -/
theorem C24_cap_normals :
    stretchDir realMath 0 0 0 1 0 0 = ⟨1, 0, 0⟩ ∧
    stretchRight realMath 0 0 0 1 0 0 = ⟨0, 0, 1⟩ ∧
    stretchForward realMath 0 0 0 1 0 0 = ⟨0, 1, 0⟩ ∧
    ((addStretchedBox realMath 0 0 0 1 0 0 (2 / 100)).take 6).map (fun v => v.position.x)
      = [0, 0, 0, 0, 0, 0] ∧
    ((addStretchedBox realMath 0 0 0 1 0 0 (2 / 100)).take 6).map Vertex.normal
      = List.replicate 6 ⟨0, -1, 0⟩ ∧
    (((addStretchedBox realMath 0 0 0 1 0 0 (2 / 100)).drop 6).take 6).map
      (fun v => v.position.x) = [1, 1, 1, 1, 1, 1] ∧
    (((addStretchedBox realMath 0 0 0 1 0 0 (2 / 100)).drop 6).take 6).map Vertex.normal
      = List.replicate 6 ⟨0, 1, 0⟩ := by
  have hd : stretchDir realMath 0 0 0 1 0 0 = ⟨1, 0, 0⟩ := by
    simp [stretchDir, stretchLength, realMath]
  have hr : stretchRight realMath 0 0 0 1 0 0 = ⟨0, 0, 1⟩ := by
    have h99 : ¬ ((99 : ℝ) / 100 < 0) := by norm_num
    simp only [stretchRight, hd]
    simp [h99, glmCross, glmNormalize, Vec3.smul, Vec3.dot, realMath]
  have hf : stretchForward realMath 0 0 0 1 0 0 = ⟨0, 1, 0⟩ := by
    simp only [stretchForward, hd, hr]
    simp [glmCross, glmNormalize, Vec3.smul, Vec3.dot, realMath]
  refine ⟨hd, hr, hf, ?_, ?_, ?_, ?_⟩ <;>
    simp only [addStretchedBox, hr, hf] <;>
    simp [flatTriangle, Vec3.add, Vec3.sub, Vec3.smul, Vec3.neg]

end StretchedBox

/-! ## The bucket position in world space -/

section BucketPosition

/-- The yaw rotation by angle 0 leaves a matrix as it is. -/
theorem glmRotateMat4_zero (M : Mat4 ℝ) : glmRotateMat4 realMath M 0 ⟨0, 1, 0⟩ = M := by
  obtain ⟨⟨⟨a1, a2, a3⟩, ⟨b1, b2, b3⟩, ⟨c1, c2, c3⟩⟩, t⟩ := M
  simp [glmRotateMat4, glmRotate, glmNormalize, Mat3.mulDir, Vec3.add, Vec3.smul, Vec3.dot,
    realMath]

/-- C25: getBucketPositionWorld returns M * b, where M is the model matrix draw builds from
the same inputs and b is the bucket centre of rebuildGeometry; M is translate(position), then
translate(0, terrainHeight + 0.2 + wheelRadius, 0), then the slope rotation unless the axis
length or the angle is at most 0.001, then the yaw rotation; b is
pivot - (armDepth + 0.16) * (cos, sin, 0) + bucket offset; with the flat normal (0, 1, 0) and
yaw 0 the result is position + (0, terrainHeight + 0.2 + wheelRadius, 0) + b. -/
theorem C25_bucket_world_position :
    (∀ (K : Type) [LinearOrderedField K] (m : MathFns K) (acosf : K → K) (c : Catapult K)
        (terrainHeight : K) (terrainNormal : Vec3 K),
      c.getBucketPositionWorld m acosf terrainHeight terrainNormal
        = (c.drawModel m acosf terrainHeight terrainNormal).mulPoint (c.bucketCenter m) ∧
      c.bucketCenter m
        = ⟨c.armPivotX - (c.armDepth + 16 / 100) * m.cosf c.armAngle + c.bucketOffsetX,
            c.armPivotY - (c.armDepth + 16 / 100) * m.sinf c.armAngle + c.bucketOffsetY,
            c.armPivotZ + c.bucketOffsetZ⟩ ∧
      c.drawModel m acosf terrainHeight terrainNormal
        = glmRotateMat4 m
            (if (glmCross ⟨0, 1, 0⟩ (glmNormalize m terrainNormal)).length m ≤ 1 / 1000 ∨
                acosf (Catapult.glmClamp
                  ((⟨0, 1, 0⟩ : Vec3 K).dot (glmNormalize m terrainNormal)) (-1) 1) ≤ 1 / 1000 then
              glmTranslate (glmTranslate Mat4.identity c.position)
                ⟨0, terrainHeight + 2 / 10 + c.wheelRadius, 0⟩
            else
              glmRotateMat4 m
                (glmTranslate (glmTranslate Mat4.identity c.position)
                  ⟨0, terrainHeight + 2 / 10 + c.wheelRadius, 0⟩)
                (acosf (Catapult.glmClamp
                  ((⟨0, 1, 0⟩ : Vec3 K).dot (glmNormalize m terrainNormal)) (-1) 1))
                (glmNormalize m (glmCross ⟨0, 1, 0⟩ (glmNormalize m terrainNormal))))
            c.rotation ⟨0, 1, 0⟩) ∧
    (∀ (c : Catapult ℝ) (terrainHeight : ℝ), c.rotation = 0 →
      c.getBucketPositionWorld realMath Real.arccos terrainHeight ⟨0, 1, 0⟩
        = (c.position.add ⟨0, terrainHeight + 2 / 10 + c.wheelRadius, 0⟩).add
            (c.bucketCenter realMath)) := by
  have hmodel : ∀ (K : Type) [LinearOrderedField K] (m : MathFns K) (acosf : K → K)
      (c : Catapult K) (terrainHeight : K) (terrainNormal : Vec3 K),
      c.drawModel m acosf terrainHeight terrainNormal
        = glmRotateMat4 m
            (if (glmCross ⟨0, 1, 0⟩ (glmNormalize m terrainNormal)).length m ≤ 1 / 1000 ∨
                acosf (Catapult.glmClamp
                  ((⟨0, 1, 0⟩ : Vec3 K).dot (glmNormalize m terrainNormal)) (-1) 1) ≤ 1 / 1000 then
              glmTranslate (glmTranslate Mat4.identity c.position)
                ⟨0, terrainHeight + 2 / 10 + c.wheelRadius, 0⟩
            else
              glmRotateMat4 m
                (glmTranslate (glmTranslate Mat4.identity c.position)
                  ⟨0, terrainHeight + 2 / 10 + c.wheelRadius, 0⟩)
                (acosf (Catapult.glmClamp
                  ((⟨0, 1, 0⟩ : Vec3 K).dot (glmNormalize m terrainNormal)) (-1) 1))
                (glmNormalize m (glmCross ⟨0, 1, 0⟩ (glmNormalize m terrainNormal))))
            c.rotation ⟨0, 1, 0⟩ := by
    intro K _ m acosf c terrainHeight terrainNormal
    have e : terrainHeight + -(-(2 / 10) - c.wheelRadius) = terrainHeight + 2 / 10 + c.wheelRadius := by
      ring
    simp only [Catapult.drawModel, e]
    congr 1
    by_cases h : 1 / 1000 < (glmCross ⟨0, 1, 0⟩ (glmNormalize m terrainNormal)).length m ∧
        1 / 1000 < acosf (Catapult.glmClamp
          ((⟨0, 1, 0⟩ : Vec3 K).dot (glmNormalize m terrainNormal)) (-1) 1)
    · rw [if_pos h, if_neg (by rw [not_or, not_le, not_le]; exact h)]
    · rw [if_neg h, if_pos (by rw [not_and_or, not_lt, not_lt] at h; exact h)]
  refine ⟨fun K _ m acosf c terrainHeight terrainNormal => ⟨rfl, ?_, hmodel K m acosf c _ _⟩, ?_⟩
  · simp only [Catapult.bucketCenter, Vec3.mk.injEq, and_true]
    constructor <;> ring
  · intro c terrainHeight hrot
    have hb : c.getBucketPositionWorld realMath Real.arccos terrainHeight ⟨0, 1, 0⟩
        = (c.drawModel realMath Real.arccos terrainHeight ⟨0, 1, 0⟩).mulPoint
            (c.bucketCenter realMath) := rfl
    have hn : glmNormalize realMath (⟨0, 1, 0⟩ : Vec3 ℝ) = ⟨0, 1, 0⟩ := by
      simp [glmNormalize, Vec3.smul, Vec3.dot, realMath]
    have hax : (glmCross (⟨0, 1, 0⟩ : Vec3 ℝ) ⟨0, 1, 0⟩).length realMath = 0 := by
      simp [glmCross, Vec3.length, Vec3.dot, realMath]
    rw [hb, hmodel, hn, hax, if_pos (Or.inl (by norm_num)), hrot, glmRotateMat4_zero]
    simp [Mat4.mulPoint, glmTranslate, Mat4.identity, Mat3.mulDir, Vec3.add, Vec3.smul]
    refine ⟨?_, ?_, ?_⟩ <;> ring

/-- C25 at the catapult as constructed, which has yaw 0. -/
theorem C25_bucket_world_position_witness :
    (Catapult.init : Catapult ℝ).rotation = 0 ∧
    (Catapult.init : Catapult ℝ).getBucketPositionWorld realMath Real.arccos 0 ⟨0, 1, 0⟩
      = ((Catapult.init : Catapult ℝ).position.add
          ⟨0, 0 + 2 / 10 + (Catapult.init : Catapult ℝ).wheelRadius, 0⟩).add
          ((Catapult.init : Catapult ℝ).bucketCenter realMath) :=
  ⟨rfl, C25_bucket_world_position.2 Catapult.init 0 rfl⟩

end BucketPosition

/-! ## Ground clamping of the zombies -/

section GroundClamping

variable {K : Type} [LinearOrderedField K]

/-- Zombie::moveTowardsTarget puts y on the terrain height when it moves the zombie (target
more than 0.1 away horizontally), leaves the position alone otherwise, and never touches the
patrol target. -/
theorem moveTowardsTarget_clamp (m : MathFns K) (atan2f : K → K → K) (z : Zombie K) (dt : K)
    (target : Vec3 K) (terrainHeight : K) :
    (1 / 10 < Vec3.length m ({ target.sub z.position with y := 0 } : Vec3 K) →
      (Zombie.moveTowardsTarget m atan2f z dt target terrainHeight).position.y
        = terrainHeight) ∧
    (Vec3.length m ({ target.sub z.position with y := 0 } : Vec3 K) ≤ 1 / 10 →
      (Zombie.moveTowardsTarget m atan2f z dt target terrainHeight).position = z.position) ∧
    (Zombie.moveTowardsTarget m atan2f z dt target terrainHeight).currentPatrolTarget
      = z.currentPatrolTarget := by
  simp only [Zombie.moveTowardsTarget]
  refine ⟨fun h => ?_, fun h => ?_, ?_⟩
  · rw [if_pos h]
  · rw [if_neg (not_lt.mpr h)]
  · split_ifs <;> rfl

/-- The idle branch of Zombie::updateIdle puts y on the terrain height. -/
theorem updateIdle_far (m : MathFns K) (atan2f : K → K → K) (z : Zombie K) (dt : K)
    (target : Vec3 K) (terrainHeight distance : K) (h1 : z.attackRange < distance)
    (h2 : z.detectionRadius < distance) :
    (Zombie.updateIdle m atan2f z dt target terrainHeight distance).position.y
      = terrainHeight := by
  simp only [Zombie.updateIdle, if_neg (not_le.mpr h1), if_neg (not_le.mpr h2)]

/-- A chase tick is Zombie::moveTowardsTarget on a zombie standing where it stood. -/
theorem update_chase (m : MathFns K) (atan2f : K → K → K) (z : Zombie K) (dt : K)
    (target : Vec3 K) (terrainHeight distance : K) (halive : z.alive = true)
    (h1 : z.attackRange < distance) (h2 : distance ≤ z.detectionRadius) :
    ∃ z2 : Zombie K, z2.position = z.position ∧
      z.update m atan2f dt target terrainHeight distance
        = Zombie.moveTowardsTarget m atan2f z2 dt target terrainHeight := by
  refine ⟨({ z with isChasing := true } : Zombie K).setAnimationState
    ZombieAnimationState.RUNNING, (setAnimationState_keeps _ _).2.1, ?_⟩
  rcases update_alive m atan2f z dt target terrainHeight distance halive
    with ⟨-, hu⟩ | ⟨-, hu⟩ <;> rw [hu] <;>
    simp only [Zombie.updateIdle, Zombie.updatePatrol, if_neg (not_le.mpr h1), if_pos h2]

/-- A patrol tick is Zombie::moveTowardsTarget, towards its own patrol target, on a zombie
standing where it stood. -/
theorem update_patrol (m : MathFns K) (atan2f : K → K → K) (z : Zombie K) (dt : K)
    (target : Vec3 K) (terrainHeight distance : K) (halive : z.alive = true)
    (hb : z.behavior = ZombieBehavior.PATROL)
    (h1 : z.attackRange < distance) (h2 : z.detectionRadius < distance) :
    ∃ z3 : Zombie K, z3.position = z.position ∧
      z.update m atan2f dt target terrainHeight distance
        = Zombie.moveTowardsTarget m atan2f z3 dt z3.currentPatrolTarget terrainHeight := by
  have hp := (setAnimationState_keeps ({ z with isChasing := false } : Zombie K)
    ZombieAnimationState.WALKING).2.1
  rcases update_alive m atan2f z dt target terrainHeight distance halive
    with ⟨hi, -⟩ | ⟨-, hu⟩
  · rw [hb] at hi
    exact absurd hi (by decide)
  · rw [hu]
    simp only [Zombie.updatePatrol, if_neg (not_le.mpr h1), if_neg (not_le.mpr h2)]
    split_ifs <;> refine ⟨_, ?_, rfl⟩ <;> exact hp

/-- C19: after update of an alive zombie the y coordinate equals the terrainHeight argument
in an attack tick, in an idle tick, and in a chase or patrol tick whose target is more than 0.1
away horizontally; in a chase or patrol tick within 0.1 of its target the whole position, y
included, is left as it was.  So after every update either y equals terrainHeight or the
position is unchanged, and y equals terrainHeight afterwards whenever it did before. -/
theorem C19_ground_clamping (m : MathFns K) (atan2f : K → K → K) (z : Zombie K) (dt : K)
    (target : Vec3 K) (terrainHeight distance : K) (halive : z.isAlive = true) :
    ((z.update m atan2f dt target terrainHeight distance).position.y = terrainHeight ∨
      (z.update m atan2f dt target terrainHeight distance).position = z.position) ∧
    (z.position.y = terrainHeight →
      (z.update m atan2f dt target terrainHeight distance).position.y = terrainHeight) ∧
    (distance ≤ z.attackRange →
      (z.update m atan2f dt target terrainHeight distance).position.y = terrainHeight) ∧
    (z.behavior = ZombieBehavior.IDLE → z.attackRange < distance →
      z.detectionRadius < distance →
      (z.update m atan2f dt target terrainHeight distance).position.y = terrainHeight) ∧
    (z.attackRange < distance → distance ≤ z.detectionRadius →
      (1 / 10 < Vec3.length m ({ target.sub z.position with y := 0 } : Vec3 K) →
        (z.update m atan2f dt target terrainHeight distance).position.y = terrainHeight) ∧
      (Vec3.length m ({ target.sub z.position with y := 0 } : Vec3 K) ≤ 1 / 10 →
        (z.update m atan2f dt target terrainHeight distance).position = z.position)) ∧
    (z.behavior = ZombieBehavior.PATROL → z.attackRange < distance →
      z.detectionRadius < distance →
      (1 / 10 < Vec3.length m
          ({ (z.update m atan2f dt target terrainHeight distance).currentPatrolTarget.sub
              z.position with y := 0 } : Vec3 K) →
        (z.update m atan2f dt target terrainHeight distance).position.y = terrainHeight) ∧
      (Vec3.length m
          ({ (z.update m atan2f dt target terrainHeight distance).currentPatrolTarget.sub
              z.position with y := 0 } : Vec3 K) ≤ 1 / 10 →
        (z.update m atan2f dt target terrainHeight distance).position = z.position)) := by
  simp only [Zombie.isAlive] at halive
  have hattack : distance ≤ z.attackRange →
      (z.update m atan2f dt target terrainHeight distance).position.y = terrainHeight := by
    intro h
    rw [update_position_in_attack_range m atan2f z dt target terrainHeight distance halive h]
  have hidle : z.behavior = ZombieBehavior.IDLE → z.attackRange < distance →
      z.detectionRadius < distance →
      (z.update m atan2f dt target terrainHeight distance).position.y = terrainHeight := by
    intro hb h1 h2
    rcases update_alive m atan2f z dt target terrainHeight distance halive
      with ⟨-, hu⟩ | ⟨hp, -⟩
    · rw [hu]
      exact updateIdle_far m atan2f z dt target terrainHeight distance h1 h2
    · rw [hb] at hp
      exact absurd hp (by decide)
  have hchase : z.attackRange < distance → distance ≤ z.detectionRadius →
      (1 / 10 < Vec3.length m ({ target.sub z.position with y := 0 } : Vec3 K) →
        (z.update m atan2f dt target terrainHeight distance).position.y = terrainHeight) ∧
      (Vec3.length m ({ target.sub z.position with y := 0 } : Vec3 K) ≤ 1 / 10 →
        (z.update m atan2f dt target terrainHeight distance).position = z.position) := by
    intro h1 h2
    obtain ⟨z2, hp, hu⟩ := update_chase m atan2f z dt target terrainHeight distance halive h1 h2
    obtain ⟨c1, c2, -⟩ := moveTowardsTarget_clamp m atan2f z2 dt target terrainHeight
    rw [hp] at c1 c2
    rw [hu]
    exact ⟨c1, c2⟩
  have hpatrol : z.behavior = ZombieBehavior.PATROL → z.attackRange < distance →
      z.detectionRadius < distance →
      (1 / 10 < Vec3.length m
          ({ (z.update m atan2f dt target terrainHeight distance).currentPatrolTarget.sub
              z.position with y := 0 } : Vec3 K) →
        (z.update m atan2f dt target terrainHeight distance).position.y = terrainHeight) ∧
      (Vec3.length m
          ({ (z.update m atan2f dt target terrainHeight distance).currentPatrolTarget.sub
              z.position with y := 0 } : Vec3 K) ≤ 1 / 10 →
        (z.update m atan2f dt target terrainHeight distance).position = z.position) := by
    intro hb h1 h2
    obtain ⟨z3, hp, hu⟩ :=
      update_patrol m atan2f z dt target terrainHeight distance halive hb h1 h2
    obtain ⟨c1, c2, c3⟩ :=
      moveTowardsTarget_clamp m atan2f z3 dt z3.currentPatrolTarget terrainHeight
    rw [hp] at c1 c2
    rw [hu, c3]
    exact ⟨c1, c2⟩
  have hall : (z.update m atan2f dt target terrainHeight distance).position.y = terrainHeight ∨
      (z.update m atan2f dt target terrainHeight distance).position = z.position := by
    rcases le_or_lt distance z.attackRange with h1 | h1
    · exact Or.inl (hattack h1)
    · rcases le_or_lt distance z.detectionRadius with h2 | h2
      · rcases lt_or_le (1 / 10)
          (Vec3.length m ({ target.sub z.position with y := 0 } : Vec3 K)) with h3 | h3
        · exact Or.inl ((hchase h1 h2).1 h3)
        · exact Or.inr ((hchase h1 h2).2 h3)
      · cases hb : z.behavior
        · exact Or.inl (hidle hb h1 h2)
        · rcases lt_or_le (1 / 10) (Vec3.length m
            ({ (z.update m atan2f dt target terrainHeight distance).currentPatrolTarget.sub
                z.position with y := 0 } : Vec3 K)) with h3 | h3
          · exact Or.inl ((hpatrol hb h1 h2).1 h3)
          · exact Or.inr ((hpatrol hb h1 h2).2 h3)
  refine ⟨hall, fun hy => ?_, hattack, hidle, hchase, hpatrol⟩
  rcases hall with h | h
  · exact h
  · rw [h]
    exact hy

/-- C19 on a fresh IDLE zombie at the origin chasing a point 5 away (3, 4 horizontally), with
the terrain height 1 passed in. -/
theorem C19_ground_clamping_witness :
    (Zombie.init (⟨0, 0, 0⟩ : Vec3 ℝ) (1 / 100) 1 ZombieBehavior.IDLE 8 false).isAlive = true ∧
    ((Zombie.init (⟨0, 0, 0⟩ : Vec3 ℝ) (1 / 100) 1 ZombieBehavior.IDLE 8 false).update realMath
        realAtan2 (1 / 60) ⟨3, 0, 4⟩ 1 5).position.y = 1 := by
  have h0 : (Zombie.init (⟨0, 0, 0⟩ : Vec3 ℝ) (1 / 100) 1 ZombieBehavior.IDLE 8
      false).isAlive = true := rfl
  have hlen : Vec3.length realMath ({ (⟨3, 0, 4⟩ : Vec3 ℝ).sub
      (Zombie.init (⟨0, 0, 0⟩ : Vec3 ℝ) (1 / 100) 1 ZombieBehavior.IDLE 8 false).position
        with y := 0 } : Vec3 ℝ) = 5 := by
    have e : Real.sqrt 25 = 5 := by
      rw [show (25 : ℝ) = 5 * 5 by norm_num]
      exact Real.sqrt_mul_self (by norm_num)
    simp only [Vec3.length, Vec3.dot, Vec3.sub, realMath, Zombie.init]
    norm_num
    exact e
  refine ⟨h0, ((C19_ground_clamping realMath realAtan2 _ (1 / 60) ⟨3, 0, 4⟩ 1 5 h0).2.2.2.2.1
    (by norm_num [Zombie.init]) (by norm_num [Zombie.init])).1 ?_⟩
  rw [hlen]
  norm_num

end GroundClamping

end SimpleCatapult
